import Mathlib

/-!
# ExaDG: validation of solver configurations, kernels, output and drivers

A shallow embedding of parts of the repository:

* `InputParametersNavierStokes` and `check_input_parameters`
  (include/InputParametersNavierStokes.h),
* `AeroAcoustic.Parameters` and `check`
  (include/exadg/aero_acoustic/user_interface/parameters.h),
* `ConvDiff.Operators.MassMatrixKernel` and `ConvDiff.MassMatrixOperator`
  (include/convection_diffusion/spatial_discretization/operators/mass_operator.h),
* `Structure.OutputGenerator` with `setup` and `evaluate`
  (include/exadg/structure/postprocessor/output_generator.cpp),
* the checkpoint functions of `preCICE.Adapter`
  (include/exadg/fluid_structure_interaction/precice/precice_adapter.h),
* `Structure.main` with `create_input_file` and `run` (include/exadg/structure/solver.h).

A C++ `double` is embedded as `Double`: a rational for a finite value, the two
infinities and NaN, with the comparison operators of IEEE 754 and with the arithmetic
of binary64: every sum, product and quotient is rounded to the nearest double, ties to
even. `AssertThrow` is embedded as an exception carrying the message of
`ExcMessage`. A member function is embedded as a function from the object to the
outcome of the run and the object afterwards; what a run does to its surroundings
(files, console, calls of libraries) is recorded as a list of effects.
-/

namespace ExaDG

/-! ## Doubles and their comparisons -/

/-- Value of a C++ `double`: finite (every finite double is a rational), plus or
minus infinity, or NaN. Signed zeros compare equal and are both `finite 0`. -/
inductive Double where
  | finite (q : ℚ)
  | posInf
  | negInf
  | nan
  deriving DecidableEq

namespace Double

instance : OfNat Double n := ⟨finite n⟩

/-- C++ `a < b` on doubles: false as soon as one side is NaN. -/
def lt : Double → Double → Bool
  | nan, _ => false
  | _, nan => false
  | finite a, finite b => decide (a < b)
  | finite _, posInf => true
  | finite _, negInf => false
  | posInf, _ => false
  | negInf, negInf => false
  | negInf, _ => true

/-- C++ `a > b` on doubles. -/
def gt (a b : Double) : Bool := lt b a

/-- C++ `a <= b` on doubles: false as soon as one side is NaN. -/
def le : Double → Double → Bool
  | nan, _ => false
  | _, nan => false
  | finite a, finite b => decide (a ≤ b)
  | finite _, posInf => true
  | finite _, negInf => false
  | posInf, posInf => true
  | posInf, _ => false
  | negInf, _ => true

/-- C++ `a >= b` on doubles. -/
def ge (a b : Double) : Bool := le b a

/-- The double nearest to the literal `1.e-20`, which is `0x1.79ca10c924223p-67`. -/
def lit_1e_20 : Double := finite (0x179ca10c924223 / 2 ^ 119)

/-- The double nearest to the literal `1.e-12`, which is `0x1.19799812dea11p-40`. -/
def lit_1e_12 : Double := finite (0x119799812dea11 / 2 ^ 92)

/-- Value of `std::numeric_limits<double>::max()`. -/
def max : Double := finite ((2 ^ 53 - 1) * 2 ^ 971)

/-- The double nearest to the literal `1.0e-10`, which is `0x1.b7cdfd9d7bdbbp-34`. -/
def lit_1e_10 : Double := finite (0x1b7cdfd9d7bdbb / 2 ^ 86)

/-! Arithmetic on doubles is that of IEEE 754 binary64 in the default rounding mode: the
exact result of each operation is rounded to the nearest double, ties to the double with an
even significand, and a result beyond the largest double becomes an infinity. Each operation
of an expression is rounded on its own. Signed zeros are not told apart: a zero divisor is
taken as `+0`. -/

/-- The quotient `n / d` of natural numbers rounded to the nearest natural number, a tie to
the even one. -/
def roundNearestEven (n d : Nat) : Nat :=
  if 2 * (n % d) < d then n / d
  else if d < 2 * (n % d) then n / d + 1
  else if n / d % 2 = 0 then n / d
  else n / d + 1

/-- The number of binary digits of `n`, counted in at most `fuel` steps; `fuel = n` is
enough. -/
def binaryDigits : Nat → Nat → Nat
  | 0, _ => 0
  | fuel + 1, n => if n = 0 then 0 else binaryDigits fuel (n / 2) + 1

/-- The integer part of the binary logarithm of `n > 0`. -/
def log2 (n : Nat) : Nat := binaryDigits n n - 1

/-- The binary exponent of the positive rational `n / d`: the integer `e` with
`2 ^ e <= n / d < 2 ^ (e + 1)`, which is `log2 n - log2 d` or one less. -/
def exponent (n d : Nat) : Int :=
  if d * 2 ^ (log2 n - log2 d) ≤ n * 2 ^ (log2 d - log2 n) then
    (log2 n : Int) - (log2 d : Int)
  else
    (log2 n : Int) - (log2 d : Int) - 1

/-- The exponent of the unit in the last place of the doubles around the positive rational
`n / d`: `e - 52` for the exponent `e` of `n / d`, and `-1074` for the subnormal numbers, below
`2 ^ (-1022)`. -/
def ulpExponent (n d : Nat) : Int := Max.max (exponent n d) (-1022) - 52

/-- The double nearest to the positive rational `n / d`: the significand is `n / d` in units in
the last place, rounded to the nearest natural number, a tie to the even one; a result of
`2 ^ 1024` or more is an infinity. -/
def roundPos (n d : Nat) : Double :=
  if 0 ≤ ulpExponent n d then
    if 2 ^ 1024 ≤ roundNearestEven n (d * 2 ^ (ulpExponent n d).toNat)
        * 2 ^ (ulpExponent n d).toNat then
      posInf
    else
      finite ((roundNearestEven n (d * 2 ^ (ulpExponent n d).toNat)
        * 2 ^ (ulpExponent n d).toNat : Nat) : ℚ)
  else
    finite (((roundNearestEven (n * 2 ^ (-ulpExponent n d).toNat) d : Nat) : ℚ)
      / ((2 ^ (-ulpExponent n d).toNat : Nat) : ℚ))

/-- C++ `-a` on doubles. -/
def neg : Double → Double
  | finite a => finite (-a)
  | posInf => negInf
  | negInf => posInf
  | nan => nan

/-- The double nearest to a rational: the rounding of the exact result of an operation, and
the value of a decimal literal. -/
def round (q : ℚ) : Double :=
  if q = 0 then finite 0
  else if 0 < q then roundPos q.num.natAbs q.den
  else neg (roundPos q.num.natAbs q.den)

/-- C++ `a + b` on doubles. -/
def add : Double → Double → Double
  | nan, _ => nan
  | _, nan => nan
  | finite a, finite b => round (a + b)
  | finite _, posInf => posInf
  | finite _, negInf => negInf
  | posInf, finite _ => posInf
  | negInf, finite _ => negInf
  | posInf, posInf => posInf
  | negInf, negInf => negInf
  | posInf, negInf => nan
  | negInf, posInf => nan

/-- C++ `a - b` on doubles: the sum of `a` and `-b`, which is rounded as the difference is. -/
def sub (a b : Double) : Double := add a (neg b)

/-- C++ `a * b` on doubles. -/
def mul : Double → Double → Double
  | nan, _ => nan
  | _, nan => nan
  | finite a, finite b => round (a * b)
  | finite a, posInf => if a = 0 then nan else if 0 < a then posInf else negInf
  | finite a, negInf => if a = 0 then nan else if 0 < a then negInf else posInf
  | posInf, finite b => if b = 0 then nan else if 0 < b then posInf else negInf
  | negInf, finite b => if b = 0 then nan else if 0 < b then negInf else posInf
  | posInf, posInf => posInf
  | posInf, negInf => negInf
  | negInf, posInf => negInf
  | negInf, negInf => posInf

/-- C++ `a / b` on doubles. -/
def div : Double → Double → Double
  | nan, _ => nan
  | _, nan => nan
  | finite a, finite b =>
    if b = 0 then (if a = 0 then nan else if 0 < a then posInf else negInf) else round (a / b)
  | finite _, posInf => finite 0
  | finite _, negInf => finite 0
  | posInf, finite b => if 0 ≤ b then posInf else negInf
  | negInf, finite b => if 0 ≤ b then negInf else posInf
  | posInf, posInf => nan
  | posInf, negInf => nan
  | negInf, posInf => nan
  | negInf, negInf => nan

/-- Conversion of an `unsigned int` to `double`, which is exact. -/
def ofUnsigned (n : Nat) : Double := finite n

/-- Smallest value of a 32-bit `int`. -/
def INT_MIN : Int := -2147483648

/-- Largest value of a 32-bit `int`. -/
def INT_MAX : Int := 2147483647

/-- C++ `int(a)` on a double: the value truncated towards zero. The conversion of NaN, of an
infinity and of a value whose truncation is not an `int` is undefined behaviour: `none`. -/
def toInt : Double → Option Int
  | finite a =>
    if INT_MIN ≤ a.num.tdiv a.den ∧ a.num.tdiv a.den ≤ INT_MAX then some (a.num.tdiv a.den)
    else none
  | posInf => none
  | negInf => none
  | nan => none

end Double

/-- Value of `std::numeric_limits<unsigned int>::max()` for a 32-bit `unsigned int`. -/
def UINT_MAX : Nat := 4294967295

/-! ## Unsigned integers -/

/-- C++ `++c` on a 32-bit `unsigned int`: the successor modulo `2 ^ 32`. -/
def unsigned_increment (c : Nat) : Nat := (c + 1) % 4294967296

/-- C++ `c += n` for a 32-bit `unsigned int c` and an `int n`: the sum modulo `2 ^ 32`. -/
def unsigned_add_int (c : Nat) (n : Int) : Nat := (((c : Int) + n) % 4294967296).toNat

/-! ## Member functions that may throw -/

/-- A member function of an object of type `σ`: run on the object, it either
returns a value or throws an exception (the message), and leaves the object in
some state. -/
def Method (σ α : Type) : Type := σ → Except String α × σ

namespace Method

/-- Returning a value: the object is left as it is. -/
def ret {σ α : Type} (a : α) : Method σ α := fun s => (Except.ok a, s)

/-- Sequencing of statements: an exception of the first ends the run. -/
def seq {σ α β : Type} (m : Method σ α) (f : α → Method σ β) : Method σ β := fun s =>
  match m s with
  | (Except.ok a, s1) => f a s1
  | (Except.error e, s1) => (Except.error e, s1)

instance {σ : Type} : Monad (Method σ) where
  pure := ret
  bind := seq

/-- Reading the object (`*this`). -/
def this {σ : Type} : Method σ σ := fun s => (Except.ok s, s)

/-- An assignment to the object: `*this = f(*this)`. -/
def modify {σ : Type} (f : σ → σ) : Method σ Unit := fun s => (Except.ok (), f s)

/-- Call of a member function of a part of the object (a data member, or one of two objects
held together): the part is read with `get` and written back with `set`. -/
def onPart {σ τ α : Type} (get : σ → τ) (set : τ → σ → σ) (m : Method τ α) : Method σ α := fun s =>
  ((m (get s)).1, set (m (get s)).2 s)

/-- Loop `for(unsigned int i = start; i < stop; ++i) body(i)`, run from `i` on. The loop
variable is embedded as a natural number: it stays below `stop`, so that `++i` does not wrap,
and the loop ends after at most `stop` passes. -/
def forLt {σ : Type} (stop : Nat) (body : Nat → Method σ Unit) (i : Nat) : Method σ Unit :=
  if i < stop then seq (body i) (fun _ => forLt stop body (i + 1)) else ret ()
termination_by stop - i

/-- A run of the model that has no fuel left for a pass of a loop that is due: the run ends
there, as with an exception. A run of the code that is out of fuel for every amount of fuel
does not end. -/
def out_of_fuel {σ α : Type} : Method σ α := fun s => (Except.error "out of fuel", s)

/-- Loop `for(unsigned int i = start; i <= last; ++i) body(i)`, run from `i` on. The loop
variable is a 32-bit `unsigned int`: `++i` is the successor modulo `2 ^ 32`, so that the test
`i <= last` holds for every `i` when `last` is `UINT_MAX`. Each pass takes one unit of
`fuel`. -/
def forLe {σ : Type} (last : Nat) (body : Nat → Method σ Unit) : Nat → Nat → Method σ Unit
  | 0, i => if i ≤ last then out_of_fuel else ret ()
  | fuel + 1, i =>
    if i ≤ last then seq (body i) (fun _ => forLe last body fuel (unsigned_increment i))
    else ret ()

/-- The calls `body(x)` for the elements `x` of a list, in their order. -/
def forEach {σ α : Type} (body : α → Method σ Unit) : List α → Method σ Unit
  | [] => ret ()
  | x :: l => seq (body x) (fun _ => forEach body l)

/-- A statement whose behaviour is undefined in C++: the run ends there, as with an
exception. -/
def undefined_behaviour {σ α : Type} : Method σ α := fun s =>
  (Except.error "undefined behaviour", s)

/-- Outcome of a run: the exception thrown or the value returned. -/
def outcome {σ α : Type} (m : Method σ α) (s : σ) : Except String α := (m s).1

/-- The object after a run. -/
def after {σ α : Type} (m : Method σ α) (s : σ) : σ := (m s).2

/-- The run ends without an exception. -/
def accepts {σ : Type} (m : Method σ Unit) (s : σ) : Prop := outcome m s = Except.ok ()

/-- The run ends with an exception. -/
def rejects {σ : Type} (m : Method σ Unit) (s : σ) : Prop := ∃ e, outcome m s = Except.error e

instance {σ : Type} (m : Method σ Unit) (s : σ) : Decidable (accepts m s) :=
  match h : outcome m s with
  | Except.ok () => isTrue h
  | Except.error _ => isFalse (by simp [accepts, h])

instance {σ : Type} (m : Method σ Unit) (s : σ) : Decidable (rejects m s) :=
  match h : outcome m s with
  | Except.ok () => isFalse (by simp [rejects, h])
  | Except.error e => isTrue ⟨e, h⟩

end Method

/-- deal.II `AssertThrow(cond, ExcMessage(msg))`: throws `msg` unless `cond` holds. -/
def AssertThrow {σ : Type} (cond : Bool) (msg : String) : Method σ Unit := fun s =>
  if cond then (Except.ok (), s) else (Except.error msg, s)

/-! ## Enumerations of include/InputParametersNavierStokes.h -/

/-- ProblemType describes whether a steady or an unsteady problem has to be solved. -/
inductive ProblemType where
  | Undefined
  | Steady
  | Unsteady
  deriving DecidableEq, Repr

/-- EquationType describes the model that has to be solved: Stokes or Navier-Stokes equations. -/
inductive EquationType where
  | Undefined
  | Stokes
  | NavierStokes
  deriving DecidableEq, Repr

/-- Formulation of the viscous term: divergence formulation or Laplace formulation. -/
inductive FormulationViscousTerm where
  | Undefined
  | DivergenceFormulation
  | LaplaceFormulation
  deriving DecidableEq, Repr

/-- Temporal discretization method. -/
inductive TemporalDiscretization where
  | Undefined
  | BDFDualSplittingScheme
  | BDFCoupledSolution
  deriving DecidableEq, Repr

/-- The convective term is treated explicitly or implicitly. -/
inductive TreatmentOfConvectiveTerm where
  | Undefined
  | Explicit
  | Implicit
  deriving DecidableEq, Repr

/-- Calculation of the time step size. -/
inductive TimeStepCalculation where
  | Undefined
  | ConstTimeStepUserSpecified
  | ConstTimeStepCFL
  | AdaptiveTimeStepCFL
  | ConstTimeStepMaxEfficiency
  deriving DecidableEq, Repr

/-- Spatial discretization method. -/
inductive SpatialDiscretization where
  | Undefined
  | DG
  | DGXWall
  deriving DecidableEq, Repr

/-- Interior penalty formulation of the viscous term: SIPG or NIPG. -/
inductive InteriorPenaltyFormulation where
  | Undefined
  | SIPG
  | NIPG
  deriving DecidableEq, Repr

/-- Preconditioner type for the solution of the pressure Poisson equation. -/
inductive PreconditionerPressurePoisson where
  | None
  | Jacobi
  | GeometricMultigrid
  deriving DecidableEq, Repr

/-- Projection type: standard projection, divergence penalty, divergence and continuity penalty. -/
inductive ProjectionType where
  | Undefined
  | NoPenalty
  | DivergencePenalty
  | DivergenceAndContinuityPenalty
  deriving DecidableEq, Repr

/-- Type of projection solver. -/
inductive SolverProjection where
  | LU
  | PCG
  deriving DecidableEq, Repr

/-- Preconditioner type for the solution of the projection step. -/
inductive PreconditionerProjection where
  | None
  | Jacobi
  | InverseMassMatrix
  deriving DecidableEq, Repr

/-- Solver type for the solution of the viscous step. -/
inductive SolverViscous where
  | PCG
  | GMRES
  deriving DecidableEq, Repr

/-- Preconditioner type for the solution of the viscous step. -/
inductive PreconditionerViscous where
  | None
  | Jacobi
  | InverseMassMatrix
  | GeometricMultigrid
  deriving DecidableEq, Repr

/-- Solver for the linearized Navier-Stokes problem. -/
inductive SolverLinearizedNavierStokes where
  | Undefined
  | GMRES
  | FGMRES
  deriving DecidableEq, Repr

/-- Preconditioner type for the linearized Navier-Stokes problem. -/
inductive PreconditionerLinearizedNavierStokes where
  | Undefined
  | None
  | BlockDiagonal
  | BlockTriangular
  | BlockTriangularFactorization
  deriving DecidableEq, Repr

/-- Preconditioner for the (1,1) velocity/momentum block in case of block preconditioning. -/
inductive MomentumPreconditioner where
  | Undefined
  | None
  | InverseMassMatrix
  | VelocityDiffusion
  | VelocityConvectionDiffusion
  deriving DecidableEq, Repr

/-- Solver for the momentum preconditioner: only relevant if MomentumPreconditioner::VelocityConvectionDiffusion. -/
inductive SolverMomentumPreconditioner where
  | Undefined
  | GeometricMultigridVCycle
  | GeometricMultigridGMRES
  deriving DecidableEq, Repr

/-- Preconditioner for the (2,2) pressure/Schur complement block in case of block preconditioning. -/
inductive SchurComplementPreconditioner where
  | Undefined
  | None
  | InverseMassMatrix
  | LaplaceOperator
  | CahouetChabard
  | Elman
  | PressureConvectionDiffusion
  deriving DecidableEq, Repr

/-- Discretization of the Laplacian: classical or compatible. -/
inductive DiscretizationOfLaplacian where
  | Undefined
  | Classical
  | Compatible
  deriving DecidableEq, Repr

/-- Solver for the Schur complement preconditioner: only relevant if the inversion of a Laplace operator is involved. -/
inductive SolverSchurComplementPreconditioner where
  | Undefined
  | GeometricMultigridVCycle
  | GeometricMultigridPCG
  deriving DecidableEq, Repr

/-! ## The parameter class -/

/-- Mass conservation data. -/
structure MassConservationData where
  calculate_mass_error : Bool
  start_time : Double
  sample_every_time_steps : Nat
  deriving DecidableEq

/-- Constructor `MassConservationData()`. -/
def MassConservationData.ctor : MassConservationData :=
  { calculate_mass_error := false
    start_time := Double.max
    sample_every_time_steps := UINT_MAX }

/-- Class `InputParametersNavierStokes<dim>`, with all its data members in the order of
their declaration. The member types `MultigridData`, `OutputDataNavierStokes`,
`ErrorCalculationData`, `LiftAndDragData` and `PressureDifferenceData<dim>` are declared in
headers of their own and are parameters here. -/
structure InputParametersNavierStokes (MultigridData OutputDataNavierStokes ErrorCalculationData
    LiftAndDragData PressureDifferenceData : Type) where
  -- MATHEMATICAL MODEL
  problem_type : ProblemType
  equation_type : EquationType
  formulation_viscous_term : FormulationViscousTerm
  right_hand_side : Bool
  -- PHYSICAL QUANTITIES
  start_time : Double
  end_time : Double
  viscosity : Double
  -- TEMPORAL DISCRETIZATION
  temporal_discretization : TemporalDiscretization
  treatment_of_convective_term : TreatmentOfConvectiveTerm
  calculation_of_time_step_size : TimeStepCalculation
  max_velocity : Double
  cfl : Double
  c_eff : Double
  time_step_size : Double
  max_number_of_time_steps : Nat
  order_time_integrator : Nat
  start_with_low_order : Bool
  -- SPATIAL DISCRETIZATION
  spatial_discretization : SpatialDiscretization
  IP_formulation_viscous : InteriorPenaltyFormulation
  IP_factor_viscous : Double
  gradp_integrated_by_parts : Bool
  gradp_use_boundary_data : Bool
  divu_integrated_by_parts : Bool
  divu_use_boundary_data : Bool
  pure_dirichlet_bc : Bool
  -- HIGH-ORDER DUAL SPLITTING SCHEME
  IP_factor_pressure : Double
  preconditioner_pressure_poisson : PreconditionerPressurePoisson
  multigrid_data_pressure_poisson : MultigridData
  abs_tol_pressure : Double
  rel_tol_pressure : Double
  small_time_steps_stability : Bool
  use_approach_of_ferrer : Bool
  deltat_ref : Double
  projection_type : ProjectionType
  penalty_factor_divergence : Double
  penalty_factor_continuity : Double
  solver_projection : SolverProjection
  preconditioner_projection : PreconditionerProjection
  abs_tol_projection : Double
  rel_tol_projection : Double
  solver_viscous : SolverViscous
  preconditioner_viscous : PreconditionerViscous
  multigrid_data_viscous : MultigridData
  abs_tol_viscous : Double
  rel_tol_viscous : Double
  -- COUPLED NAVIER-STOKES SOLVER
  abs_tol_newton : Double
  rel_tol_newton : Double
  max_iter_newton : Nat
  solver_linearized_navier_stokes : SolverLinearizedNavierStokes
  abs_tol_linear : Double
  rel_tol_linear : Double
  max_iter_linear : Nat
  preconditioner_linearized_navier_stokes : PreconditionerLinearizedNavierStokes
  use_right_preconditioning : Bool
  max_n_tmp_vectors : Nat
  momentum_preconditioner : MomentumPreconditioner
  solver_momentum_preconditioner : SolverMomentumPreconditioner
  multigrid_data_momentum_preconditioner : MultigridData
  rel_tol_solver_momentum_preconditioner : Double
  schur_complement_preconditioner : SchurComplementPreconditioner
  discretization_of_laplacian : DiscretizationOfLaplacian
  solver_schur_complement_preconditioner : SolverSchurComplementPreconditioner
  multigrid_data_schur_complement_preconditioner : MultigridData
  rel_tol_solver_schur_complement_preconditioner : Double
  -- TURBULENCE
  statistics_start_time : Double
  statistics_every : Nat
  cs : Double
  ml : Double
  variabletauw : Bool
  dtauw : Double
  max_wdist_xwall : Double
  -- OUTPUT AND POSTPROCESSING
  print_input_parameters : Bool
  output_data : OutputDataNavierStokes
  error_data : ErrorCalculationData
  output_solver_info_every_timesteps : Nat
  write_restart : Bool
  restart_interval_time : Double
  restart_interval_wall_time : Double
  restart_every_timesteps : Nat
  lift_and_drag_data : LiftAndDragData
  pressure_difference_data : PressureDifferenceData
  mass_data : MassConservationData

/-- The standard constructor that initializes the parameters. The arguments are the values of
`MultigridData()`, `OutputDataNavierStokes()`, `ErrorCalculationData()`, `LiftAndDragData()` and
`PressureDifferenceData<dim>()`. -/
def InputParametersNavierStokes.ctor {MultigridData OutputDataNavierStokes ErrorCalculationData
    LiftAndDragData PressureDifferenceData : Type} (mg : MultigridData)
    (od : OutputDataNavierStokes) (ed : ErrorCalculationData) (ld : LiftAndDragData)
    (pd : PressureDifferenceData) :
    InputParametersNavierStokes MultigridData OutputDataNavierStokes ErrorCalculationData
      LiftAndDragData PressureDifferenceData :=
    -- MATHEMATICAL MODEL
  { problem_type := ProblemType.Undefined
    equation_type := EquationType.Undefined
    formulation_viscous_term := FormulationViscousTerm.Undefined
    right_hand_side := false
    -- PHYSICAL QUANTITIES
    start_time := 0
    end_time := Double.finite (-1)
    viscosity := Double.finite (-1)
    -- TEMPORAL DISCRETIZATION
    temporal_discretization := TemporalDiscretization.Undefined
    treatment_of_convective_term := TreatmentOfConvectiveTerm.Undefined
    calculation_of_time_step_size := TimeStepCalculation.Undefined
    max_velocity := Double.finite (-1)
    cfl := Double.finite (-1)
    c_eff := Double.finite (-1)
    time_step_size := Double.finite (-1)
    max_number_of_time_steps := UINT_MAX
    order_time_integrator := 1
    start_with_low_order := true
    -- SPATIAL DISCRETIZATION
    spatial_discretization := SpatialDiscretization.Undefined
    IP_formulation_viscous := InteriorPenaltyFormulation.Undefined
    IP_factor_viscous := 1
    gradp_integrated_by_parts := false
    gradp_use_boundary_data := false
    divu_integrated_by_parts := false
    divu_use_boundary_data := false
    pure_dirichlet_bc := false
    -- HIGH-ORDER DUAL SPLITTING SCHEME
    IP_factor_pressure := 1
    preconditioner_pressure_poisson := PreconditionerPressurePoisson.GeometricMultigrid
    multigrid_data_pressure_poisson := mg
    abs_tol_pressure := Double.lit_1e_20
    rel_tol_pressure := Double.lit_1e_12
    small_time_steps_stability := false
    use_approach_of_ferrer := false
    deltat_ref := 1
    projection_type := ProjectionType.Undefined
    penalty_factor_divergence := 1
    penalty_factor_continuity := 1
    solver_projection := SolverProjection.PCG
    preconditioner_projection := PreconditionerProjection.InverseMassMatrix
    abs_tol_projection := Double.lit_1e_20
    rel_tol_projection := Double.lit_1e_12
    solver_viscous := SolverViscous.PCG
    preconditioner_viscous := PreconditionerViscous.InverseMassMatrix
    multigrid_data_viscous := mg
    abs_tol_viscous := Double.lit_1e_20
    rel_tol_viscous := Double.lit_1e_12
    -- COUPLED NAVIER-STOKES SOLVER
    abs_tol_newton := Double.lit_1e_20
    rel_tol_newton := Double.lit_1e_12
    max_iter_newton := UINT_MAX
    solver_linearized_navier_stokes := SolverLinearizedNavierStokes.Undefined
    abs_tol_linear := Double.lit_1e_20
    rel_tol_linear := Double.lit_1e_12
    max_iter_linear := UINT_MAX
    preconditioner_linearized_navier_stokes := PreconditionerLinearizedNavierStokes.Undefined
    use_right_preconditioning := true
    max_n_tmp_vectors := 30
    momentum_preconditioner := MomentumPreconditioner.Undefined
    solver_momentum_preconditioner := SolverMomentumPreconditioner.Undefined
    multigrid_data_momentum_preconditioner := mg
    rel_tol_solver_momentum_preconditioner := Double.lit_1e_12
    schur_complement_preconditioner := SchurComplementPreconditioner.Undefined
    discretization_of_laplacian := DiscretizationOfLaplacian.Undefined
    solver_schur_complement_preconditioner := SolverSchurComplementPreconditioner.Undefined
    multigrid_data_schur_complement_preconditioner := mg
    rel_tol_solver_schur_complement_preconditioner := Double.lit_1e_12
    -- TURBULENCE
    statistics_start_time := Double.max
    statistics_every := 1
    cs := 0
    ml := 0
    variabletauw := true
    dtauw := 1
    max_wdist_xwall := Double.finite (-1)
    -- OUTPUT AND POSTPROCESSING
    print_input_parameters := false
    output_data := od
    error_data := ed
    output_solver_info_every_timesteps := 1
    write_restart := false
    restart_interval_time := Double.max
    restart_interval_wall_time := Double.max
    restart_every_timesteps := UINT_MAX
    lift_and_drag_data := ld
    pressure_difference_data := pd
    mass_data := MassConservationData.ctor }

section check

variable {MultigridData OutputDataNavierStokes ErrorCalculationData LiftAndDragData
  PressureDifferenceData : Type}

/-- Member function `InputParametersNavierStokes::check_input_parameters()`
(InputParametersNavierStokes.h, lines 484 to 546). -/
def InputParametersNavierStokes.check_input_parameters :
    Method (InputParametersNavierStokes MultigridData OutputDataNavierStokes
      ErrorCalculationData LiftAndDragData PressureDifferenceData) Unit := do
  -- MATHEMATICAL MODEL
  AssertThrow ((← Method.this).problem_type != ProblemType.Undefined) "parameter must be defined"
  AssertThrow ((← Method.this).equation_type != EquationType.Undefined) "parameter must be defined"
  AssertThrow ((← Method.this).formulation_viscous_term != FormulationViscousTerm.Undefined)
    "parameter must be defined"
  -- PHYSICAL QUANTITIES
  AssertThrow (Double.gt (← Method.this).end_time (← Method.this).start_time)
    "parameter end_time must be defined"
  AssertThrow (Double.gt (← Method.this).viscosity 0) "parameter must be defined"
  -- TEMPORAL DISCRETIZATION
  AssertThrow ((← Method.this).temporal_discretization != TemporalDiscretization.Undefined)
    "parameter must be defined"
  AssertThrow ((← Method.this).treatment_of_convective_term != TreatmentOfConvectiveTerm.Undefined)
    "parameter must be defined"
  AssertThrow ((← Method.this).calculation_of_time_step_size != TimeStepCalculation.Undefined)
    "parameter must be defined"
  if (← Method.this).calculation_of_time_step_size != TimeStepCalculation.ConstTimeStepUserSpecified then
    AssertThrow (Double.gt (← Method.this).cfl 0) "parameter must be defined"
    AssertThrow (Double.gt (← Method.this).max_velocity 0) "parameter must be defined"
  if (← Method.this).calculation_of_time_step_size == TimeStepCalculation.ConstTimeStepUserSpecified then
    AssertThrow (Double.gt (← Method.this).time_step_size 0) "parameter must be defined"
  if (← Method.this).calculation_of_time_step_size == TimeStepCalculation.ConstTimeStepMaxEfficiency then
    AssertThrow (Double.gt (← Method.this).c_eff 0) "parameter must be defined"
  -- SPATIAL DISCRETIZATION
  AssertThrow ((← Method.this).spatial_discretization != SpatialDiscretization.Undefined)
    "parameter must be defined"
  AssertThrow ((← Method.this).IP_formulation_viscous != InteriorPenaltyFormulation.Undefined)
    "parameter must be defined"
  -- HIGH-ORDER DUAL SPLITTING SCHEME
  if (← Method.this).temporal_discretization == TemporalDiscretization.BDFDualSplittingScheme then
    AssertThrow ((← Method.this).projection_type != ProjectionType.Undefined) "parameter must be defined"
  -- COUPLED NAVIER-STOKES SOLVER
  if (← Method.this).temporal_discretization == TemporalDiscretization.BDFCoupledSolution then
    AssertThrow ((← Method.this).preconditioner_linearized_navier_stokes
      != PreconditionerLinearizedNavierStokes.Undefined) "parameter must be defined"
    AssertThrow ((← Method.this).momentum_preconditioner != MomentumPreconditioner.Undefined)
      "parameter must be defined"
    if (← Method.this).momentum_preconditioner == MomentumPreconditioner.VelocityConvectionDiffusion then
      AssertThrow ((← Method.this).solver_momentum_preconditioner
        != SolverMomentumPreconditioner.Undefined) "parameter must be defined"
    AssertThrow ((← Method.this).schur_complement_preconditioner
      != SchurComplementPreconditioner.Undefined) "parameter must be defined"
    if (← Method.this).schur_complement_preconditioner == SchurComplementPreconditioner.LaplaceOperator
        || (← Method.this).schur_complement_preconditioner == SchurComplementPreconditioner.CahouetChabard
        || (← Method.this).schur_complement_preconditioner == SchurComplementPreconditioner.Elman
        || (← Method.this).schur_complement_preconditioner
            == SchurComplementPreconditioner.PressureConvectionDiffusion then
      AssertThrow ((← Method.this).discretization_of_laplacian != DiscretizationOfLaplacian.Undefined)
        "parameter must be defined"
      AssertThrow ((← Method.this).solver_schur_complement_preconditioner
        != SolverSchurComplementPreconditioner.Undefined) "parameter must be defined"
  -- TURBULENCE
  -- OUTPUT AND POSTPROCESSING

end check

/-! ## The rules of the check, as a predicate -/

section rules

variable {MG OD ED LD PD : Type}

/-- The Schur-complement preconditioners that involve the inversion of a Laplace operator. -/
def NeedsLaplaceInverse (s : SchurComplementPreconditioner) : Prop :=
  s = SchurComplementPreconditioner.LaplaceOperator
    ∨ s = SchurComplementPreconditioner.CahouetChabard
    ∨ s = SchurComplementPreconditioner.Elman
    ∨ s = SchurComplementPreconditioner.PressureConvectionDiffusion

instance (s : SchurComplementPreconditioner) : Decidable (NeedsLaplaceInverse s) := by
  unfold NeedsLaplaceInverse; infer_instance

/-- The rules a configuration has to satisfy, one conjunct per rule: the eight enumerated
choices are defined, `end_time > start_time`, `viscosity > 0`, the numbers of the selected
time-step mode are positive, and the choices of the selected scheme are defined. -/
def RulesHold (p : InputParametersNavierStokes MG OD ED LD PD) : Prop :=
  p.problem_type ≠ ProblemType.Undefined
  ∧ p.equation_type ≠ EquationType.Undefined
  ∧ p.formulation_viscous_term ≠ FormulationViscousTerm.Undefined
  ∧ p.temporal_discretization ≠ TemporalDiscretization.Undefined
  ∧ p.treatment_of_convective_term ≠ TreatmentOfConvectiveTerm.Undefined
  ∧ p.calculation_of_time_step_size ≠ TimeStepCalculation.Undefined
  ∧ p.spatial_discretization ≠ SpatialDiscretization.Undefined
  ∧ p.IP_formulation_viscous ≠ InteriorPenaltyFormulation.Undefined
  ∧ Double.gt p.end_time p.start_time = true
  ∧ Double.gt p.viscosity 0 = true
  ∧ (if p.calculation_of_time_step_size = TimeStepCalculation.ConstTimeStepUserSpecified then
      Double.gt p.time_step_size 0 = true
    else
      Double.gt p.cfl 0 = true ∧ Double.gt p.max_velocity 0 = true
      ∧ (p.calculation_of_time_step_size = TimeStepCalculation.ConstTimeStepMaxEfficiency →
          Double.gt p.c_eff 0 = true))
  ∧ (p.temporal_discretization = TemporalDiscretization.BDFDualSplittingScheme →
      p.projection_type ≠ ProjectionType.Undefined)
  ∧ (p.temporal_discretization = TemporalDiscretization.BDFCoupledSolution →
      p.preconditioner_linearized_navier_stokes ≠ PreconditionerLinearizedNavierStokes.Undefined
      ∧ p.momentum_preconditioner ≠ MomentumPreconditioner.Undefined
      ∧ p.schur_complement_preconditioner ≠ SchurComplementPreconditioner.Undefined
      ∧ (p.momentum_preconditioner = MomentumPreconditioner.VelocityConvectionDiffusion →
          p.solver_momentum_preconditioner ≠ SolverMomentumPreconditioner.Undefined)
      ∧ (NeedsLaplaceInverse p.schur_complement_preconditioner →
          p.discretization_of_laplacian ≠ DiscretizationOfLaplacian.Undefined
          ∧ p.solver_schur_complement_preconditioner
              ≠ SolverSchurComplementPreconditioner.Undefined))

instance (p : InputParametersNavierStokes MG OD ED LD PD) : Decidable (RulesHold p) := by
  unfold RulesHold; infer_instance

end rules

/-! ## Concrete configurations -/

/-- A configuration as an application sets it up after the constructor: unsteady Navier-Stokes,
dual splitting scheme, constant time step given by the user. The CFL numbers keep the value -1
of the constructor. -/
def dualSplittingSetup : InputParametersNavierStokes Unit Unit Unit Unit Unit :=
  { InputParametersNavierStokes.ctor () () () () () with
    problem_type := ProblemType.Unsteady
    equation_type := EquationType.NavierStokes
    formulation_viscous_term := FormulationViscousTerm.LaplaceFormulation
    end_time := 1
    viscosity := Double.finite (1 / 40)
    temporal_discretization := TemporalDiscretization.BDFDualSplittingScheme
    treatment_of_convective_term := TreatmentOfConvectiveTerm.Explicit
    calculation_of_time_step_size := TimeStepCalculation.ConstTimeStepUserSpecified
    time_step_size := Double.finite (1 / 8)
    spatial_discretization := SpatialDiscretization.DG
    IP_formulation_viscous := InteriorPenaltyFormulation.SIPG
    projection_type := ProjectionType.DivergencePenalty }

/-- A configuration for the coupled solution approach with a time step from the CFL condition;
the block preconditioner inverts a Laplace operator and a convection-diffusion operator. The
linear solver `solver_linearized_navier_stokes` keeps the value `Undefined` of the constructor,
and so do `time_step_size`, `c_eff` and `projection_type`. -/
def coupledSetup : InputParametersNavierStokes Unit Unit Unit Unit Unit :=
  { InputParametersNavierStokes.ctor () () () () () with
    problem_type := ProblemType.Unsteady
    equation_type := EquationType.NavierStokes
    formulation_viscous_term := FormulationViscousTerm.LaplaceFormulation
    end_time := 1
    viscosity := Double.finite (1 / 40)
    temporal_discretization := TemporalDiscretization.BDFCoupledSolution
    treatment_of_convective_term := TreatmentOfConvectiveTerm.Implicit
    calculation_of_time_step_size := TimeStepCalculation.ConstTimeStepCFL
    max_velocity := 1
    cfl := 1
    spatial_discretization := SpatialDiscretization.DG
    IP_formulation_viscous := InteriorPenaltyFormulation.SIPG
    preconditioner_linearized_navier_stokes :=
      PreconditionerLinearizedNavierStokes.BlockTriangular
    momentum_preconditioner := MomentumPreconditioner.VelocityConvectionDiffusion
    solver_momentum_preconditioner := SolverMomentumPreconditioner.GeometricMultigridVCycle
    schur_complement_preconditioner := SchurComplementPreconditioner.CahouetChabard
    discretization_of_laplacian := DiscretizationOfLaplacian.Classical
    solver_schur_complement_preconditioner :=
      SolverSchurComplementPreconditioner.GeometricMultigridVCycle }

/-! ## Aero-acoustic parameters (include/exadg/aero_acoustic/user_interface/parameters.h) -/

namespace AeroAcoustic

/-- Strategy to couple from fluid to acoustic. -/
inductive FluidToAcousticCouplingStrategy where
  | Undefined
  | ConservativeInterpolation
  deriving DecidableEq, Repr

/-- Class `AeroAcoustic::Parameters`, with its data members in the order of their declaration. -/
structure Parameters where
  density : Double
  source_term_with_convection : Bool
  blend_in_source_term : Bool
  fluid_to_acoustic_coupling_strategy : FluidToAcousticCouplingStrategy
  compute_acoustic_from_analytical_cfd_solution : Bool
  compute_acoustic_from_analytical_source_term : Bool
  deriving DecidableEq

/-- Constructor `Parameters()`. -/
def Parameters.ctor : Parameters :=
  { density := Double.finite (-1)
    source_term_with_convection := false
    blend_in_source_term := false
    fluid_to_acoustic_coupling_strategy := FluidToAcousticCouplingStrategy.Undefined
    compute_acoustic_from_analytical_cfd_solution := false
    compute_acoustic_from_analytical_source_term := false }

/-- Member function `Parameters::check() const` (parameters.h, lines 52 to 67). -/
def Parameters.check : Method Parameters Unit := do
  AssertThrow (Double.ge (← Method.this).density 0) "Density has to be set."
  AssertThrow ((← Method.this).fluid_to_acoustic_coupling_strategy
    != FluidToAcousticCouplingStrategy.Undefined) "Coupling strategy has to be set."
  if (← Method.this).compute_acoustic_from_analytical_cfd_solution then
    AssertThrow (!(← Method.this).compute_acoustic_from_analytical_source_term)
      "Only one of the following can be true: compute_acoustic_from_analytical_cfd_solution, compute_acoustic_from_analytical_source_term."

/-- A configuration with the coupling strategy set and a density of zero. -/
def zeroDensitySetup : Parameters :=
  { Parameters.ctor with
    density := 0
    fluid_to_acoustic_coupling_strategy :=
      FluidToAcousticCouplingStrategy.ConservativeInterpolation }

end AeroAcoustic

/-! ## Mass operator (include/convection_diffusion/spatial_discretization/operators/mass_operator.h) -/

namespace ConvDiff

/-- The deal.II class `CellIntegrator<dim, 1, Number>` as far as the mass operator uses it:
the number of quadrature points, the field value `get_value(q)` at each of them, and the calls
`submit_value(val, q)` received so far, in their order. -/
structure IntegratorCell (scalar : Type) where
  n_q_points : Nat
  get_value : Nat → scalar
  submitted : List (scalar × Nat)

/-- Member function `submit_value(val, q)` of the integrator. -/
def IntegratorCell.submit_value {scalar : Type} (val : scalar) (q : Nat) :
    Method (IntegratorCell scalar) Unit :=
  Method.modify fun integrator => { integrator with submitted := integrator.submitted ++ [(val, q)] }

namespace Operators

/-- Struct `MassMatrixKernelData`. -/
structure MassMatrixKernelData where
  scaling_factor : Double
  deriving DecidableEq

/-- Constructor `MassMatrixKernelData()`. -/
def MassMatrixKernelData.ctor : MassMatrixKernelData :=
  { scaling_factor := 1 }

/-- Class `MassMatrixKernel<dim, Number>`: its only data member is the mutable `data`. -/
structure MassMatrixKernel where
  data : MassMatrixKernelData
  deriving DecidableEq

/-- Member function `MassMatrixKernel::reinit(data_in) const`. -/
def MassMatrixKernel.reinit (data_in : MassMatrixKernelData) : Method MassMatrixKernel Unit :=
  Method.modify fun kernel => { kernel with data := data_in }

/-- Member function `MassMatrixKernel::get_volume_flux(integrator, q) const`. The type
`scalar` is `VectorizedArray<Number>` and `times` is the product of a `double` with a `scalar`,
both of deal.II. -/
def MassMatrixKernel.get_volume_flux {scalar : Type} (times : Double → scalar → scalar)
    (integrator : IntegratorCell scalar) (q : Nat) : Method MassMatrixKernel scalar := do
  return times (← Method.this).data.scaling_factor (integrator.get_value q)

end Operators

/-- Struct `MassMatrixOperatorData`, without the members of its base `OperatorBaseData`. -/
structure MassMatrixOperatorData where
  kernel_data : Operators.MassMatrixKernelData

/-- Class `MassMatrixOperator<dim, Number>`, without the members of its base `OperatorBase`. -/
structure MassMatrixOperator where
  kernel : Operators.MassMatrixKernel
  deriving DecidableEq

/-- Member function `MassMatrixOperator::reinit(matrix_free, constraint_matrix, operator_data)`,
without the call of `Base::reinit`. -/
def MassMatrixOperator.reinit (operator_data : MassMatrixOperatorData) :
    Method MassMatrixOperator Unit :=
  Method.onPart (fun op => op.kernel) (fun kernel op => { op with kernel := kernel })
    (Operators.MassMatrixKernel.reinit operator_data.kernel_data)

/-- Member function `MassMatrixOperator::do_cell_integral(integrator) const`. The run is on the
operator together with the integrator it receives by reference. -/
def MassMatrixOperator.do_cell_integral {scalar : Type} (times : Double → scalar → scalar) :
    Method (MassMatrixOperator × IntegratorCell scalar) Unit := do
  Method.forLt (← Method.this).2.n_q_points (fun q => do
    let flux ← Method.onPart (fun s => s.1.kernel) (fun kernel s => ({ s.1 with kernel := kernel }, s.2))
      (Operators.MassMatrixKernel.get_volume_flux times (← Method.this).2 q)
    Method.onPart (fun s => s.2) (fun integrator s => (s.1, integrator))
      (IntegratorCell.submit_value flux q)) 0

end ConvDiff

/-! ## Output generator (include/exadg/structure/postprocessor/output_generator.cpp) -/

namespace Structure

/-- Modelled from the spec: the struct `OutputDataBase` is declared in
exadg/postprocessor/output_data_base.h, which is not among the sources. It is embedded with
the members that output_generator.cpp reads. -/
structure OutputDataBase where
  write_output : Bool
  directory : String
  filename : String
  start_counter : Nat
  start_time : Double
  interval_time : Double
  write_boundary_IDs : Bool
  write_surface_mesh : Bool
  write_processor_id : Bool
  write_higher_order : Bool
  degree : Nat

/-- What a run of the output generator does to its surroundings: the directories it creates, the
files it writes and the lines it prints, each with the arguments of the call. -/
inductive Effect (VectorType : Type) where
  /-- Call `create_directories(directory, mpi_comm)`. -/
  | create_directories (directory : String)
  /-- Call `write_boundary_IDs(triangulation, directory, filename, mpi_comm)`. -/
  | write_boundary_IDs (directory filename : String)
  /-- Call `write_surface_mesh(triangulation, mapping, degree, directory, filename, counter,
  mpi_comm)`. -/
  | write_surface_mesh (degree : Nat) (directory filename : String) (counter : Nat)
  /-- Call `grid_out.write_mesh_per_processor_as_vtu(triangulation, name)`. -/
  | write_mesh_per_processor_as_vtu (name : String)
  /-- Call `data_out.write_vtu_with_pvtu_record(directory, filename, counter, mpi_comm, 4)` for
  the patches built from `solution_vector` with `degree` and the flag `write_higher_order`. -/
  | write_vtu_with_pvtu_record (directory filename : String) (counter : Nat)
      (solution_vector : VectorType) (degree : Nat) (write_higher_order : Bool)
  /-- Line "OUTPUT << Write data at time t = ..." printed on `pcout`. -/
  | pcout_write_data_at_time (time : Double)
  /-- Line "OUTPUT << Write initial data" or "OUTPUT << Write solution data" printed on
  `pcout`. -/
  | pcout_write_data (initial : Bool)

/-- The counters of the output files among the effects, in the order of writing. -/
def written_counters {VectorType : Type} (effects : List (Effect VectorType)) : List Nat :=
  effects.filterMap fun e =>
    match e with
    | Effect.write_vtu_with_pvtu_record _ _ counter _ _ _ => some counter
    | _ => none

/-- Function `write_output<dim>(output_data, dof_handler, mapping, solution_vector,
output_counter, mpi_comm)`: one file is written. -/
def write_output {VectorType : Type} (output_data : OutputDataBase) (solution_vector : VectorType)
    (output_counter : Nat) : Method (List (Effect VectorType)) Unit :=
  Method.modify fun effects => effects ++ [Effect.write_vtu_with_pvtu_record
    output_data.directory output_data.filename output_counter solution_vector
    output_data.degree output_data.write_higher_order]

/-- Class `OutputGenerator<dim, Number>`: the counter of the output files, the flag of the
initial reset, the pointers to the `DoFHandler` and the `Mapping` (unset before `setup`), the
output data, and the effects of the runs so far. -/
structure OutputGenerator (VectorType DoFHandler Mapping : Type) where
  output_counter : Nat
  reset_counter : Bool
  dof_handler : Option DoFHandler
  mapping : Option Mapping
  output_data : OutputDataBase
  effects : List (Effect VectorType)

section output_generator

variable {VectorType DoFHandler Mapping : Type}

/-- Constructor `OutputGenerator(comm)`; `output_data` is the value of `OutputDataBase()`. -/
def OutputGenerator.ctor (output_data : OutputDataBase) :
    OutputGenerator VectorType DoFHandler Mapping :=
  { output_counter := 0
    reset_counter := true
    dof_handler := none
    mapping := none
    output_data := output_data
    effects := [] }

/-- An effect of a run of the output generator. -/
def OutputGenerator.effect (e : Effect VectorType) :
    Method (OutputGenerator VectorType DoFHandler Mapping) Unit :=
  Method.modify fun g => { g with effects := g.effects ++ [e] }

/-- A line on `pcout`, which prints on the process of rank 0 only. -/
def OutputGenerator.pcout (rank : Nat) (line : Effect VectorType) :
    Method (OutputGenerator VectorType DoFHandler Mapping) Unit :=
  if rank == 0 then OutputGenerator.effect line else Method.ret ()

/-- Member function `OutputGenerator::setup(dof_handler_in, mapping_in, output_data_in)`. -/
def OutputGenerator.setup (dof_handler_in : DoFHandler) (mapping_in : Mapping)
    (output_data_in : OutputDataBase) :
    Method (OutputGenerator VectorType DoFHandler Mapping) Unit := do
  Method.modify fun g => { g with dof_handler := some dof_handler_in }
  Method.modify fun g => { g with mapping := some mapping_in }
  Method.modify fun g => { g with output_data := output_data_in }
  -- reset output counter
  Method.modify fun g => { g with output_counter := g.output_data.start_counter }
  if (← Method.this).output_data.write_output == true then
    OutputGenerator.effect (Effect.create_directories (← Method.this).output_data.directory)
    -- Visualize boundary IDs
    if (← Method.this).output_data.write_boundary_IDs then
      OutputGenerator.effect (Effect.write_boundary_IDs (← Method.this).output_data.directory
        (← Method.this).output_data.filename)
    -- write surface mesh
    if (← Method.this).output_data.write_surface_mesh then
      OutputGenerator.effect (Effect.write_surface_mesh (← Method.this).output_data.degree
        (← Method.this).output_data.directory (← Method.this).output_data.filename 0)
    -- processor_id
    if (← Method.this).output_data.write_processor_id then
      OutputGenerator.effect (Effect.write_mesh_per_processor_as_vtu
        ((← Method.this).output_data.directory ++ (← Method.this).output_data.filename
          ++ "_processor_id"))

/-- Member function `OutputGenerator::evaluate(solution, time, time_step_number)`, run on the
process of rank `rank`. -/
def OutputGenerator.evaluate (rank : Nat) (solution : VectorType) (time : Double)
    (time_step_number : Int) : Method (OutputGenerator VectorType DoFHandler Mapping) Unit := do
  if (← Method.this).output_data.write_output == true then
    if time_step_number >= 0 then -- unsteady problem
      -- small number which is much smaller than the time step size
      let EPSILON := Double.lit_1e_10
      -- The current time might be larger than start_time. In that case, we first have to
      -- reset the counter in order to avoid that output is written every time step.
      if (← Method.this).reset_counter then
        match Double.toInt (Double.div
            (Double.add (Double.sub time (← Method.this).output_data.start_time) EPSILON)
            (← Method.this).output_data.interval_time) with
        | some n =>
          Method.modify fun g => { g with output_counter := unsigned_add_int g.output_counter n }
        | none => Method.undefined_behaviour
        Method.modify fun g => { g with reset_counter := false }
      if Double.gt time (Double.sub (Double.add (← Method.this).output_data.start_time
          (Double.mul (Double.ofUnsigned (← Method.this).output_counter)
            (← Method.this).output_data.interval_time)) EPSILON) then
        OutputGenerator.pcout rank (Effect.pcout_write_data_at_time time)
        Method.onPart (fun g => g.effects) (fun effects g => { g with effects := effects })
          (write_output (← Method.this).output_data solution (← Method.this).output_counter)
        Method.modify fun g => { g with output_counter := unsigned_increment g.output_counter }
    else -- steady problem (time_step_number = -1)
      OutputGenerator.pcout rank (Effect.pcout_write_data ((← Method.this).output_counter == 0))
      Method.onPart (fun g => g.effects) (fun effects g => { g with effects := effects })
        (write_output (← Method.this).output_data solution (← Method.this).output_counter)
      Method.modify fun g => { g with output_counter := unsigned_increment g.output_counter }

/-- Output data for the examples: outputs from time 0 on at intervals of 1, with the
visualisation of boundary IDs, surface mesh and processor IDs requested. -/
def exampleOutputData (write_output : Bool) : OutputDataBase :=
  { write_output := write_output
    directory := "output/"
    filename := "solid"
    start_counter := 0
    start_time := 0
    interval_time := 1
    write_boundary_IDs := true
    write_surface_mesh := true
    write_processor_id := true
    write_higher_order := false
    degree := 1 }

/-- Output data for the examples: outputs from the time 0.1 on at intervals of 0.0025 (the
doubles nearest to these decimal numbers). -/
def exampleLateOutputData : OutputDataBase :=
  { exampleOutputData true with
    start_time := Double.round (1 / 10)
    interval_time := Double.round (25 / 10000) }

/-- A generator for the examples, after `setup` and after the initial reset of the counter,
that has written the outputs 0, 1 and 2. -/
def exampleGenerator : OutputGenerator Unit Unit Unit :=
  { output_counter := 3
    reset_counter := false
    dof_handler := some ()
    mapping := some ()
    output_data := exampleOutputData true
    effects := [] }

end output_generator

end Structure

/-! ## preCICE adapter (include/exadg/fluid_structure_interaction/precice/precice_adapter.h) -/

namespace preCICE

/-- The two actions of preCICE that concern checkpoints, `precice::constants::action...()`. -/
inductive Action where
  | actionWriteIterationCheckpoint
  | actionReadIterationCheckpoint
  deriving DecidableEq, Repr

/-- A call made by the adapter: of one of the two callbacks, or of
`precice->markActionFulfilled(action)`. -/
inductive Call where
  | save_state
  | reload_old_state
  | markActionFulfilled (action : Action)
  deriving DecidableEq, Repr

/-- Class `Adapter` as far as the two checkpoint functions use it: what
`precice->isActionRequired` reports for each action, the calls made so far in their order, and
the data of the solver, on which the callbacks work. -/
structure Adapter (S : Type) where
  required : Action → Bool
  calls : List Call
  solver : S

section adapter

variable {S : Type}

/-- Call `precice->isActionRequired(action)`. -/
def Adapter.isActionRequired (action : Action) : Method (Adapter S) Bool := do
  return (← Method.this).required action

/-- Call `precice->markActionFulfilled(action)`: the action is no longer required. -/
def Adapter.markActionFulfilled (action : Action) : Method (Adapter S) Unit :=
  Method.modify fun a => { a with
    required := fun b => if b = action then false else a.required b
    calls := a.calls ++ [Call.markActionFulfilled action] }

/-- Call of a callback `std::function<void()>`, which works on the data of the solver and may
throw. -/
def Adapter.invoke (name : Call) (callback : Method S Unit) : Method (Adapter S) Unit := do
  Method.modify fun a => { a with calls := a.calls ++ [name] }
  Method.onPart (fun a => a.solver) (fun solver a => { a with solver := solver }) callback

/-- Member function `Adapter::save_current_state_if_required(save_state)`. -/
def Adapter.save_current_state_if_required (save_state : Method S Unit) :
    Method (Adapter S) Unit := do
  -- First, we let preCICE check, whether we need to store the variables.
  if (← Adapter.isActionRequired Action.actionWriteIterationCheckpoint) then
    Adapter.invoke Call.save_state save_state
    Adapter.markActionFulfilled Action.actionWriteIterationCheckpoint

/-- Member function `Adapter::reload_old_state_if_required(reload_old_state)`. -/
def Adapter.reload_old_state_if_required (reload_old_state : Method S Unit) :
    Method (Adapter S) Unit := do
  if (← Adapter.isActionRequired Action.actionReadIterationCheckpoint) then
    Adapter.invoke Call.reload_old_state reload_old_state
    Adapter.markActionFulfilled Action.actionReadIterationCheckpoint

end adapter

/-- An adapter for the examples: the solver data is a pair (current value, saved value), and
preCICE requires the writing of a checkpoint. -/
def exampleAdapter : Adapter (Nat × Nat) :=
  { required := fun action => decide (action = Action.actionWriteIterationCheckpoint)
    calls := []
    solver := (7, 0) }

/-- A callback for the examples: the current value is saved. -/
def exampleSaveState : Method (Nat × Nat) Unit :=
  Method.modify fun s => (s.1, s.1)

end preCICE

/-! ## Structure solver (include/exadg/structure/solver.h) -/

namespace Structure

/-- Modelled from the spec: the class `ConvergenceStudy` is declared in
exadg/utilities/convergence_study.h, which is not among the sources. It is embedded with the
members that `main` reads. -/
structure ConvergenceStudy where
  precision : String
  dim : Nat
  degree_min : Nat
  degree_max : Nat
  refine_space_min : Nat
  refine_space_max : Nat
  refine_time_min : Nat
  refine_time_max : Nat

/-- The template argument `Number` of `run`. -/
inductive NumberType where
  | float
  | double
  deriving DecidableEq, Repr

/-- What a run of the solver does to its surroundings, each with the arguments of the call. -/
inductive SolverEffect where
  /-- A line on `std::cout`. -/
  | cout (line : String)
  /-- Call `add_parameters_application<Dim, Number>(prm, input_file)`. -/
  | add_parameters_application (dim : Nat) (number : NumberType) (input_file : String)
  /-- Call `prm.print_parameters(input_file, Short | KeepDeclarationOrder)`: the file is
  written. -/
  | print_parameters (input_file : String)
  /-- Construction `ConvergenceStudy study(input_file)`: the file is read. -/
  | read_study (input_file : String)
  /-- One simulation by `Structure::Driver<dim, Number>`: application of `input_file`, set-up
  with `degree`, `refine_space`, `refine_time`, solution and statistics. -/
  | simulation (dim : Nat) (number : NumberType) (input_file : String)
      (degree refine_space refine_time : Nat)
  deriving DecidableEq, Repr

/-- The input file an effect works with, if it works with one. -/
def SolverEffect.input_file : SolverEffect → Option String
  | SolverEffect.cout _ => none
  | SolverEffect.add_parameters_application _ _ input_file => some input_file
  | SolverEffect.print_parameters input_file => some input_file
  | SolverEffect.read_study input_file => some input_file
  | SolverEffect.simulation _ _ input_file _ _ _ => some input_file

/-- An effect of a run of the solver. -/
def effect (e : SolverEffect) : Method (List SolverEffect) Unit :=
  Method.modify fun effects => effects ++ [e]

/-- Function `create_input_file(input_file)`: the parameters of the study and of the
application, for the default dimension 2 and the default type `double`, are printed to the
file. -/
def create_input_file (input_file : String) : Method (List SolverEffect) Unit := do
  effect (SolverEffect.add_parameters_application 2 NumberType.double input_file)
  effect (SolverEffect.print_parameters input_file)

/-- Function `run<dim, Number>(input_file, degree, refine_space, refine_time, mpi_comm)`. The
driver it sets up and runs is outside the sources: the run is embedded as one effect. -/
def run (dim : Nat) (number : NumberType) (input_file : String)
    (degree refine_space refine_time : Nat) : Method (List SolverEffect) Unit :=
  effect (SolverEffect.simulation dim number input_file degree refine_space refine_time)

/-- Function `main(argc, argv)`, run on the process of rank `rank`; `argc` is the length of
`argv`, and `study_of` gives the study that `ConvergenceStudy` reads from an input file. Each
of the three loops has `fuel` passes at most. -/
def main (fuel : Nat) (rank : Nat) (study_of : String → ConvergenceStudy) (argv : List String) :
    Method (List SolverEffect) Int := do
  let argc := argv.length
  let mut input_file := ""
  if argc == 1 || (argc == 2 && argv.getD 1 "" == "--help") then
    if rank == 0 then
      effect (SolverEffect.cout "To run the program, use:      ./solver input_file")
      effect (SolverEffect.cout
        "To create an input file, use: ./solver --create_input_file input_file")
    return 0
  else if argc >= 2 then
    input_file := argv.getD (argc - 1) ""
  if argc == 3 && argv.getD 1 "" == "--create_input_file" then
    if rank == 0 then
      create_input_file input_file
    return 0
  effect (SolverEffect.read_study input_file)
  let study := study_of input_file
  -- k-refinement
  Method.forLe study.degree_max (fun degree =>
    -- h-refinement
    Method.forLe study.refine_space_max (fun refine_space =>
      -- dt-refinement
      Method.forLe study.refine_time_max (fun refine_time =>
        -- run the simulation
        if study.dim == 2 && study.precision == "float" then
          run 2 NumberType.float input_file degree refine_space refine_time
        else if study.dim == 2 && study.precision == "double" then
          run 2 NumberType.double input_file degree refine_space refine_time
        else if study.dim == 3 && study.precision == "float" then
          run 3 NumberType.float input_file degree refine_space refine_time
        else if study.dim == 3 && study.precision == "double" then
          run 3 NumberType.double input_file degree refine_space refine_time
        else
          AssertThrow false "Only dim = 2|3 and precision=float|double implemented.")
        fuel study.refine_time_min)
      fuel study.refine_space_min)
    fuel study.degree_min
  return 0

/-- The simulations of a study for a dimension, a number type and an input file: one for each
degree, each refinement in space and each refinement in time of the study, the degree
outermost and the refinement in time innermost, each range in increasing order. -/
def study_runs (dim : Nat) (number : NumberType) (input_file : String)
    (study : ConvergenceStudy) : List SolverEffect :=
  (List.range' study.degree_min (study.degree_max + 1 - study.degree_min)).flatMap fun degree =>
    (List.range' study.refine_space_min
        (study.refine_space_max + 1 - study.refine_space_min)).flatMap fun refine_space =>
      (List.range' study.refine_time_min
          (study.refine_time_max + 1 - study.refine_time_min)).map fun refine_time =>
        SolverEffect.simulation dim number input_file degree refine_space refine_time

/-- The input file of an invocation, as `main` sets it: the last argument when there is one. -/
def input_file_of (argv : List String) : String :=
  if argv.length ≥ 2 then argv.getD (argv.length - 1) "" else ""

/-- The three nested loops of `main` over the degrees and the refinements of a study. -/
def study_loops (fuel : Nat) (study : ConvergenceStudy) (input_file : String) :
    Method (List SolverEffect) Unit :=
  Method.forLe study.degree_max (fun degree =>
    Method.forLe study.refine_space_max (fun refine_space =>
      Method.forLe study.refine_time_max (fun refine_time =>
        if study.dim == 2 && study.precision == "float" then
          run 2 NumberType.float input_file degree refine_space refine_time
        else if study.dim == 2 && study.precision == "double" then
          run 2 NumberType.double input_file degree refine_space refine_time
        else if study.dim == 3 && study.precision == "float" then
          run 3 NumberType.float input_file degree refine_space refine_time
        else if study.dim == 3 && study.precision == "double" then
          run 3 NumberType.double input_file degree refine_space refine_time
        else
          AssertThrow false "Only dim = 2|3 and precision=float|double implemented.")
        fuel study.refine_time_min)
      fuel study.refine_space_min)
    fuel study.degree_min

/-- The dimension and the precision of a study are among those implemented, and they select
the template arguments `dim` and `number` of `run`. -/
def Supported (study : ConvergenceStudy) (dim : Nat) (number : NumberType) : Prop :=
  (study.dim = dim ∧ (dim = 2 ∨ dim = 3))
  ∧ ((study.precision = "float" ∧ number = NumberType.float)
    ∨ (study.precision = "double" ∧ number = NumberType.double))

/-- A study for the examples: dimension 2 in double precision, degrees 1 to 3, refinement
levels 2 to 3 in space and 0 to 1 in time. -/
def exampleStudy : ConvergenceStudy :=
  { precision := "double"
    dim := 2
    degree_min := 1
    degree_max := 3
    refine_space_min := 2
    refine_space_max := 3
    refine_time_min := 0
    refine_time_max := 1 }

/-- A study for the examples whose dimension is not implemented and whose range of degrees is
empty (from 1 to 0). -/
def exampleEmptyStudy : ConvergenceStudy :=
  { exampleStudy with dim := 4, degree_min := 1, degree_max := 0 }

/-- A study for the examples whose range of refinements in time ends at `UINT_MAX`: dimension
2 in double precision, degree 1, refinement level 2 in space and the refinement levels
4294967294 and 4294967295 in time. -/
def exampleUnboundedStudy : ConvergenceStudy :=
  { exampleStudy with
    degree_min := 1
    degree_max := 1
    refine_space_min := 2
    refine_space_max := 2
    refine_time_min := 4294967294
    refine_time_max := 4294967295 }

end Structure

/-! ## Divergence calculator
(include/exadg/incompressible_navier_stokes/spatial_discretization/calculators/divergence_calculator.cpp) -/

namespace IncNS

/-- The deal.II class `MatrixFree<dim, Number>` with its cell integrators, as far as the
divergence calculator uses them. `VectorType` is the type of the vectors with the layout of the
degrees of freedom, in which `dst = 0` is the zero vector; `scalar` is `VectorizedArray<Number>`.
* `cell_ranges`: the ranges of cells that `cell_loop` hands to the function it is given, in
  the order in which they are worked on;
* `n_q_points`: the number of quadrature points of an integrator for a `dof_index` and a
  `quad_index`;
* `get_divergence`: the value `integrator_vector.get_divergence(q)` after `reinit(cell)` and
  `gather_evaluate(src, gradients)`, which is the divergence of the field `src` at the
  quadrature point `q` of the cell;
* `integrate_scatter`: the vector after `integrator_scalar.integrate_scatter(values, dst)` for
  the values submitted since `reinit(cell)`. -/
structure MatrixFree (VectorType scalar : Type) where
  cell_ranges : List (Nat × Nat)
  n_q_points : Nat → Nat → Nat
  get_divergence : Nat → Nat → VectorType → Nat → Nat → scalar
  integrate_scatter : Nat → Nat → Nat → List (scalar × Nat) → VectorType → VectorType

/-- Class `DivergenceCalculator<dim, Number>`: the pointer to the `MatrixFree` object (null
before `initialize`) and the three indices. -/
structure DivergenceCalculator (VectorType scalar : Type) where
  matrix_free : Option (MatrixFree VectorType scalar)
  dof_index_u : Nat
  dof_index_u_scalar : Nat
  quad_index : Nat

/-- The local integrator `integrator_scalar` of `cell_loop`: the cell it is initialised on and
the values submitted since, with their quadrature points. -/
structure CellIntegratorScalar (scalar : Type) where
  cell : Nat
  submitted : List (scalar × Nat)

/-- What a run of `compute_divergence` works on: the vector `dst` it receives by reference,
the local integrator `integrator_scalar` of `cell_loop`, and the calls of `submit_value` made
so far, each as (cell, quadrature point, value). -/
structure DivergenceRun (VectorType scalar : Type) where
  dst : VectorType
  integrator_scalar : CellIntegratorScalar scalar
  submit_calls : List (Nat × Nat × scalar)

section divergence_calculator

variable {VectorType scalar : Type}

/-- Constructor `DivergenceCalculator()`. -/
def DivergenceCalculator.ctor : DivergenceCalculator VectorType scalar :=
  { matrix_free := none
    dof_index_u := 0
    dof_index_u_scalar := 0
    quad_index := 0 }

/-- Member function `DivergenceCalculator::initialize(matrix_free_in, dof_index_u_in,
dof_index_u_scalar_in, quad_index_in)`. -/
def DivergenceCalculator.initialize (matrix_free_in : MatrixFree VectorType scalar)
    (dof_index_u_in dof_index_u_scalar_in quad_index_in : Nat) :
    Method (DivergenceCalculator VectorType scalar) Unit := do
  Method.modify fun c => { c with matrix_free := some matrix_free_in }
  Method.modify fun c => { c with dof_index_u := dof_index_u_in }
  Method.modify fun c => { c with dof_index_u_scalar := dof_index_u_scalar_in }
  Method.modify fun c => { c with quad_index := quad_index_in }

/-- Member function `DivergenceCalculator::cell_loop(matrix_free, dst, src, cell_range) const`. -/
def DivergenceCalculator.cell_loop (calculator : DivergenceCalculator VectorType scalar)
    (matrix_free : MatrixFree VectorType scalar) (src : VectorType) (cell_range : Nat × Nat) :
    Method (DivergenceRun VectorType scalar) Unit := do
  -- CellIntegratorVector integrator_vector(matrix_free, dof_index_u, quad_index);
  -- CellIntegratorScalar integrator_scalar(matrix_free, dof_index_u_scalar, quad_index);
  Method.modify fun r => { r with integrator_scalar := { cell := 0, submitted := [] } }
  Method.forLt cell_range.2 (fun cell => do
    -- integrator_vector.reinit(cell); integrator_vector.gather_evaluate(src, gradients);
    -- integrator_scalar.reinit(cell);
    Method.modify fun r => { r with integrator_scalar := { cell := cell, submitted := [] } }
    Method.forLt (matrix_free.n_q_points calculator.dof_index_u_scalar calculator.quad_index)
      (fun q => do
        let div := matrix_free.get_divergence calculator.dof_index_u calculator.quad_index
          src cell q
        -- integrator_scalar.submit_value(div, q)
        Method.modify fun r => { r with
          integrator_scalar := { r.integrator_scalar with
            submitted := r.integrator_scalar.submitted ++ [(div, q)] }
          submit_calls := r.submit_calls ++ [(cell, q, div)] }) 0
    -- integrator_scalar.integrate_scatter(values, dst)
    Method.modify fun r => { r with
      dst := matrix_free.integrate_scatter calculator.dof_index_u_scalar calculator.quad_index
        cell r.integrator_scalar.submitted r.dst }) cell_range.1

/-- Member function `DivergenceCalculator::compute_divergence(dst, src) const`. The call of
`matrix_free->cell_loop` on the null pointer is undefined behaviour. -/
def DivergenceCalculator.compute_divergence [Zero VectorType]
    (calculator : DivergenceCalculator VectorType scalar) (src : VectorType) :
    Method (DivergenceRun VectorType scalar) Unit := do
  Method.modify fun r => { r with dst := 0 }
  match calculator.matrix_free with
  | some matrix_free =>
    Method.forEach (fun cell_range => calculator.cell_loop matrix_free src cell_range)
      matrix_free.cell_ranges
  | none => Method.undefined_behaviour

end divergence_calculator

/-- The values of the divergence of `src` at the quadrature points of a cell, as they are
submitted. -/
def divergence_values {VectorType scalar : Type}
    (calculator : DivergenceCalculator VectorType scalar)
    (matrix_free : MatrixFree VectorType scalar) (src : VectorType) (cell : Nat) :
    List (scalar × Nat) :=
  (List.range (matrix_free.n_q_points calculator.dof_index_u_scalar calculator.quad_index)).map
    fun q => (matrix_free.get_divergence calculator.dof_index_u calculator.quad_index src cell q, q)

/-- The run after the work of `cell_loop` on one cell. -/
def cell_step {VectorType scalar : Type} (calculator : DivergenceCalculator VectorType scalar)
    (matrix_free : MatrixFree VectorType scalar) (src : VectorType) (cell : Nat)
    (r : DivergenceRun VectorType scalar) : DivergenceRun VectorType scalar :=
  { dst := matrix_free.integrate_scatter calculator.dof_index_u_scalar calculator.quad_index cell
      (divergence_values calculator matrix_free src cell) r.dst
    integrator_scalar :=
      { cell := cell
        submitted := divergence_values calculator matrix_free src cell }
    submit_calls := r.submit_calls
      ++ (divergence_values calculator matrix_free src cell).map fun v => (cell, v.2, v.1) }

/-- The cells of a list of ranges, in the order in which they are worked on. -/
def cells_of (cell_ranges : List (Nat × Nat)) : List Nat :=
  cell_ranges.flatMap fun cell_range => List.range' cell_range.1 (cell_range.2 - cell_range.1)

/-- A mesh for the examples, with vectors of one entry and one number per `scalar`: three cells
in the ranges [0, 2) and [2, 3), two quadrature points per cell; the divergence of a field at
a point is the field value times (cell + q + 1), and the integration adds the submitted values
to the vector. -/
def exampleMatrixFree : MatrixFree ℚ ℚ :=
  { cell_ranges := [(0, 2), (2, 3)]
    n_q_points := fun _ _ => 2
    get_divergence := fun _ _ src cell q => src * (cell + q + 1)
    integrate_scatter := fun _ _ _ submitted dst => dst + (submitted.map Prod.fst).sum }

/-- A calculator for the examples, initialised on the example mesh. -/
def exampleCalculator : DivergenceCalculator ℚ ℚ :=
  { matrix_free := some exampleMatrixFree
    dof_index_u := 0
    dof_index_u_scalar := 1
    quad_index := 0 }

/-- A run for the examples: the vector `dst` holds the value given, nothing is submitted yet. -/
def exampleRun (dst : ℚ) : DivergenceRun ℚ ℚ :=
  { dst := dst
    integrator_scalar := { cell := 0, submitted := [] }
    submit_calls := [] }

end IncNS

/-! ## Printing of the parameters (include/InputParametersNavierStokes.h, lines 549 to 1089) -/

/-- Modelled from the spec: the enum of the coarse grid solvers of the multigrid data is
declared in MultigridInputParameters.h, which is not among the sources. By the spec the
coarsest level is solved by the Chebyshev smoother or by PCG or GMRES, each with or without
Jacobi preconditioning, which are the five labels of the tables for it. -/
inductive MultigridCoarseGridSolver where
  | ChebyshevSmoother
  | PCG_NoPreconditioner
  | PCG_Jacobi
  | GMRES_NoPreconditioner
  | GMRES_Jacobi
  deriving DecidableEq, Repr

/-- A value handed to `print_parameter`. -/
inductive ParameterValue where
  | string (value : String)
  | double (value : Double)
  | bool (value : Bool)
  | unsigned (value : Nat)
  deriving DecidableEq

/-- Modelled from the spec: the struct `MultigridData` is declared in
MultigridInputParameters.h, which is not among the sources. These are the members that the
printing reads (smoother polynomial degree, smoothing range, coarse grid solver). -/
structure MultigridDataMembers (MultigridData : Type) where
  smoother_poly_degree : MultigridData → ParameterValue
  smoother_smoothing_range : MultigridData → ParameterValue
  coarse_solver : MultigridData → MultigridCoarseGridSolver

/-- What is sent to the stream `pcout`. -/
inductive Printed where
  /-- The text of a line, sent with `pcout << ... << std::endl`. -/
  | line (text : String)
  /-- Call `print_parameter(pcout, name, value)`. -/
  | parameter (name : String) (value : ParameterValue)
  /-- Call `output_data.print(pcout, unsteady)`. -/
  | output_data (unsteady : Bool)
  /-- Call `error_data.print(pcout, unsteady)`. -/
  | error_data (unsteady : Bool)
  deriving DecidableEq

/-- Statement `pcout << text << std::endl`. -/
def pcout_line (text : String) : Method (List Printed) Unit :=
  Method.modify fun out => out ++ [Printed.line text]

/-- Function `print_parameter(pcout, name, value)`. -/
def print_parameter (name : String) (value : ParameterValue) : Method (List Printed) Unit :=
  Method.modify fun out => out ++ [Printed.parameter name value]

/-- The element `table[i]` of an array of strings; an index outside the array is undefined
behaviour. -/
def lookup {σ : Type} (table : List String) (i : Nat) : Method σ String :=
  match table[i]? with
  | some label => Method.ret label
  | none => Method.undefined_behaviour

/-! The casts `(int)value` of the values of the enums: the position in the declaration. -/

/-- The cast `(int)value` for `ProblemType`. -/
def ProblemType.cast_int : ProblemType → Nat
  | ProblemType.Undefined => 0
  | ProblemType.Steady => 1
  | ProblemType.Unsteady => 2

/-- The cast `(int)value` for `EquationType`. -/
def EquationType.cast_int : EquationType → Nat
  | EquationType.Undefined => 0
  | EquationType.Stokes => 1
  | EquationType.NavierStokes => 2

/-- The cast `(int)value` for `FormulationViscousTerm`. -/
def FormulationViscousTerm.cast_int : FormulationViscousTerm → Nat
  | FormulationViscousTerm.Undefined => 0
  | FormulationViscousTerm.DivergenceFormulation => 1
  | FormulationViscousTerm.LaplaceFormulation => 2

/-- The cast `(int)value` for `TemporalDiscretization`. -/
def TemporalDiscretization.cast_int : TemporalDiscretization → Nat
  | TemporalDiscretization.Undefined => 0
  | TemporalDiscretization.BDFDualSplittingScheme => 1
  | TemporalDiscretization.BDFCoupledSolution => 2

/-- The cast `(int)value` for `TreatmentOfConvectiveTerm`. -/
def TreatmentOfConvectiveTerm.cast_int : TreatmentOfConvectiveTerm → Nat
  | TreatmentOfConvectiveTerm.Undefined => 0
  | TreatmentOfConvectiveTerm.Explicit => 1
  | TreatmentOfConvectiveTerm.Implicit => 2

/-- The cast `(int)value` for `TimeStepCalculation`. -/
def TimeStepCalculation.cast_int : TimeStepCalculation → Nat
  | TimeStepCalculation.Undefined => 0
  | TimeStepCalculation.ConstTimeStepUserSpecified => 1
  | TimeStepCalculation.ConstTimeStepCFL => 2
  | TimeStepCalculation.AdaptiveTimeStepCFL => 3
  | TimeStepCalculation.ConstTimeStepMaxEfficiency => 4

/-- The cast `(int)value` for `SpatialDiscretization`. -/
def SpatialDiscretization.cast_int : SpatialDiscretization → Nat
  | SpatialDiscretization.Undefined => 0
  | SpatialDiscretization.DG => 1
  | SpatialDiscretization.DGXWall => 2

/-- The cast `(int)value` for `InteriorPenaltyFormulation`. -/
def InteriorPenaltyFormulation.cast_int : InteriorPenaltyFormulation → Nat
  | InteriorPenaltyFormulation.Undefined => 0
  | InteriorPenaltyFormulation.SIPG => 1
  | InteriorPenaltyFormulation.NIPG => 2

/-- The cast `(int)value` for `PreconditionerPressurePoisson`. -/
def PreconditionerPressurePoisson.cast_int : PreconditionerPressurePoisson → Nat
  | PreconditionerPressurePoisson.None => 0
  | PreconditionerPressurePoisson.Jacobi => 1
  | PreconditionerPressurePoisson.GeometricMultigrid => 2

/-- The cast `(int)value` for `ProjectionType`. -/
def ProjectionType.cast_int : ProjectionType → Nat
  | ProjectionType.Undefined => 0
  | ProjectionType.NoPenalty => 1
  | ProjectionType.DivergencePenalty => 2
  | ProjectionType.DivergenceAndContinuityPenalty => 3

/-- The cast `(int)value` for `SolverProjection`. -/
def SolverProjection.cast_int : SolverProjection → Nat
  | SolverProjection.LU => 0
  | SolverProjection.PCG => 1

/-- The cast `(int)value` for `PreconditionerProjection`. -/
def PreconditionerProjection.cast_int : PreconditionerProjection → Nat
  | PreconditionerProjection.None => 0
  | PreconditionerProjection.Jacobi => 1
  | PreconditionerProjection.InverseMassMatrix => 2

/-- The cast `(int)value` for `SolverViscous`. -/
def SolverViscous.cast_int : SolverViscous → Nat
  | SolverViscous.PCG => 0
  | SolverViscous.GMRES => 1

/-- The cast `(int)value` for `PreconditionerViscous`. -/
def PreconditionerViscous.cast_int : PreconditionerViscous → Nat
  | PreconditionerViscous.None => 0
  | PreconditionerViscous.Jacobi => 1
  | PreconditionerViscous.InverseMassMatrix => 2
  | PreconditionerViscous.GeometricMultigrid => 3

/-- The cast `(int)value` for `SolverLinearizedNavierStokes`. -/
def SolverLinearizedNavierStokes.cast_int : SolverLinearizedNavierStokes → Nat
  | SolverLinearizedNavierStokes.Undefined => 0
  | SolverLinearizedNavierStokes.GMRES => 1
  | SolverLinearizedNavierStokes.FGMRES => 2

/-- The cast `(int)value` for `PreconditionerLinearizedNavierStokes`. -/
def PreconditionerLinearizedNavierStokes.cast_int : PreconditionerLinearizedNavierStokes → Nat
  | PreconditionerLinearizedNavierStokes.Undefined => 0
  | PreconditionerLinearizedNavierStokes.None => 1
  | PreconditionerLinearizedNavierStokes.BlockDiagonal => 2
  | PreconditionerLinearizedNavierStokes.BlockTriangular => 3
  | PreconditionerLinearizedNavierStokes.BlockTriangularFactorization => 4

/-- The cast `(int)value` for `MomentumPreconditioner`. -/
def MomentumPreconditioner.cast_int : MomentumPreconditioner → Nat
  | MomentumPreconditioner.Undefined => 0
  | MomentumPreconditioner.None => 1
  | MomentumPreconditioner.InverseMassMatrix => 2
  | MomentumPreconditioner.VelocityDiffusion => 3
  | MomentumPreconditioner.VelocityConvectionDiffusion => 4

/-- The cast `(int)value` for `SolverMomentumPreconditioner`. -/
def SolverMomentumPreconditioner.cast_int : SolverMomentumPreconditioner → Nat
  | SolverMomentumPreconditioner.Undefined => 0
  | SolverMomentumPreconditioner.GeometricMultigridVCycle => 1
  | SolverMomentumPreconditioner.GeometricMultigridGMRES => 2

/-- The cast `(int)value` for `SchurComplementPreconditioner`. -/
def SchurComplementPreconditioner.cast_int : SchurComplementPreconditioner → Nat
  | SchurComplementPreconditioner.Undefined => 0
  | SchurComplementPreconditioner.None => 1
  | SchurComplementPreconditioner.InverseMassMatrix => 2
  | SchurComplementPreconditioner.LaplaceOperator => 3
  | SchurComplementPreconditioner.CahouetChabard => 4
  | SchurComplementPreconditioner.Elman => 5
  | SchurComplementPreconditioner.PressureConvectionDiffusion => 6

/-- The cast `(int)value` for `DiscretizationOfLaplacian`. -/
def DiscretizationOfLaplacian.cast_int : DiscretizationOfLaplacian → Nat
  | DiscretizationOfLaplacian.Undefined => 0
  | DiscretizationOfLaplacian.Classical => 1
  | DiscretizationOfLaplacian.Compatible => 2

/-- The cast `(int)value` for `SolverSchurComplementPreconditioner`. -/
def SolverSchurComplementPreconditioner.cast_int : SolverSchurComplementPreconditioner → Nat
  | SolverSchurComplementPreconditioner.Undefined => 0
  | SolverSchurComplementPreconditioner.GeometricMultigridVCycle => 1
  | SolverSchurComplementPreconditioner.GeometricMultigridPCG => 2

/-- The cast `(int)value` for `MultigridCoarseGridSolver`. -/
def MultigridCoarseGridSolver.cast_int : MultigridCoarseGridSolver → Nat
  | MultigridCoarseGridSolver.ChebyshevSmoother => 0
  | MultigridCoarseGridSolver.PCG_NoPreconditioner => 1
  | MultigridCoarseGridSolver.PCG_Jacobi => 2
  | MultigridCoarseGridSolver.GMRES_NoPreconditioner => 3
  | MultigridCoarseGridSolver.GMRES_Jacobi => 4

/-! The arrays of labels of the printing functions, under their names in the source. -/

/-- Array `str_problem_type`. -/
def str_problem_type : List String :=
  [ "Undefined",
    "Steady",
    "Unsteady" ]

/-- Array `str_equation_type`. -/
def str_equation_type : List String :=
  [ "Undefined",
    "Stokes",
    "Navier-Stokes" ]

/-- Array `str_form_viscous_term`. -/
def str_form_viscous_term : List String :=
  [ "Undefined",
    "Divergence formulation",
    "Laplace formulation" ]

/-- Array `str_temporal_discretization`. -/
def str_temporal_discretization : List String :=
  [ "Undefined",
    "BDF dual splitting scheme",
    "BDF coupled solution" ]

/-- Array `str_conv_term`. -/
def str_conv_term : List String :=
  [ "Undefined",
    "Explicit",
    "Implicit" ]

/-- Array `str_calc_time_step`. -/
def str_calc_time_step : List String :=
  [ "Undefined",
    "Constant time step (user specified)",
    "Constant time step (CFL condition)",
    "Adaptive time step (CFL condition)",
    "Constant time step (max. efficiency)" ]

/-- Array `str_spatial_discret`. -/
def str_spatial_discret : List String :=
  [ "Undefined",
    "DG",
    "DG-XWALL" ]

/-- Array `str_IP_form_visc`. -/
def str_IP_form_visc : List String :=
  [ "Undefined",
    "SIPG",
    "NIPG" ]

/-- Array `str_precon_ppe`. -/
def str_precon_ppe : List String :=
  [ "None",
    "Jacobi",
    "GeometricMultigrid" ]

/-- Array `str_multigrid_coarse_ppe`. -/
def str_multigrid_coarse_ppe : List String :=
  [ "Chebyshev smoother",
    "PCG - no preconditioner",
    "PCG - Jacobi preconditioner",
    "GMRES - No preconditioner",
    "GMRES - Jacobi preconditioner" ]

/-- Array `str_proj_type`. -/
def str_proj_type : List String :=
  [ "Undefined",
    "No penalty",
    "Divergence penalty",
    "Divergence and continuity penalty" ]

/-- Array `str_solver_proj`. -/
def str_solver_proj : List String :=
  [ "LU",
    "PCG" ]

/-- Array `str_precon_proj`. -/
def str_precon_proj : List String :=
  [ "None",
    "Jacobi",
    "InverseMassMatrix" ]

/-- Array `str_solver_viscous`. -/
def str_solver_viscous : List String :=
  [ "PCG",
    "GMRES" ]

/-- Array `str_precon_viscous`. -/
def str_precon_viscous : List String :=
  [ "None",
    "Jacobi",
    "InverseMassMatrix",
    "GeometricMultigrid" ]

/-- Array `str_multigrid_coarse_viscous`. -/
def str_multigrid_coarse_viscous : List String :=
  [ "Chebyshev smoother",
    "PCG - no preconditioner",
    "PCG - Jacobi preconditioner",
    "GMRES - No preconditioner",
    "GMRES - Jacobi preconditioner" ]

/-- Array `str_solver_linearized`. -/
def str_solver_linearized : List String :=
  [ "Undefined",
    "GMRES",
    "FGMRES" ]

/-- Array `str_precon_linear`. -/
def str_precon_linear : List String :=
  [ "Undefined",
    "None",
    "BlockDiagonal",
    "BlockTriangular",
    "BlockTriangularFactorization" ]

/-- Array `str_momentum_precon`. -/
def str_momentum_precon : List String :=
  [ "Undefined",
    "None",
    "InverseMassMatrix",
    "VelocityConvectionDiffusion" ]

/-- Array `str_solver_momentum_precon`. -/
def str_solver_momentum_precon : List String :=
  [ "Undefined",
    "GeometricMultigridVCycle",
    "GeometricMultigridGMRES" ]

/-- Array `str_multigrid_coarse_solver`, declared twice with the same labels: for the momentum
preconditioner and for the Schur-complement preconditioner. -/
def str_multigrid_coarse_solver : List String :=
  [ "Chebyshev smoother",
    "PCG - no preconditioner",
    "PCG - Jacobi preconditioner",
    "GMRES - No preconditioner",
    "GMRES - Jacobi preconditioner" ]

/-- Array `str_schur_precon`. -/
def str_schur_precon : List String :=
  [ "Undefined",
    "None",
    "InverseMassMatrix",
    "LaplaceOperator",
    "CahouetChabard",
    "Elman",
    "PressureConvectionDiffusion" ]

/-- Array `str_discret_laplacian`. -/
def str_discret_laplacian : List String :=
  [ "Undefined",
    "Classical",
    "Compatible" ]

/-- Array `str_solver_schur_precon`. -/
def str_solver_schur_precon : List String :=
  [ "Undefined",
    "GeometricMultigridVCycle",
    "GeometricMultigridPCG" ]

section print

variable {MG OD ED LD PD : Type}

/-- Member function `print_parameters_mathematical_model(pcout)`. -/
def InputParametersNavierStokes.print_parameters_mathematical_model
    (p : InputParametersNavierStokes MG OD ED LD PD) : Method (List Printed) Unit := do
  pcout_line ""
  pcout_line "Mathematical model:"
  -- problem type
  print_parameter "Problem type"
    (ParameterValue.string (← lookup str_problem_type p.problem_type.cast_int))
  -- equation type
  print_parameter "Equation type"
    (ParameterValue.string (← lookup str_equation_type p.equation_type.cast_int))
  -- formulation of viscous term
  print_parameter "Formulation of viscous term"
    (ParameterValue.string (← lookup str_form_viscous_term p.formulation_viscous_term.cast_int))
  -- right hand side
  print_parameter "Right-hand side" (ParameterValue.bool p.right_hand_side)

/-- Member function `print_parameters_physical_quantities(pcout)`. -/
def InputParametersNavierStokes.print_parameters_physical_quantities
    (p : InputParametersNavierStokes MG OD ED LD PD) : Method (List Printed) Unit := do
  pcout_line ""
  pcout_line "Physical quantities:"
  -- start and end time
  if p.problem_type == ProblemType.Unsteady then
    print_parameter "Start time" (ParameterValue.double p.start_time)
    print_parameter "End time" (ParameterValue.double p.end_time)
  -- viscosity
  print_parameter "Viscosity" (ParameterValue.double p.viscosity)

/-- Member function `print_parameters_temporal_discretization(pcout)`. -/
def InputParametersNavierStokes.print_parameters_temporal_discretization
    (p : InputParametersNavierStokes MG OD ED LD PD) : Method (List Printed) Unit := do
  pcout_line ""
  pcout_line "Temporal discretization:"
  -- temporal discretization scheme
  print_parameter "Temporal discretization method"
    (ParameterValue.string
      (← lookup str_temporal_discretization p.temporal_discretization.cast_int))
  -- treatment of convective term
  print_parameter "Treatment of convective term"
    (ParameterValue.string (← lookup str_conv_term p.treatment_of_convective_term.cast_int))
  -- calculation of time step size
  print_parameter "Calculation of time step size"
    (ParameterValue.string
      (← lookup str_calc_time_step p.calculation_of_time_step_size.cast_int))
  -- maximum number of time steps
  print_parameter "Maximum number of time steps"
    (ParameterValue.unsigned p.max_number_of_time_steps)
  -- order of time integration scheme
  print_parameter "Order of time integration scheme"
    (ParameterValue.unsigned p.order_time_integrator)
  -- start time integrator with high or low order method
  print_parameter "Start with low order method" (ParameterValue.bool p.start_with_low_order)

/-- Member function `print_parameters_spatial_discretization(pcout)`. -/
def InputParametersNavierStokes.print_parameters_spatial_discretization
    (p : InputParametersNavierStokes MG OD ED LD PD) : Method (List Printed) Unit := do
  pcout_line ""
  pcout_line "Spatial discretization:"
  -- Spatial discretization method
  print_parameter "Spatial discretization method"
    (ParameterValue.string (← lookup str_spatial_discret p.spatial_discretization.cast_int))
  -- interior penalty formulation of viscous term
  print_parameter "Viscous term - IP formulation"
    (ParameterValue.string (← lookup str_IP_form_visc p.IP_formulation_viscous.cast_int))
  print_parameter "Viscous term - IP factor" (ParameterValue.double p.IP_factor_viscous)
  -- pressure gradient term
  print_parameter "Grad(p) - integration by parts"
    (ParameterValue.bool p.gradp_integrated_by_parts)
  print_parameter "Grad(p) - use boundary data" (ParameterValue.bool p.gradp_use_boundary_data)
  -- divergence term
  print_parameter "Div(u) . integration by parts"
    (ParameterValue.bool p.divu_integrated_by_parts)
  print_parameter "Div(u) - use boundary data" (ParameterValue.bool p.divu_use_boundary_data)
  -- special case pure DBC's
  print_parameter "Pure Dirichlet BC's" (ParameterValue.bool p.pure_dirichlet_bc)

/-- Member function `print_parameters_dual_splitting(pcout)`. -/
def InputParametersNavierStokes.print_parameters_dual_splitting
    (members : MultigridDataMembers MG) (p : InputParametersNavierStokes MG OD ED LD PD) :
    Method (List Printed) Unit := do
  pcout_line ""
  pcout_line "High-order dual splitting scheme:"
  -- pressure Poisson equation
  pcout_line "  Pressure Poisson equation (PPE):"
  print_parameter "IP factor PPE" (ParameterValue.double p.IP_factor_pressure)
  print_parameter "Preconditioner PPE"
    (ParameterValue.string (← lookup str_precon_ppe p.preconditioner_pressure_poisson.cast_int))
  if p.preconditioner_pressure_poisson == PreconditionerPressurePoisson.GeometricMultigrid then
    print_parameter "Smoother polynomial degree"
      (members.smoother_poly_degree p.multigrid_data_pressure_poisson)
    print_parameter "Smoothing range"
      (members.smoother_smoothing_range p.multigrid_data_pressure_poisson)
    print_parameter "Multigrid coarse grid solver"
      (ParameterValue.string (← lookup str_multigrid_coarse_ppe
        (members.coarse_solver p.multigrid_data_pressure_poisson).cast_int))
  print_parameter "Absolute solver tolerance" (ParameterValue.double p.abs_tol_pressure)
  print_parameter "Relative solver tolerance" (ParameterValue.double p.rel_tol_pressure)
  -- small time steps stability
  pcout_line ""
  pcout_line "  Small time steps stability:"
  print_parameter "STS stability approach" (ParameterValue.bool p.small_time_steps_stability)
  print_parameter "Approach of Ferrer et al." (ParameterValue.bool p.use_approach_of_ferrer)
  if p.use_approach_of_ferrer == true then
    print_parameter "Reference time step size (Ferrer)" (ParameterValue.double p.deltat_ref)
  -- projection step
  pcout_line ""
  pcout_line "  Projection step:"
  print_parameter "Projection type"
    (ParameterValue.string (← lookup str_proj_type p.projection_type.cast_int))
  if p.projection_type == ProjectionType.DivergencePenalty
      || p.projection_type == ProjectionType.DivergenceAndContinuityPenalty then
    print_parameter "Penalty factor divergence"
      (ParameterValue.double p.penalty_factor_divergence)
  if p.projection_type == ProjectionType.DivergenceAndContinuityPenalty then
    print_parameter "Penalty factor continuity"
      (ParameterValue.double p.penalty_factor_continuity)
  if p.projection_type == ProjectionType.DivergencePenalty
      || p.projection_type == ProjectionType.DivergenceAndContinuityPenalty then
    print_parameter "Solver projection step"
      (ParameterValue.string (← lookup str_solver_proj p.solver_projection.cast_int))
    print_parameter "Preconditioner projection step"
      (ParameterValue.string (← lookup str_precon_proj p.preconditioner_projection.cast_int))
    print_parameter "Absolute solver tolerance" (ParameterValue.double p.abs_tol_projection)
    print_parameter "Relative solver tolerance" (ParameterValue.double p.rel_tol_projection)
  -- Viscous step
  pcout_line ""
  pcout_line "  Viscous step:"
  print_parameter "Solver viscous step"
    (ParameterValue.string (← lookup str_solver_viscous p.solver_viscous.cast_int))
  print_parameter "Preconditioner viscous step"
    (ParameterValue.string (← lookup str_precon_viscous p.preconditioner_viscous.cast_int))
  if p.preconditioner_viscous == PreconditionerViscous.GeometricMultigrid then
    print_parameter "Smoother polynomial degree"
      (members.smoother_poly_degree p.multigrid_data_viscous)
    print_parameter "Smoothing range"
      (members.smoother_smoothing_range p.multigrid_data_viscous)
    print_parameter "Multigrid coarse grid solver"
      (ParameterValue.string (← lookup str_multigrid_coarse_viscous
        (members.coarse_solver p.multigrid_data_viscous).cast_int))
  print_parameter "Absolute solver tolerance" (ParameterValue.double p.abs_tol_viscous)
  print_parameter "Relative solver tolerance" (ParameterValue.double p.rel_tol_viscous)

/-- The part of `print_parameters_coupled_solver(pcout)` from the comment "Solver linearized
problem" on (lines 925 to 1050). -/
def InputParametersNavierStokes.print_parameters_linear_solver
    (members : MultigridDataMembers MG) (p : InputParametersNavierStokes MG OD ED LD PD) :
    Method (List Printed) Unit := do
  -- Solver linearized problem
  pcout_line "Linear solver"
  print_parameter "Solver for linear(ized) problem"
    (ParameterValue.string
      (← lookup str_solver_linearized p.solver_linearized_navier_stokes.cast_int))
  print_parameter "Absolute solver tolerance" (ParameterValue.double p.abs_tol_linear)
  print_parameter "Relative solver tolerance" (ParameterValue.double p.rel_tol_linear)
  print_parameter "Maximum number of iterations" (ParameterValue.unsigned p.max_iter_linear)
  print_parameter "Preconditioner linear(ized) problem"
    (ParameterValue.string
      (← lookup str_precon_linear p.preconditioner_linearized_navier_stokes.cast_int))
  print_parameter "Right preconditioning" (ParameterValue.bool p.use_right_preconditioning)
  if p.solver_linearized_navier_stokes == SolverLinearizedNavierStokes.GMRES then
    print_parameter "Max number of vectors before restart"
      (ParameterValue.unsigned p.max_n_tmp_vectors)
  -- preconditioner momentum block
  print_parameter "Preconditioner momentum block"
    (ParameterValue.string (← lookup str_momentum_precon p.momentum_preconditioner.cast_int))
  if p.momentum_preconditioner == MomentumPreconditioner.VelocityConvectionDiffusion then
    print_parameter "Solver momentum preconditioner"
      (ParameterValue.string
        (← lookup str_solver_momentum_precon p.solver_momentum_preconditioner.cast_int))
    if p.solver_momentum_preconditioner
        == SolverMomentumPreconditioner.GeometricMultigridGMRES then
      print_parameter "Relative solver tolerance"
        (ParameterValue.double p.rel_tol_solver_momentum_preconditioner)
    print_parameter "Smoother polynomial degree"
      (members.smoother_poly_degree p.multigrid_data_momentum_preconditioner)
    print_parameter "Smoothing range"
      (members.smoother_smoothing_range p.multigrid_data_momentum_preconditioner)
    print_parameter "Multigrid coarse grid solver"
      (ParameterValue.string (← lookup str_multigrid_coarse_solver
        (members.coarse_solver p.multigrid_data_momentum_preconditioner).cast_int))
  -- preconditioner Schur-complement block
  print_parameter "Schur-complement preconditioner"
    (ParameterValue.string
      (← lookup str_schur_precon p.schur_complement_preconditioner.cast_int))
  if p.schur_complement_preconditioner == SchurComplementPreconditioner.LaplaceOperator
      || p.schur_complement_preconditioner == SchurComplementPreconditioner.CahouetChabard
      || p.schur_complement_preconditioner == SchurComplementPreconditioner.Elman
      || p.schur_complement_preconditioner
          == SchurComplementPreconditioner.PressureConvectionDiffusion then
    print_parameter "Discretization of Laplacian"
      (ParameterValue.string
        (← lookup str_discret_laplacian p.discretization_of_laplacian.cast_int))
    print_parameter "Solver Schur-complement preconditioner"
      (ParameterValue.string (← lookup str_solver_schur_precon
        p.solver_schur_complement_preconditioner.cast_int))
    if p.solver_schur_complement_preconditioner
        == SolverSchurComplementPreconditioner.GeometricMultigridPCG then
      print_parameter "Relative solver tolerance"
        (ParameterValue.double p.rel_tol_solver_schur_complement_preconditioner)
    print_parameter "Smoother polynomial degree"
      (members.smoother_poly_degree p.multigrid_data_schur_complement_preconditioner)
    print_parameter "Smoothing range"
      (members.smoother_smoothing_range p.multigrid_data_schur_complement_preconditioner)
    print_parameter "Multigrid coarse grid solver"
      (ParameterValue.string (← lookup str_multigrid_coarse_solver
        (members.coarse_solver p.multigrid_data_schur_complement_preconditioner).cast_int))

/-- Member function `print_parameters_coupled_solver(pcout)`: the heading, the Newton solver
(lines 900 to 923), then the linear solver and the preconditioners. -/
def InputParametersNavierStokes.print_parameters_coupled_solver
    (members : MultigridDataMembers MG) (p : InputParametersNavierStokes MG OD ED LD PD) :
    Method (List Printed) Unit := do
  pcout_line ""
  pcout_line "Coupled Navier-Stokes solver:"
  -- Newton solver
  -- if a nonlinear problem has to be solved
  if p.equation_type == EquationType.NavierStokes
      && (p.problem_type == ProblemType.Steady
        || p.treatment_of_convective_term == TreatmentOfConvectiveTerm.Implicit) then
    pcout_line "Newton solver"
    print_parameter "Absolute solver tolerance" (ParameterValue.double p.abs_tol_newton)
    print_parameter "Relative solver tolerance" (ParameterValue.double p.rel_tol_newton)
    print_parameter "Maximum number of iterations" (ParameterValue.unsigned p.max_iter_newton)
    pcout_line ""
  p.print_parameters_linear_solver members

/-- Member function `print_parameters_turbulence(pcout)`. -/
def InputParametersNavierStokes.print_parameters_turbulence
    (_p : InputParametersNavierStokes MG OD ED LD PD) : Method (List Printed) Unit := do
  pcout_line ""
  pcout_line "Turbulence:"

/-- Member function `print_parameters_output_and_postprocessing(pcout)`. -/
def InputParametersNavierStokes.print_parameters_output_and_postprocessing
    (p : InputParametersNavierStokes MG OD ED LD PD) : Method (List Printed) Unit := do
  pcout_line ""
  pcout_line "Output and postprocessing:"
  -- output for visualization of results
  Method.modify fun out => out ++ [Printed.output_data (p.problem_type == ProblemType.Unsteady)]
  -- calculation of error
  Method.modify fun out => out ++ [Printed.error_data (p.problem_type == ProblemType.Unsteady)]
  -- output of solver information
  if p.problem_type == ProblemType.Unsteady then
    print_parameter "Output solver info every timesteps"
      (ParameterValue.unsigned p.output_solver_info_every_timesteps)
  -- restart
  if p.problem_type == ProblemType.Unsteady then
    print_parameter "Write restart" (ParameterValue.bool p.write_restart)
    if p.write_restart == true then
      print_parameter "Restart interval time" (ParameterValue.double p.restart_interval_time)
      print_parameter "Restart interval wall time"
        (ParameterValue.double p.restart_interval_wall_time)
      print_parameter "Restart every timesteps"
        (ParameterValue.unsigned p.restart_every_timesteps)

/-- Member function `InputParametersNavierStokes::print(pcout)`: the run is on what is sent to
`pcout`; the parameters are read only. -/
def InputParametersNavierStokes.print (members : MultigridDataMembers MG)
    (p : InputParametersNavierStokes MG OD ED LD PD) : Method (List Printed) Unit := do
  pcout_line ""
  pcout_line "List of input parameters:"
  -- MATHEMATICAL MODEL
  p.print_parameters_mathematical_model
  -- PHYSICAL QUANTITIES
  p.print_parameters_physical_quantities
  -- TEMPORAL DISCRETIZATION
  if p.problem_type == ProblemType.Unsteady then
    p.print_parameters_temporal_discretization
  -- SPATIAL DISCRETIZATION
  p.print_parameters_spatial_discretization
  -- HIGH-ORDER DUAL SPLITTING SCHEME
  if p.temporal_discretization == TemporalDiscretization.BDFDualSplittingScheme then
    p.print_parameters_dual_splitting members
  -- COUPLED NAVIER-STOKES SOLVER
  if p.problem_type == ProblemType.Steady
      || (p.problem_type == ProblemType.Unsteady
        && p.temporal_discretization == TemporalDiscretization.BDFCoupledSolution) then
    p.print_parameters_coupled_solver members
  -- TURBULENCE
  if false then -- TODO
    p.print_parameters_turbulence
  -- OUTPUT AND POSTPROCESSING
  p.print_parameters_output_and_postprocessing

end print

/-- Members of the multigrid data for the examples, for multigrid data without content. -/
def exampleMultigridDataMembers : MultigridDataMembers Unit :=
  { smoother_poly_degree := fun _ => ParameterValue.double 5
    smoother_smoothing_range := fun _ => ParameterValue.double 20
    coarse_solver := fun _ => MultigridCoarseGridSolver.ChebyshevSmoother }

/-! ## What a run of the printing sends -/

/-- No heading of the coupled solver, of the Newton solver or of the turbulence. -/
def NoHeaders (e : Printed) : Prop :=
  e ≠ Printed.line "Coupled Navier-Stokes solver:" ∧ e ≠ Printed.line "Newton solver"
    ∧ e ≠ Printed.line "Turbulence:"

/-- The run returns, whatever was sent before, and sends only elements with `P`. -/
def Prints {α : Type} (P : Printed → Prop) (m : Method (List Printed) α) : Prop :=
  ∀ out, ∃ a l, m out = (Except.ok a, out ++ l) ∧ ∀ e ∈ l, P e

/-- The run returns or throws, and sends only elements with `P`. -/
def Appends {α : Type} (P : Printed → Prop) (m : Method (List Printed) α) : Prop :=
  ∀ out, ∃ l, (m out).2 = out ++ l ∧ ∀ e ∈ l, P e

/-- The run throws the exception of undefined behaviour, whatever was sent before. -/
def Throws {α : Type} (m : Method (List Printed) α) : Prop :=
  ∀ out, (m out).1 = Except.error "undefined behaviour"

/-- The run sends the block `mid` once, and besides it only elements with `P`. -/
def Marked {α : Type} (P : Printed → Prop) (mid : List Printed) (m : Method (List Printed) α) :
    Prop :=
  ∀ out, ∃ l1 l2, (m out).2 = out ++ (l1 ++ mid ++ l2) ∧ (∀ e ∈ l1, P e) ∧ (∀ e ∈ l2, P e)

section newton_solver_subsection

variable {MG OD ED LD PD : Type}

/-- The Newton solver subsection of the printed parameters: the heading, the absolute
tolerance, the relative tolerance, the maximum number of iterations, and an empty line. -/
def InputParametersNavierStokes.newton_solver_subsection
    (p : InputParametersNavierStokes MG OD ED LD PD) : List Printed :=
  [ Printed.line "Newton solver",
    Printed.parameter "Absolute solver tolerance" (ParameterValue.double p.abs_tol_newton),
    Printed.parameter "Relative solver tolerance" (ParameterValue.double p.rel_tol_newton),
    Printed.parameter "Maximum number of iterations" (ParameterValue.unsigned p.max_iter_newton),
    Printed.line "" ]

end newton_solver_subsection

/-! ## Comparisons of doubles -/

namespace Double

theorem ofNat_eq (n : Nat) : (OfNat.ofNat n : Double) = finite (n : ℚ) := rfl

theorem gt_finite (a b : ℚ) : gt (finite a) (finite b) = decide (b < a) := rfl

theorem le_finite (a b : ℚ) : le (finite a) (finite b) = decide (a ≤ b) := rfl

theorem lt_finite (a b : ℚ) : lt (finite a) (finite b) = decide (a < b) := rfl

theorem ge_finite (a b : ℚ) : ge (finite a) (finite b) = decide (b ≤ a) := rfl

/-- A double that is `<= 0` is not `> 0`. -/
theorem not_gt_zero_of_le_zero (x : Double) (h : le x 0 = true) : gt x 0 = false := by
  cases x with
  | finite q =>
    simp only [ofNat_eq, le_finite, gt_finite, decide_eq_true_eq, decide_eq_false_iff_not,
      not_lt] at h ⊢
    exact h
  | posInf => simp [ofNat_eq, le] at h
  | negInf => rfl
  | nan => rfl

/-- A double that is `< 0` is not `>= 0`. -/
theorem not_ge_zero_of_lt_zero (x : Double) (h : lt x 0 = true) : ge x 0 = false := by
  cases x with
  | finite q =>
    simp only [ofNat_eq, lt_finite, ge_finite, decide_eq_true_eq, decide_eq_false_iff_not,
      not_le] at h ⊢
    exact h
  | posInf => simp [ofNat_eq, lt] at h
  | negInf => rfl
  | nan => rfl

/-- A double that is `> 0` is `>= 0`. -/
theorem ge_zero_of_gt_zero (x : Double) (h : gt x 0 = true) : ge x 0 = true := by
  cases x with
  | finite q =>
    simp only [ofNat_eq, gt_finite, ge_finite, decide_eq_true_eq] at h ⊢
    exact le_of_lt h
  | posInf => rfl
  | negInf => simp [ofNat_eq, gt, lt] at h
  | nan => simp [gt, lt] at h

end Double

/-! ## Running a member function statement by statement -/

namespace Method

variable {σ α β : Type}

theorem bind_eq_seq (m : Method σ α) (f : α → Method σ β) : m >>= f = seq m f := rfl

theorem pure_eq_ret (a : α) : (pure a : Method σ α) = ret a := rfl

theorem accepts_ret (s : σ) : accepts (ret () : Method σ Unit) s := rfl

theorem after_ret (a : α) (s : σ) : after (ret a : Method σ α) s = s := rfl

theorem accepts_assert (c : Bool) (msg : String) (s : σ) :
    accepts (AssertThrow c msg) s ↔ c = true := by
  cases c <;> simp [accepts, outcome, AssertThrow]

theorem after_assert (c : Bool) (msg : String) (s : σ) : after (AssertThrow c msg) s = s := by
  cases c <;> rfl

theorem accepts_this_seq (f : σ → Method σ Unit) (s : σ) :
    accepts (seq this f) s ↔ accepts (f s) s := Iff.rfl

theorem after_this_seq (f : σ → Method σ β) (s : σ) : after (seq this f) s = after (f s) s := rfl

theorem accepts_seq (m : Method σ Unit) (f : Unit → Method σ Unit) (s : σ) :
    accepts (seq m f) s ↔ accepts m s ∧ accepts (f ()) (after m s) := by
  simp only [accepts, outcome, after, seq]
  split <;> simp_all

theorem after_seq (m : Method σ Unit) (f : Unit → Method σ β) (s : σ) :
    after (seq m f) s = if accepts m s then after (f ()) (after m s) else after m s := by
  simp only [accepts, outcome, after, seq]
  split <;> simp_all

theorem accepts_ite (c : Prop) [Decidable c] (m1 m2 : Method σ Unit) (s : σ) :
    accepts (if c then m1 else m2) s ↔ (c → accepts m1 s) ∧ (¬ c → accepts m2 s) := by
  by_cases h : c <;> simp [h]

theorem after_ite (c : Prop) [Decidable c] (m1 m2 : Method σ α) (s : σ) :
    after (if c then m1 else m2) s = if c then after m1 s else after m2 s := by
  by_cases h : c <;> simp [h]

theorem rejects_iff_not_accepts (m : Method σ Unit) (s : σ) : rejects m s ↔ ¬ accepts m s := by
  unfold rejects accepts
  cases outcome m s <;> simp

/-- A loop whose body never throws runs the body for `i`, `i + 1`, ..., `stop - 1` in turn. -/
theorem forLt_ok (stop : Nat) (body : Nat → Method σ Unit) (g : Nat → σ → σ)
    (h : ∀ i s, body i s = (Except.ok (), g i s)) (i : Nat) (s : σ) :
    forLt stop body i s
      = (Except.ok (), (List.range' i (stop - i)).foldl (fun s j => g j s) s) := by
  generalize hn : stop - i = n
  induction n generalizing i s with
  | zero =>
    rw [forLt, if_neg (by omega)]
    rfl
  | succ n ih =>
    rw [forLt, if_pos (by omega)]
    simp only [seq, h, List.range'_succ, List.foldl_cons]
    exact ih (i + 1) (g i s) (by omega)

/-- Below `UINT_MAX` the increment of an `unsigned int` is the successor. -/
theorem unsigned_increment_eq (i : Nat) (h : i < UINT_MAX) : unsigned_increment i = i + 1 := by
  unfold UINT_MAX at h
  unfold unsigned_increment
  exact Nat.mod_eq_of_lt (by omega)

/-- With a last index below `UINT_MAX` and fuel for every pass, the loop with `<=` is the loop
with `<` up to the successor of the last index. -/
theorem forLe_eq_forLt (last : Nat) (body : Nat → Method σ Unit) (fuel i : Nat)
    (hl : last < UINT_MAX) (hf : last + 1 - i ≤ fuel) :
    forLe last body fuel i = forLt (last + 1) body i := by
  induction fuel generalizing i with
  | zero =>
    rw [forLe, forLt, if_neg (by omega), if_neg (by omega)]
  | succ fuel ih =>
    by_cases hi : i ≤ last
    · rw [forLe, forLt, if_pos hi, if_pos (by omega), unsigned_increment_eq i (by omega),
        ih (i + 1) (by omega)]
    · rw [forLe, forLt, if_neg hi, if_neg (by omega)]

theorem modify_eq (f : σ → σ) : Method.modify f = fun s => (Except.ok (), f s) := rfl

/-- Effects appended one after the other are the effects of the whole list. -/
theorem foldl_append_flatMap {E : Type} (F : Nat → List E) (l : List Nat) (w : List E) :
    l.foldl (fun w j => w ++ F j) w = w ++ l.flatMap F := by
  induction l generalizing w with
  | nil => simp
  | cons j l ih => simp [ih]

/-- A loop whose body appends the effects `F j` appends them for `j = i, ..., last` in turn,
when the last index is below `UINT_MAX` and there is fuel for every pass. -/
theorem forLe_emit {E : Type} (last : Nat) (F : Nat → List E) (fuel i : Nat)
    (hl : last < UINT_MAX) (hf : last + 1 - i ≤ fuel) :
    forLe last (fun j w => (Except.ok (), w ++ F j)) fuel i
      = fun w => (Except.ok (), w ++ (List.range' i (last + 1 - i)).flatMap F) := by
  funext w
  rw [forLe_eq_forLt _ _ _ _ hl hf, forLt_ok _ _ (fun j w => w ++ F j) (fun _ _ => rfl),
    foldl_append_flatMap]

/-- A loop whose body does nothing does nothing, when the last index is below `UINT_MAX` and
there is fuel for every pass. -/
theorem forLe_skip (last : Nat) (body : Nat → Method σ Unit) (fuel i : Nat)
    (h : ∀ j s, body j s = (Except.ok (), s)) (hl : last < UINT_MAX)
    (hf : last + 1 - i ≤ fuel) : forLe last body fuel i = ret () := by
  funext s
  rw [forLe_eq_forLt _ _ _ _ hl hf, forLt_ok _ _ (fun _ s => s) h]
  have hfold : ∀ (l : List Nat) (s : σ), l.foldl (fun s _ => s) s = s := by
    intro l
    induction l with
    | nil => intro s; rfl
    | cons j l ih => intro s; exact ih s
  rw [hfold]
  rfl

/-- A loop whose body appends effects with a property appends effects with that property,
whether or not the body throws. -/
theorem forLt_appends {E : Type} (P : E → Prop) (stop : Nat) (body : Nat → Method (List E) Unit)
    (h : ∀ j w, ∃ l, (body j w).2 = w ++ l ∧ ∀ e ∈ l, P e) (i : Nat) (w : List E) :
    ∃ l, (forLt stop body i w).2 = w ++ l ∧ ∀ e ∈ l, P e := by
  generalize hn : stop - i = n
  induction n generalizing i w with
  | zero =>
    rw [forLt, if_neg (by omega)]
    exact ⟨[], by simp [ret], by simp⟩
  | succ n ih =>
    rw [forLt, if_pos (by omega)]
    obtain ⟨l1, h1, hP1⟩ := h i w
    rcases hb : body i w with ⟨_ | _, w1⟩
    · refine ⟨l1, ?_, hP1⟩
      rw [hb] at h1
      simpa [seq, hb] using h1
    · rw [hb] at h1
      simp only at h1
      obtain ⟨l2, h2, hP2⟩ := ih (i + 1) w1 (by omega)
      refine ⟨l1 ++ l2, ?_, ?_⟩
      · subst h1
        simp only [seq, hb, h2, List.append_assoc]
      · intro e he
        rcases List.mem_append.1 he with he | he
        · exact hP1 e he
        · exact hP2 e he

/-- A loop with `<=` whose body appends effects with a property appends effects with that
property, whatever the fuel, the last index and the outcome. -/
theorem forLe_appends {E : Type} (P : E → Prop) (last : Nat)
    (body : Nat → Method (List E) Unit)
    (h : ∀ j w, ∃ l, (body j w).2 = w ++ l ∧ ∀ e ∈ l, P e) (fuel i : Nat) (w : List E) :
    ∃ l, (forLe last body fuel i w).2 = w ++ l ∧ ∀ e ∈ l, P e := by
  induction fuel generalizing i w with
  | zero =>
    rw [forLe]
    by_cases hi : i ≤ last
    · rw [if_pos hi]
      exact ⟨[], by simp [out_of_fuel], by simp⟩
    · rw [if_neg hi]
      exact ⟨[], by simp [ret], by simp⟩
  | succ fuel ih =>
    rw [forLe]
    by_cases hi : i ≤ last
    · rw [if_pos hi]
      obtain ⟨l1, h1, hP1⟩ := h i w
      rcases hb : body i w with ⟨_ | _, w1⟩
      · refine ⟨l1, ?_, hP1⟩
        rw [hb] at h1
        simpa [seq, hb] using h1
      · rw [hb] at h1
        simp only at h1
        obtain ⟨l2, h2, hP2⟩ := ih (unsigned_increment i) w1
        refine ⟨l1 ++ l2, ?_, ?_⟩
        · subst h1
          simp only [seq, hb, h2, List.append_assoc]
        · intro e he
          rcases List.mem_append.1 he with he | he
          · exact hP1 e he
          · exact hP2 e he
    · rw [if_neg hi]
      exact ⟨[], by simp [ret], by simp⟩

/-- A loop whose first pass throws ends with that exception, when there is fuel for a pass. -/
theorem forLe_throws (last : Nat) (body : Nat → Method σ Unit) (fuel i : Nat) (s s1 : σ)
    (e : String) (hi : i ≤ last) (h : body i s = (Except.error e, s1)) :
    forLe last body (fuel + 1) i s = (Except.error e, s1) := by
  rw [forLe, if_pos hi]
  simp only [seq, h]

/-- A loop up to `UINT_MAX` whose body never throws is out of fuel, whatever the fuel: the
test `i <= UINT_MAX` holds for every value of the loop variable. -/
theorem forLe_out_of_fuel (body : Nat → Method σ Unit) (g : Nat → σ → σ)
    (h : ∀ j s, body j s = (Except.ok (), g j s)) (fuel i : Nat) (hi : i ≤ UINT_MAX) (s : σ) :
    (forLe UINT_MAX body fuel i s).1 = Except.error "out of fuel" := by
  induction fuel generalizing i s with
  | zero =>
    rw [forLe, if_pos hi]
    rfl
  | succ fuel ih =>
    rw [forLe, if_pos hi]
    simp only [seq, h]
    apply ih
    unfold unsigned_increment UINT_MAX
    omega

/-- Calls that never throw, for the elements of a list in turn. -/
theorem forEach_ok {α : Type} (body : α → Method σ Unit) (g : α → σ → σ)
    (h : ∀ x s, body x s = (Except.ok (), g x s)) (l : List α) (s : σ) :
    forEach body l s = (Except.ok (), l.foldl (fun s x => g x s) s) := by
  induction l generalizing s with
  | nil => rfl
  | cons x l ih => simp only [forEach, seq, h, List.foldl_cons, ih]

end Method

/-! ## Theorems -/

section theorems

variable {MG OD ED LD PD : Type}

open Method InputParametersNavierStokes

/-- Normal form of a run of `check_input_parameters`: the object is left as it is. -/
theorem after_check_input_parameters (p : InputParametersNavierStokes MG OD ED LD PD) :
    after check_input_parameters p = p := by
  simp only [check_input_parameters, bind_eq_seq, pure_eq_ret, after_seq, after_this_seq,
    after_assert, after_ite, after_ret, ite_self]

/-- The run of `check_input_parameters` ends without an exception exactly when the
rules hold. -/
theorem accepts_check_input_parameters_iff (p : InputParametersNavierStokes MG OD ED LD PD) :
    accepts check_input_parameters p ↔ RulesHold p := by
  simp only [check_input_parameters, bind_eq_seq, pure_eq_ret, after_seq, after_this_seq,
    after_assert, after_ite, after_ret, ite_self, accepts_seq, accepts_this_seq, accepts_assert,
    accepts_ite, accepts_ret, bne_iff_ne, beq_iff_eq, Bool.or_eq_true, ne_eq, true_and, and_true,
    implies_true, RulesHold, NeedsLaplaceInverse]
  by_cases hUS : p.calculation_of_time_step_size = TimeStepCalculation.ConstTimeStepUserSpecified <;>
  by_cases hME : p.calculation_of_time_step_size = TimeStepCalculation.ConstTimeStepMaxEfficiency <;>
  by_cases hD : p.temporal_discretization = TemporalDiscretization.BDFDualSplittingScheme <;>
  by_cases hC : p.temporal_discretization = TemporalDiscretization.BDFCoupledSolution <;>
  by_cases hV : p.momentum_preconditioner = MomentumPreconditioner.VelocityConvectionDiffusion <;>
  by_cases hN : (p.schur_complement_preconditioner = SchurComplementPreconditioner.LaplaceOperator
      ∨ p.schur_complement_preconditioner = SchurComplementPreconditioner.CahouetChabard
      ∨ p.schur_complement_preconditioner = SchurComplementPreconditioner.Elman
      ∨ p.schur_complement_preconditioner
          = SchurComplementPreconditioner.PressureConvectionDiffusion) <;>
  simp only [hUS, hME, hD, hC, hV, hN, or_assoc, if_true, if_false, true_implies, false_implies,
    not_true_eq_false, not_false_eq_true, and_true, true_and, reduceCtorEq] <;>
  constructor <;> intro h <;> simp_all

/-- C1: `check_input_parameters` succeeds exactly when all the rules hold (`RulesHold`: the
eight enumerated choices are defined, `end_time > start_time`, `viscosity > 0`, the numbers of
the selected time-step mode are positive, the choices of the selected scheme are defined), and
it raises otherwise. -/
theorem check_input_parameters_succeeds_iff (p : InputParametersNavierStokes MG OD ED LD PD) :
    (accepts check_input_parameters p ↔ RulesHold p)
    ∧ (rejects check_input_parameters p ↔ ¬ RulesHold p) := by
  rw [rejects_iff_not_accepts, accepts_check_input_parameters_iff]
  exact ⟨Iff.rfl, Iff.rfl⟩

/-- C2: a default-constructed `InputParametersNavierStokes` is rejected by
`check_input_parameters`; the exception is the one of the first assertion. -/
theorem check_input_parameters_rejects_default (mg : MG) (od : OD) (ed : ED) (ld : LD) (pd : PD) :
    rejects check_input_parameters (InputParametersNavierStokes.ctor mg od ed ld pd)
    ∧ outcome check_input_parameters (InputParametersNavierStokes.ctor mg od ed ld pd)
        = Except.error "parameter must be defined" :=
  ⟨⟨_, rfl⟩, rfl⟩

/-- C3, evaluated on the code: the coupled configuration `coupledSetup`, whose
`solver_linearized_navier_stokes` is still `Undefined`, passes `check_input_parameters`. -/
theorem check_input_parameters_accepts_undefined_linear_solver :
    coupledSetup.temporal_discretization = TemporalDiscretization.BDFCoupledSolution
    ∧ coupledSetup.solver_linearized_navier_stokes = SolverLinearizedNavierStokes.Undefined
    ∧ accepts check_input_parameters coupledSetup := by
  refine ⟨rfl, rfl, ?_⟩
  rw [accepts_check_input_parameters_iff]
  simp [RulesHold, NeedsLaplaceInverse, coupledSetup, InputParametersNavierStokes.ctor,
    Double.gt_finite, Double.ofNat_eq]

/-- C4: `time_step_size` is required only for user-specified constant stepping. For a
configuration in mode `ConstTimeStepUserSpecified` that satisfies every other rule (it passes
for some value of `time_step_size`), the check accepts iff `time_step_size > 0`, whatever
`cfl`, `max_velocity` and `c_eff` are; in every other mode the verdict does not depend on
`time_step_size`. -/
theorem time_step_size_required_iff_user_specified
    (p : InputParametersNavierStokes MG OD ED LD PD) :
    (p.calculation_of_time_step_size = TimeStepCalculation.ConstTimeStepUserSpecified →
      (∃ t, accepts check_input_parameters { p with time_step_size := t }) →
      ∀ c v e, (accepts check_input_parameters { p with cfl := c, max_velocity := v, c_eff := e }
        ↔ Double.gt p.time_step_size 0 = true))
    ∧ (p.calculation_of_time_step_size ≠ TimeStepCalculation.ConstTimeStepUserSpecified →
      ∀ t, (accepts check_input_parameters { p with time_step_size := t }
        ↔ accepts check_input_parameters p)) := by
  constructor
  · rintro hUS ⟨t, ht⟩ c v e
    rw [accepts_check_input_parameters_iff] at ht ⊢
    simp only [RulesHold, hUS, if_true, reduceCtorEq, false_implies, ne_eq, not_false_eq_true,
      and_true, true_and] at ht ⊢
    constructor
    · intro h
      exact h.2.2.2.2.2.2.2.2.2.1
    · intro h
      obtain ⟨h1, h2, h3, h4, h5, h6, h7, h8, h9, -, h11, h12⟩ := ht
      exact ⟨h1, h2, h3, h4, h5, h6, h7, h8, h9, h, h11, h12⟩
  · intro hUS t
    rw [accepts_check_input_parameters_iff, accepts_check_input_parameters_iff]
    simp only [RulesHold, hUS, if_false]

/-- Witness of C4: the dual splitting setup is in user-specified mode and passes with its
time step 1/8, so it passes with the CFL numbers all at -1; the coupled setup is in CFL mode
and its verdict is the same with `time_step_size = 0`. -/
theorem time_step_size_required_iff_user_specified_witness :
    (accepts check_input_parameters { dualSplittingSetup with
        cfl := Double.finite (-1), max_velocity := Double.finite (-1), c_eff := Double.finite (-1) }
      ↔ Double.gt dualSplittingSetup.time_step_size 0 = true)
    ∧ (accepts check_input_parameters { coupledSetup with time_step_size := 0 }
      ↔ accepts check_input_parameters coupledSetup) :=
  ⟨(time_step_size_required_iff_user_specified dualSplittingSetup).1 rfl
      ⟨Double.finite (1 / 8), by
        rw [accepts_check_input_parameters_iff]
        simp [RulesHold, dualSplittingSetup, InputParametersNavierStokes.ctor,
          Double.gt_finite, Double.ofNat_eq]⟩
      (Double.finite (-1)) (Double.finite (-1)) (Double.finite (-1)),
    (time_step_size_required_iff_user_specified coupledSetup).2 (by decide) 0⟩

/-- C5: `discretization_of_laplacian` and `solver_schur_complement_preconditioner` are required
only when the Schur-complement preconditioner needs a Laplace inverse. For a coupled-solution
configuration that satisfies every other rule (it passes for some values of the two choices)
and has one of the two `Undefined`, the check rejects iff the preconditioner is
`LaplaceOperator`, `CahouetChabard`, `Elman` or `PressureConvectionDiffusion`; for `None` and
`InverseMassMatrix` the check accepts with both `Undefined`. -/
theorem laplacian_choices_required_iff_laplace_inverse
    (p : InputParametersNavierStokes MG OD ED LD PD)
    (hC : p.temporal_discretization = TemporalDiscretization.BDFCoupledSolution)
    (hO : ∃ d s, accepts check_input_parameters
      { p with discretization_of_laplacian := d, solver_schur_complement_preconditioner := s }) :
    ((p.discretization_of_laplacian = DiscretizationOfLaplacian.Undefined
        ∨ p.solver_schur_complement_preconditioner
            = SolverSchurComplementPreconditioner.Undefined) →
      (rejects check_input_parameters p ↔
        (p.schur_complement_preconditioner = SchurComplementPreconditioner.LaplaceOperator
        ∨ p.schur_complement_preconditioner = SchurComplementPreconditioner.CahouetChabard
        ∨ p.schur_complement_preconditioner = SchurComplementPreconditioner.Elman
        ∨ p.schur_complement_preconditioner
            = SchurComplementPreconditioner.PressureConvectionDiffusion)))
    ∧ ((p.schur_complement_preconditioner = SchurComplementPreconditioner.None
        ∨ p.schur_complement_preconditioner = SchurComplementPreconditioner.InverseMassMatrix) →
      accepts check_input_parameters
        { p with discretization_of_laplacian := DiscretizationOfLaplacian.Undefined,
                 solver_schur_complement_preconditioner :=
                   SolverSchurComplementPreconditioner.Undefined }) := by
  obtain ⟨d, s, hds⟩ := hO
  rw [accepts_check_input_parameters_iff] at hds
  simp only [RulesHold, NeedsLaplaceInverse, hC, reduceCtorEq, false_implies, true_implies,
    ne_eq, not_false_eq_true, and_true, true_and] at hds
  obtain ⟨h1, h2, h3, h4, h5, h6, h7, h8, h9, h10, h11, h12, h13, h14, -⟩ := hds
  constructor
  · intro hU
    rw [rejects_iff_not_accepts, accepts_check_input_parameters_iff]
    simp only [RulesHold, NeedsLaplaceInverse, hC, reduceCtorEq, false_implies, true_implies,
      ne_eq, not_false_eq_true, and_true, true_and]
    constructor
    · intro hn
      by_contra hL
      exact hn ⟨h1, h2, h3, h4, h5, h6, h7, h8, h9, h10, h11, h12, h13, h14,
        fun h => absurd h hL⟩
    · intro hL hr
      have := hr.2.2.2.2.2.2.2.2.2.2.2.2.2.2 hL
      rcases hU with hU | hU
      · exact this.1 hU
      · exact this.2 hU
  · intro hN
    rw [accepts_check_input_parameters_iff]
    simp only [RulesHold, NeedsLaplaceInverse, hC, reduceCtorEq, false_implies, true_implies,
      ne_eq, not_false_eq_true, and_true, true_and]
    refine ⟨h1, h2, h3, h4, h5, h6, h7, h8, h9, h10, h11, h12, h13, h14, ?_⟩
    intro hL
    rcases hN with hN | hN <;> rw [hN] at hL <;> simp at hL

/-- Witness of C5: the coupled setup (Cahouet-Chabard) passes with both choices defined; with
`discretization_of_laplacian` reset to `Undefined` it is rejected. -/
theorem laplacian_choices_required_iff_laplace_inverse_witness :
    rejects check_input_parameters
      { coupledSetup with discretization_of_laplacian := DiscretizationOfLaplacian.Undefined } :=
  ((laplacian_choices_required_iff_laplace_inverse
      { coupledSetup with discretization_of_laplacian := DiscretizationOfLaplacian.Undefined }
      rfl
      ⟨DiscretizationOfLaplacian.Classical,
        SolverSchurComplementPreconditioner.GeometricMultigridVCycle, by
          rw [accepts_check_input_parameters_iff]
          simp [RulesHold, NeedsLaplaceInverse, coupledSetup, InputParametersNavierStokes.ctor,
            Double.gt_finite, Double.ofNat_eq]⟩).1 (Or.inl rfl)).2
    (Or.inr (Or.inl rfl))

/-- C6: `check_input_parameters` has no side effect beyond raising. Whether it accepts or
raises, the configuration after the call equals the configuration before it (every field has
the same value), and a second call gives the same outcome as the first. -/
theorem check_input_parameters_no_side_effect (p : InputParametersNavierStokes MG OD ED LD PD) :
    after check_input_parameters p = p
    ∧ outcome check_input_parameters (after check_input_parameters p)
        = outcome check_input_parameters p := by
  rw [after_check_input_parameters]
  exact ⟨rfl, rfl⟩

/-- C7: in every time-step mode other than `ConstTimeStepUserSpecified` (`ConstTimeStepCFL`,
`AdaptiveTimeStepCFL`, `ConstTimeStepMaxEfficiency`) the check rejects a configuration whose
`cfl` or `max_velocity` is `<= 0`; in mode `ConstTimeStepMaxEfficiency` it also rejects a
`c_eff <= 0`; in the two CFL modes the verdict does not depend on `c_eff`. -/
theorem cfl_numbers_required_unless_user_specified
    (p : InputParametersNavierStokes MG OD ED LD PD) :
    ((p.calculation_of_time_step_size = TimeStepCalculation.ConstTimeStepCFL
        ∨ p.calculation_of_time_step_size = TimeStepCalculation.AdaptiveTimeStepCFL
        ∨ p.calculation_of_time_step_size = TimeStepCalculation.ConstTimeStepMaxEfficiency) →
      (Double.le p.cfl 0 = true ∨ Double.le p.max_velocity 0 = true) →
      rejects check_input_parameters p)
    ∧ (p.calculation_of_time_step_size = TimeStepCalculation.ConstTimeStepMaxEfficiency →
      Double.le p.c_eff 0 = true → rejects check_input_parameters p)
    ∧ ((p.calculation_of_time_step_size = TimeStepCalculation.ConstTimeStepCFL
        ∨ p.calculation_of_time_step_size = TimeStepCalculation.AdaptiveTimeStepCFL) →
      ∀ e, (accepts check_input_parameters { p with c_eff := e }
        ↔ accepts check_input_parameters p)) := by
  refine ⟨?_, ?_, ?_⟩
  · intro hM hneg
    rw [rejects_iff_not_accepts, accepts_check_input_parameters_iff]
    intro hr
    have hUS : p.calculation_of_time_step_size
        ≠ TimeStepCalculation.ConstTimeStepUserSpecified := by
      rcases hM with h | h | h <;> rw [h] <;> decide
    have hnum := hr.2.2.2.2.2.2.2.2.2.2.1
    rw [if_neg hUS] at hnum
    rcases hneg with h | h
    · have := Double.not_gt_zero_of_le_zero _ h
      rw [hnum.1] at this
      exact Bool.noConfusion this
    · have := Double.not_gt_zero_of_le_zero _ h
      rw [hnum.2.1] at this
      exact Bool.noConfusion this
  · intro hM hneg
    rw [rejects_iff_not_accepts, accepts_check_input_parameters_iff]
    intro hr
    have hnum := hr.2.2.2.2.2.2.2.2.2.2.1
    rw [hM] at hnum
    have := Double.not_gt_zero_of_le_zero _ hneg
    rw [hnum.2.2 rfl] at this
    exact Bool.noConfusion this
  · intro hM e
    rw [accepts_check_input_parameters_iff, accepts_check_input_parameters_iff]
    rcases hM with h | h <;> simp only [RulesHold, h, reduceCtorEq, false_implies]

/-- Witness of C7: the coupled setup is in mode `ConstTimeStepCFL`; with `cfl` at the value -1
of the constructor it is rejected, and its verdict is the same with `c_eff = 0`. -/
theorem cfl_numbers_required_unless_user_specified_witness :
    rejects check_input_parameters { coupledSetup with cfl := Double.finite (-1) }
    ∧ (accepts check_input_parameters { coupledSetup with c_eff := 0 }
      ↔ accepts check_input_parameters coupledSetup) :=
  ⟨(cfl_numbers_required_unless_user_specified
      { coupledSetup with cfl := Double.finite (-1) }).1 (Or.inl rfl)
      (Or.inl (by simp [Double.le_finite, Double.ofNat_eq])),
    (cfl_numbers_required_unless_user_specified coupledSetup).2.2 (Or.inl rfl) 0⟩

/-- C8: the scheme-specific rules are mutually exclusive. Under `BDFDualSplittingScheme` an
`Undefined` `projection_type` is rejected and the verdict does not depend on the coupled-solver
choices `preconditioner_linearized_navier_stokes`, `momentum_preconditioner` and
`schur_complement_preconditioner`; under `BDFCoupledSolution` an `Undefined` value of one of
those three is rejected and the verdict does not depend on `projection_type`. -/
theorem scheme_specific_rules_exclusive (p : InputParametersNavierStokes MG OD ED LD PD) :
    (p.temporal_discretization = TemporalDiscretization.BDFDualSplittingScheme →
      (p.projection_type = ProjectionType.Undefined → rejects check_input_parameters p)
      ∧ ∀ a b c, (accepts check_input_parameters
          { p with preconditioner_linearized_navier_stokes := a, momentum_preconditioner := b,
                   schur_complement_preconditioner := c }
        ↔ accepts check_input_parameters p))
    ∧ (p.temporal_discretization = TemporalDiscretization.BDFCoupledSolution →
      ((p.preconditioner_linearized_navier_stokes
            = PreconditionerLinearizedNavierStokes.Undefined
          ∨ p.momentum_preconditioner = MomentumPreconditioner.Undefined
          ∨ p.schur_complement_preconditioner = SchurComplementPreconditioner.Undefined) →
        rejects check_input_parameters p)
      ∧ ∀ t, (accepts check_input_parameters { p with projection_type := t }
        ↔ accepts check_input_parameters p)) := by
  constructor
  · intro hD
    constructor
    · intro hU
      rw [rejects_iff_not_accepts, accepts_check_input_parameters_iff]
      intro hr
      exact hr.2.2.2.2.2.2.2.2.2.2.2.1 hD hU
    · intro a b c
      rw [accepts_check_input_parameters_iff, accepts_check_input_parameters_iff]
      simp only [RulesHold, hD, reduceCtorEq, false_implies]
  · intro hC
    constructor
    · intro hU
      rw [rejects_iff_not_accepts, accepts_check_input_parameters_iff]
      intro hr
      have := hr.2.2.2.2.2.2.2.2.2.2.2.2 hC
      rcases hU with h | h | h
      · exact this.1 h
      · exact this.2.1 h
      · exact this.2.2.1 h
    · intro t
      rw [accepts_check_input_parameters_iff, accepts_check_input_parameters_iff]
      simp only [RulesHold, hC, reduceCtorEq, false_implies]

/-- Witness of C8: the dual splitting setup with `projection_type` reset to `Undefined` is
rejected, and the coupled setup has the same verdict with `projection_type = NoPenalty`. -/
theorem scheme_specific_rules_exclusive_witness :
    rejects check_input_parameters
      { dualSplittingSetup with projection_type := ProjectionType.Undefined }
    ∧ (accepts check_input_parameters
        { coupledSetup with projection_type := ProjectionType.NoPenalty }
      ↔ accepts check_input_parameters coupledSetup) :=
  ⟨((scheme_specific_rules_exclusive
      { dualSplittingSetup with projection_type := ProjectionType.Undefined }).1 rfl).1 rfl,
    ((scheme_specific_rules_exclusive coupledSetup).2 rfl).2 ProjectionType.NoPenalty⟩

/-- C9: `solver_momentum_preconditioner` is only relevant for
`MomentumPreconditioner::VelocityConvectionDiffusion`. For a coupled-solution configuration
that satisfies every other rule (it passes for some value of the solver) and has the solver
`Undefined`, the check rejects iff `momentum_preconditioner` is `VelocityConvectionDiffusion`;
for `None`, `InverseMassMatrix` and `VelocityDiffusion` it accepts with the solver
`Undefined`. -/
theorem solver_momentum_preconditioner_required_iff
    (p : InputParametersNavierStokes MG OD ED LD PD)
    (hC : p.temporal_discretization = TemporalDiscretization.BDFCoupledSolution)
    (hO : ∃ s, accepts check_input_parameters { p with solver_momentum_preconditioner := s }) :
    (p.solver_momentum_preconditioner = SolverMomentumPreconditioner.Undefined →
      (rejects check_input_parameters p ↔
        p.momentum_preconditioner = MomentumPreconditioner.VelocityConvectionDiffusion))
    ∧ ((p.momentum_preconditioner = MomentumPreconditioner.None
        ∨ p.momentum_preconditioner = MomentumPreconditioner.InverseMassMatrix
        ∨ p.momentum_preconditioner = MomentumPreconditioner.VelocityDiffusion) →
      accepts check_input_parameters
        { p with solver_momentum_preconditioner := SolverMomentumPreconditioner.Undefined }) := by
  obtain ⟨s, hs⟩ := hO
  rw [accepts_check_input_parameters_iff] at hs
  simp only [RulesHold, hC, reduceCtorEq, false_implies, true_implies,
    ne_eq, not_false_eq_true, and_true, true_and] at hs
  obtain ⟨h1, h2, h3, h4, h5, h6, h7, h8, h9, h10, h11, h12, h13, -, h15⟩ := hs
  constructor
  · intro hU
    rw [rejects_iff_not_accepts, accepts_check_input_parameters_iff]
    simp only [RulesHold, hC, reduceCtorEq, false_implies, true_implies,
      ne_eq, not_false_eq_true, and_true, true_and]
    constructor
    · intro hn
      by_contra hV
      exact hn ⟨h1, h2, h3, h4, h5, h6, h7, h8, h9, h10, h11, h12, h13,
        fun h => absurd h hV, h15⟩
    · intro hV hr
      exact hr.2.2.2.2.2.2.2.2.2.2.2.2.2.1 hV hU
  · intro hN
    rw [accepts_check_input_parameters_iff]
    simp only [RulesHold, hC, reduceCtorEq, false_implies, true_implies,
      ne_eq, not_false_eq_true, and_true, true_and]
    refine ⟨h1, h2, h3, h4, h5, h6, h7, h8, h9, h10, h11, h12, h13, ?_, h15⟩
    intro hV
    rcases hN with hN | hN | hN <;> rw [hN] at hV <;> simp at hV

/-- Witness of C9: the coupled setup (velocity convection-diffusion preconditioner) passes with
its solver defined; with the solver reset to `Undefined` it is rejected. -/
theorem solver_momentum_preconditioner_required_iff_witness :
    rejects check_input_parameters
      { coupledSetup with
        solver_momentum_preconditioner := SolverMomentumPreconditioner.Undefined } :=
  ((solver_momentum_preconditioner_required_iff
      { coupledSetup with
        solver_momentum_preconditioner := SolverMomentumPreconditioner.Undefined }
      rfl
      ⟨SolverMomentumPreconditioner.GeometricMultigridVCycle, by
        rw [accepts_check_input_parameters_iff]
        simp [RulesHold, NeedsLaplaceInverse, coupledSetup, InputParametersNavierStokes.ctor,
          Double.gt_finite, Double.ofNat_eq]⟩).1 rfl).2 rfl

end theorems

section aero_acoustic

open Method AeroAcoustic

/-- The run of `AeroAcoustic::Parameters::check` ends without an exception exactly when the
density is `>= 0`, the coupling strategy is set and not both analytical flags are true. -/
theorem accepts_aero_acoustic_check_iff (p : Parameters) :
    accepts Parameters.check p ↔
      Double.ge p.density 0 = true
      ∧ p.fluid_to_acoustic_coupling_strategy ≠ FluidToAcousticCouplingStrategy.Undefined
      ∧ (p.compute_acoustic_from_analytical_cfd_solution = true →
          p.compute_acoustic_from_analytical_source_term = false) := by
  simp only [Parameters.check, bind_eq_seq, pure_eq_ret, after_seq, after_this_seq,
    after_assert, after_ite, after_ret, ite_self, accepts_seq, accepts_this_seq, accepts_assert,
    accepts_ite, accepts_ret, bne_iff_ne, ne_eq, implies_true, and_true,
    Bool.not_eq_eq_eq_not, Bool.not_true]

/-- C10, as the code has it: `AeroAcoustic::Parameters::check()` rejects every configuration
whose density is negative (`density < 0`, which includes the value -1 of the constructor), with
the message of the density assertion. -/
theorem aero_acoustic_check_rejects_negative_density (p : Parameters)
    (h : Double.lt p.density 0 = true) :
    rejects Parameters.check p
    ∧ outcome Parameters.check p = Except.error "Density has to be set." := by
  have hge := Double.not_ge_zero_of_lt_zero _ h
  have hout : outcome Parameters.check p = Except.error "Density has to be set." := by
    simp [Parameters.check, outcome, bind_eq_seq, seq, this, AssertThrow, hge]
  exact ⟨⟨_, hout⟩, hout⟩

/-- Witness of C10: a default-constructed `Parameters` has density -1 and is rejected. -/
theorem aero_acoustic_check_rejects_negative_density_witness :
    Double.lt Parameters.ctor.density 0 = true ∧ rejects Parameters.check Parameters.ctor :=
  ⟨by simp [Parameters.ctor, Double.lt_finite, Double.ofNat_eq],
    (aero_acoustic_check_rejects_negative_density Parameters.ctor
      (by simp [Parameters.ctor, Double.lt_finite, Double.ofNat_eq])).1⟩

/-- C10 fails as stated: a configuration with density 0 (so `density <= 0`) and the coupling
strategy set is accepted by `check()`. -/
theorem aero_acoustic_check_accepts_zero_density :
    Double.le zeroDensitySetup.density 0 = true
    ∧ accepts Parameters.check zeroDensitySetup
    ∧ ¬ rejects Parameters.check zeroDensitySetup := by
  have hacc : accepts Parameters.check zeroDensitySetup := by
    rw [accepts_aero_acoustic_check_iff]
    simp [zeroDensitySetup, Parameters.ctor, Double.ge_finite, Double.ofNat_eq]
  refine ⟨?_, hacc, ?_⟩
  · simp [zeroDensitySetup, Double.le_finite, Double.ofNat_eq]
  · rw [rejects_iff_not_accepts]
    exact fun h => h hacc

/-- C11: only one of `compute_acoustic_from_analytical_cfd_solution` and
`compute_acoustic_from_analytical_source_term` can be true. For parameters with `density > 0`
and a defined coupling strategy, `check()` raises iff both flags are true and accepts iff at
most one is true; with the coupling strategy `Undefined` it raises whatever the flags are. -/
theorem aero_acoustic_check_flags_exclusive (p : Parameters) :
    (Double.gt p.density 0 = true →
      p.fluid_to_acoustic_coupling_strategy ≠ FluidToAcousticCouplingStrategy.Undefined →
      (rejects Parameters.check p ↔
        (p.compute_acoustic_from_analytical_cfd_solution = true
          ∧ p.compute_acoustic_from_analytical_source_term = true))
      ∧ (accepts Parameters.check p ↔
        ¬ (p.compute_acoustic_from_analytical_cfd_solution = true
          ∧ p.compute_acoustic_from_analytical_source_term = true)))
    ∧ (p.fluid_to_acoustic_coupling_strategy = FluidToAcousticCouplingStrategy.Undefined →
      rejects Parameters.check p) := by
  constructor
  · intro hd hs
    have hge := Double.ge_zero_of_gt_zero _ hd
    have hacc : accepts Parameters.check p ↔
        ¬ (p.compute_acoustic_from_analytical_cfd_solution = true
          ∧ p.compute_acoustic_from_analytical_source_term = true) := by
      rw [accepts_aero_acoustic_check_iff]
      constructor
      · rintro ⟨-, -, h⟩ ⟨h1, h2⟩
        rw [h h1] at h2
        exact Bool.noConfusion h2
      · intro h
        refine ⟨hge, hs, fun h1 => ?_⟩
        cases h2 : p.compute_acoustic_from_analytical_source_term
        · rfl
        · exact absurd ⟨h1, h2⟩ h
    refine ⟨?_, hacc⟩
    rw [rejects_iff_not_accepts, hacc, not_not]
  · intro hU
    rw [rejects_iff_not_accepts, accepts_aero_acoustic_check_iff]
    exact fun h => h.2.1 hU

/-- Witness of C11: with density 1, the coupling strategy set and both flags true the check
raises; a default-constructed `Parameters` with both flags true raises as well. -/
theorem aero_acoustic_check_flags_exclusive_witness :
    rejects Parameters.check
      { density := 1, source_term_with_convection := false, blend_in_source_term := false,
        fluid_to_acoustic_coupling_strategy :=
          FluidToAcousticCouplingStrategy.ConservativeInterpolation,
        compute_acoustic_from_analytical_cfd_solution := true,
        compute_acoustic_from_analytical_source_term := true }
    ∧ rejects Parameters.check
      { Parameters.ctor with
        compute_acoustic_from_analytical_cfd_solution := true,
        compute_acoustic_from_analytical_source_term := true } :=
  ⟨(((aero_acoustic_check_flags_exclusive _).1
      (by simp [Double.gt_finite, Double.ofNat_eq]) (by decide)).1).2 ⟨rfl, rfl⟩,
    (aero_acoustic_check_flags_exclusive _).2 rfl⟩

end aero_acoustic






section mass_operator

open Method ConvDiff ConvDiff.Operators

variable {scalar : Type}

/-- One pass of the loop of `do_cell_integral`: the operator is left as it is and the integrator
receives the flux at `q`. -/
theorem do_cell_integral_body (times : Double → scalar → scalar) (q : Nat)
    (s : MassMatrixOperator × IntegratorCell scalar) :
    (do
      let flux ← Method.onPart (fun s : MassMatrixOperator × IntegratorCell scalar => s.1.kernel)
        (fun kernel s => ({ s.1 with kernel := kernel }, s.2))
        (MassMatrixKernel.get_volume_flux times (← Method.this).2 q)
      Method.onPart (fun s : MassMatrixOperator × IntegratorCell scalar => s.2)
        (fun integrator s => (s.1, integrator))
        (IntegratorCell.submit_value flux q)) s
    = (Except.ok (), (s.1, { s.2 with submitted := s.2.submitted
        ++ [(times s.1.kernel.data.scaling_factor (s.2.get_value q), q)] })) := rfl

/-- The passes of the loop of `do_cell_integral` over a list of quadrature points. -/
theorem do_cell_integral_fold (times : Double → scalar → scalar) (l : List Nat)
    (op : MassMatrixOperator) (integrator : IntegratorCell scalar) :
    l.foldl (fun (s : MassMatrixOperator × IntegratorCell scalar) q =>
        (s.1, { s.2 with submitted := s.2.submitted
          ++ [(times s.1.kernel.data.scaling_factor (s.2.get_value q), q)] }))
      (op, integrator)
    = (op, { integrator with submitted := (integrator.submitted
        ++ l.map (fun q => (times op.kernel.data.scaling_factor (integrator.get_value q), q))) }) := by
  induction l generalizing integrator with
  | nil => simp
  | cons q l ih => simp [ih]

/-- The run of `do_cell_integral`: no exception, the operator unchanged, one submission per
quadrature point. -/
theorem do_cell_integral_run (times : Double → scalar → scalar) (op : MassMatrixOperator)
    (integrator : IntegratorCell scalar) :
    MassMatrixOperator.do_cell_integral times (op, integrator)
    = (Except.ok (), (op, { integrator with submitted := (integrator.submitted
        ++ (List.range integrator.n_q_points).map
            (fun q => (times op.kernel.data.scaling_factor (integrator.get_value q), q))) })) := by
  have h := forLt_ok integrator.n_q_points _ _ (do_cell_integral_body times) 0 (op, integrator)
  rw [do_cell_integral_fold, Nat.sub_zero, ← List.range_eq_range'] at h
  exact h

/-- C12: after `MassMatrixKernel::reinit(data)`, `get_volume_flux` at a quadrature point `q`
returns `data.scaling_factor` times the field value at `q`; with the default
`MassMatrixKernelData` (scaling factor 1, and a product that leaves the value unchanged when
the factor is 1) it returns the value unchanged; the call leaves the kernel as it is; a later `reinit` replaces the data. -/
theorem mass_kernel_volume_flux (times : Double → scalar → scalar) (kernel : MassMatrixKernel)
    (data data2 : MassMatrixKernelData) (integrator : IntegratorCell scalar) (q : Nat) :
    outcome (MassMatrixKernel.get_volume_flux times integrator q)
        (after (MassMatrixKernel.reinit data) kernel)
      = Except.ok (times data.scaling_factor (integrator.get_value q))
    ∧ (times 1 (integrator.get_value q) = integrator.get_value q →
        outcome (MassMatrixKernel.get_volume_flux times integrator q)
            (after (MassMatrixKernel.reinit MassMatrixKernelData.ctor) kernel)
          = Except.ok (integrator.get_value q))
    ∧ after (MassMatrixKernel.get_volume_flux times integrator q) kernel = kernel
    ∧ after (MassMatrixKernel.reinit data2) (after (MassMatrixKernel.reinit data) kernel)
        = after (MassMatrixKernel.reinit data2) kernel
    ∧ (after (MassMatrixKernel.reinit data2)
        (after (MassMatrixKernel.reinit data) kernel)).data = data2 := by
  refine ⟨rfl, ?_, rfl, rfl, rfl⟩
  intro h1
  show Except.ok (times MassMatrixKernelData.ctor.scaling_factor (integrator.get_value q)) = _
  rw [show MassMatrixKernelData.ctor.scaling_factor = 1 from rfl, h1]

/-- Witness of C12: with one double per `scalar` and the product of doubles, a kernel
reinitialised with the default data returns the field value 3 at the point 0 unchanged. -/
theorem mass_kernel_volume_flux_witness :
    outcome (MassMatrixKernel.get_volume_flux Double.mul
        { n_q_points := 1, get_value := fun _ => 3, submitted := [] } 0)
      (after (MassMatrixKernel.reinit MassMatrixKernelData.ctor) { data := { scaling_factor := 2 } })
    = Except.ok 3 :=
  (mass_kernel_volume_flux Double.mul { data := { scaling_factor := 2 } }
    MassMatrixKernelData.ctor MassMatrixKernelData.ctor
    { n_q_points := 1, get_value := fun _ => 3, submitted := [] } 0).2.1 (by decide!)

/-- C13: `do_cell_integral` ends without exception, leaves the operator as it is, and submits
one value for each quadrature point `q = 0, ..., n_q_points - 1` in turn and for no other
index, the value being `scaling_factor` times the field value at `q`; so every index below
`n_q_points` is submitted exactly once and no other, and for a constant field `c` every
submitted value is `scaling_factor` times `c`. -/
theorem do_cell_integral_submits (times : Double → scalar → scalar) (op : MassMatrixOperator)
    (integrator : IntegratorCell scalar) :
    outcome (MassMatrixOperator.do_cell_integral times) (op, integrator) = Except.ok ()
    ∧ (after (MassMatrixOperator.do_cell_integral times) (op, integrator)).1 = op
    ∧ (after (MassMatrixOperator.do_cell_integral times) (op, integrator)).2.submitted
        = integrator.submitted ++ (List.range integrator.n_q_points).map
            (fun q => (times op.kernel.data.scaling_factor (integrator.get_value q), q))
    ∧ (∀ q, List.count q (List.map Prod.snd ((List.range integrator.n_q_points).map
            (fun q => (times op.kernel.data.scaling_factor (integrator.get_value q), q))))
          = if q < integrator.n_q_points then 1 else 0)
    ∧ (∀ c, (∀ q, integrator.get_value q = c) →
        ∀ e ∈ (List.range integrator.n_q_points).map
            (fun q => (times op.kernel.data.scaling_factor (integrator.get_value q), q)),
          e.1 = times op.kernel.data.scaling_factor c) := by
  refine ⟨?_, ?_, ?_, ?_, ?_⟩
  · simp only [outcome, do_cell_integral_run]
  · simp only [after, do_cell_integral_run]
  · simp only [after, do_cell_integral_run]
  · intro q
    rw [List.map_map, show (Prod.snd ∘ fun q =>
        (times op.kernel.data.scaling_factor (integrator.get_value q), q)) = id from rfl,
      List.map_id]
    by_cases hq : q < integrator.n_q_points
    · rw [if_pos hq]
      exact List.count_eq_one_of_mem (List.nodup_range _) (List.mem_range.2 hq)
    · rw [if_neg hq]
      exact List.count_eq_zero_of_not_mem (fun h => hq (List.mem_range.1 h))
  · intro c hc e he
    obtain ⟨q, -, rfl⟩ := List.mem_map.1 he
    simp only [hc]

/-- Witness of C13: scaling factor 2 and the constant field 3 on four quadrature points, with
one double per `scalar` and the product of doubles: every submitted value is 6. -/
theorem do_cell_integral_submits_witness :
    ∀ e ∈ (List.range 4).map (fun q => (Double.mul 2 3, q)), e.1 = (6 : Double) := by
  intro e he
  have h := (do_cell_integral_submits Double.mul { kernel := { data := { scaling_factor := 2 } } }
    { n_q_points := 4, get_value := fun _ => 3, submitted := [] }).2.2.2.2 3 (fun _ => rfl) e he
  rw [h]
  decide!

end mass_operator

section output_generator_theorems

open Method Structure

variable {V D M : Type}

/-- The counters written by effects in sequence. -/
theorem written_counters_append (l1 l2 : List (Effect V)) :
    written_counters (l1 ++ l2) = written_counters l1 ++ written_counters l2 := by
  simp [written_counters, List.filterMap_append]

/-- The run of `evaluate` for an unsteady problem after the initial reset of the counter, when
the time of the next output is reached. -/
theorem evaluate_unsteady_write (rank : Nat) (solution : V) (time : Double) (tsn : Int)
    (g : OutputGenerator V D M) (hw : g.output_data.write_output = true) (ht : 0 ≤ tsn)
    (hr : g.reset_counter = false)
    (hc : Double.gt time (Double.sub (Double.add g.output_data.start_time
          (Double.mul (Double.ofUnsigned g.output_counter)
            g.output_data.interval_time)) Double.lit_1e_10) = true) :
    OutputGenerator.evaluate rank solution time tsn g
    = (Except.ok (), { g with
        output_counter := unsigned_increment g.output_counter
        effects := (g.effects ++ (if rank = 0 then [Effect.pcout_write_data_at_time time] else []))
          ++ [Effect.write_vtu_with_pvtu_record g.output_data.directory g.output_data.filename
                g.output_counter solution g.output_data.degree
                g.output_data.write_higher_order] }) := by
  by_cases h0 : rank = 0 <;>
  simp [OutputGenerator.evaluate, bind_eq_seq, pure_eq_ret, seq, this, ret, Method.modify, onPart,
    hw, ht, hr, hc, h0, OutputGenerator.pcout, OutputGenerator.effect, write_output]

/-- The run of `evaluate` for an unsteady problem after the initial reset of the counter, when
the time of the next output is not reached. -/
theorem evaluate_unsteady_skip (rank : Nat) (solution : V) (time : Double) (tsn : Int)
    (g : OutputGenerator V D M) (hw : g.output_data.write_output = true) (ht : 0 ≤ tsn)
    (hr : g.reset_counter = false)
    (hc : Double.gt time (Double.sub (Double.add g.output_data.start_time
          (Double.mul (Double.ofUnsigned g.output_counter)
            g.output_data.interval_time)) Double.lit_1e_10) = false) :
    OutputGenerator.evaluate rank solution time tsn g = (Except.ok (), g) := by
  simp [OutputGenerator.evaluate, bind_eq_seq, pure_eq_ret, seq, this, ret, Method.modify, onPart,
    hw, ht, hr, hc]

/-- The run of `evaluate` for a steady problem. -/
theorem evaluate_steady_run (rank : Nat) (solution : V) (time : Double) (tsn : Int)
    (g : OutputGenerator V D M) (hw : g.output_data.write_output = true) (ht : tsn < 0) :
    OutputGenerator.evaluate rank solution time tsn g
    = (Except.ok (), { g with
        output_counter := unsigned_increment g.output_counter
        effects := (g.effects
            ++ (if rank = 0 then [Effect.pcout_write_data (g.output_counter == 0)] else []))
          ++ [Effect.write_vtu_with_pvtu_record g.output_data.directory g.output_data.filename
                g.output_counter solution g.output_data.degree
                g.output_data.write_higher_order] }) := by
  have ht2 : ¬ 0 ≤ tsn := not_le.2 ht
  by_cases h0 : rank = 0 <;>
  simp [OutputGenerator.evaluate, bind_eq_seq, pure_eq_ret, seq, this, ret, Method.modify, onPart,
    hw, ht2, h0, OutputGenerator.pcout, OutputGenerator.effect, write_output]

/-- The run of `evaluate` when no output is to be written. -/
theorem evaluate_disabled_run (rank : Nat) (solution : V) (time : Double) (tsn : Int)
    (g : OutputGenerator V D M) (hw : g.output_data.write_output = false) :
    OutputGenerator.evaluate rank solution time tsn g = (Except.ok (), g) := by
  simp [OutputGenerator.evaluate, bind_eq_seq, pure_eq_ret, ret, this, seq, hw]

/-- The run of `setup` when no output is to be written. -/
theorem setup_disabled_run (dof_handler_in : D) (mapping_in : M) (output_data_in : OutputDataBase)
    (g : OutputGenerator V D M) (hw : output_data_in.write_output = false) :
    OutputGenerator.setup dof_handler_in mapping_in output_data_in g
    = (Except.ok (), { g with
        dof_handler := some dof_handler_in
        mapping := some mapping_in
        output_data := output_data_in
        output_counter := output_data_in.start_counter }) := by
  simp [OutputGenerator.setup, bind_eq_seq, pure_eq_ret, ret, this, seq, Method.modify, hw]

/-- C14: unsteady output rule of `evaluate` (`time_step_number >= 0`, `write_output` true, the
initial reset of the counter done). The run ends without exception; an output is written iff
`time > start_time + output_counter * interval_time - 1e-10`; when it is written, its file
index is the value of `output_counter` before the call and `output_counter` is incremented
(as an `unsigned int`: the successor modulo `2 ^ 32`, which is `output_counter + 1` below
`UINT_MAX`); when it is not written, the generator is left as it is. -/
theorem evaluate_unsteady_rule (rank : Nat) (solution : V) (time : Double) (tsn : Int)
    (g : OutputGenerator V D M) (hw : g.output_data.write_output = true) (ht : 0 ≤ tsn)
    (hr : g.reset_counter = false) :
    outcome (OutputGenerator.evaluate rank solution time tsn) g = Except.ok ()
    ∧ (Double.gt time (Double.sub (Double.add g.output_data.start_time
          (Double.mul (Double.ofUnsigned g.output_counter)
            g.output_data.interval_time)) Double.lit_1e_10) = true →
        written_counters (after (OutputGenerator.evaluate rank solution time tsn) g).effects
          = written_counters g.effects ++ [g.output_counter]
        ∧ (after (OutputGenerator.evaluate rank solution time tsn) g).output_counter
          = (g.output_counter + 1) % 4294967296
        ∧ (g.output_counter < UINT_MAX →
          (after (OutputGenerator.evaluate rank solution time tsn) g).output_counter
            = g.output_counter + 1))
    ∧ (Double.gt time (Double.sub (Double.add g.output_data.start_time
          (Double.mul (Double.ofUnsigned g.output_counter)
            g.output_data.interval_time)) Double.lit_1e_10) = false →
        after (OutputGenerator.evaluate rank solution time tsn) g = g
        ∧ written_counters (after (OutputGenerator.evaluate rank solution time tsn) g).effects
          = written_counters g.effects) := by
  cases hc : Double.gt time (Double.sub (Double.add g.output_data.start_time
          (Double.mul (Double.ofUnsigned g.output_counter)
            g.output_data.interval_time)) Double.lit_1e_10)
  · have h := evaluate_unsteady_skip rank solution time tsn g hw ht hr hc
    simp [outcome, after, h]
  · have h := evaluate_unsteady_write rank solution time tsn g hw ht hr hc
    refine ⟨by simp [outcome, h], fun _ => ⟨?_, ?_, ?_⟩, by simp⟩
    · simp only [after, h]
      by_cases h0 : rank = 0 <;> simp [h0, written_counters, List.filterMap_append]
    · simp [after, h, unsigned_increment]
    · intro hlt
      simp only [after, h, unsigned_increment]
      exact Nat.mod_eq_of_lt (by unfold UINT_MAX at hlt; omega)

/-- Witness of C14: the example generator has counter 3, start time 0 and interval 1; at time 3
the output of index 3 is written and the counter becomes 4. -/
theorem evaluate_unsteady_rule_witness :
    written_counters (after (OutputGenerator.evaluate 0 () 3 7) exampleGenerator).effects
      = written_counters exampleGenerator.effects ++ [exampleGenerator.output_counter]
    ∧ (after (OutputGenerator.evaluate 0 () 3 7) exampleGenerator).output_counter
      = exampleGenerator.output_counter + 1 := by
  have h := (evaluate_unsteady_rule 0 () 3 7 exampleGenerator rfl (by decide) rfl).2.1
    (by decide!)
  exact ⟨h.1, h.2.2 (by decide)⟩

/-- C15: steady output rule of `evaluate` (`time_step_number < 0`, `write_output` true). Every
call ends without exception and writes exactly one output, whose index is the current
`output_counter`, and then increments `output_counter` (as an `unsigned int`: the successor
modulo `2 ^ 32`, which is `output_counter + 1` below `UINT_MAX`), whatever the value of
`time`; `reset_counter` is left as it is. -/
theorem evaluate_steady_rule (rank : Nat) (solution : V) (time : Double) (tsn : Int)
    (g : OutputGenerator V D M) (hw : g.output_data.write_output = true) (ht : tsn < 0) :
    outcome (OutputGenerator.evaluate rank solution time tsn) g = Except.ok ()
    ∧ written_counters (after (OutputGenerator.evaluate rank solution time tsn) g).effects
        = written_counters g.effects ++ [g.output_counter]
    ∧ (after (OutputGenerator.evaluate rank solution time tsn) g).output_counter
        = (g.output_counter + 1) % 4294967296
    ∧ (g.output_counter < UINT_MAX →
        (after (OutputGenerator.evaluate rank solution time tsn) g).output_counter
          = g.output_counter + 1)
    ∧ (after (OutputGenerator.evaluate rank solution time tsn) g).reset_counter
        = g.reset_counter
    ∧ (∀ time2, after (OutputGenerator.evaluate rank solution time2 tsn) g
        = after (OutputGenerator.evaluate rank solution time tsn) g) := by
  have h := evaluate_steady_run rank solution time tsn g hw ht
  refine ⟨by simp [outcome, h], ?_, ?_, ?_, ?_, ?_⟩
  · simp only [after, h]
    by_cases h0 : rank = 0 <;> simp [h0, written_counters, List.filterMap_append]
  · simp [after, h, unsigned_increment]
  · intro hlt
    simp only [after, h, unsigned_increment]
    exact Nat.mod_eq_of_lt (by unfold UINT_MAX at hlt; omega)
  · simp [after, h]
  · intro time2
    simp only [after, h, evaluate_steady_run rank solution time2 tsn g hw ht]

/-- Witness of C15: the example generator, with `time_step_number = -1`, writes the output of
index 3. -/
theorem evaluate_steady_rule_witness :
    written_counters (after (OutputGenerator.evaluate 0 () 0 (-1)) exampleGenerator).effects
      = written_counters exampleGenerator.effects ++ [exampleGenerator.output_counter] :=
  (evaluate_steady_rule 0 () 0 (-1) exampleGenerator rfl (by decide)).2.1

/-- C16: when `write_output` is false, `evaluate` ends without exception and leaves the
generator as it is (no effect, `output_counter` and `reset_counter` unchanged), for every
solution, time and time step number; and `setup` with such output data has no effect on the
surroundings (no directory, no file): it stores its three arguments and sets `output_counter`
to `start_counter`, leaving `reset_counter` as it is. -/
theorem no_output_when_disabled (rank : Nat) (solution : V) (time : Double) (tsn : Int)
    (dof_handler_in : D) (mapping_in : M) (output_data_in : OutputDataBase)
    (g : OutputGenerator V D M) :
    (g.output_data.write_output = false →
      outcome (OutputGenerator.evaluate rank solution time tsn) g = Except.ok ()
      ∧ after (OutputGenerator.evaluate rank solution time tsn) g = g)
    ∧ (output_data_in.write_output = false →
      outcome (OutputGenerator.setup dof_handler_in mapping_in output_data_in) g = Except.ok ()
      ∧ (after (OutputGenerator.setup dof_handler_in mapping_in output_data_in) g).effects
          = g.effects
      ∧ (after (OutputGenerator.setup dof_handler_in mapping_in output_data_in) g).output_counter
          = output_data_in.start_counter
      ∧ (after (OutputGenerator.setup dof_handler_in mapping_in output_data_in) g).reset_counter
          = g.reset_counter
      ∧ after (OutputGenerator.setup dof_handler_in mapping_in output_data_in) g
          = { g with dof_handler := some dof_handler_in, mapping := some mapping_in,
                     output_data := output_data_in,
                     output_counter := output_data_in.start_counter }) := by
  constructor
  · intro hw
    simp [outcome, after, evaluate_disabled_run rank solution time tsn g hw]
  · intro hw
    simp [outcome, after, setup_disabled_run dof_handler_in mapping_in output_data_in g hw]

/-- Witness of C16: a generator whose output data has `write_output` false is left as it is by
`evaluate`, and `setup` with such output data has no effect on the surroundings. -/
theorem no_output_when_disabled_witness :
    after (OutputGenerator.evaluate 0 () 5 2)
        (OutputGenerator.ctor (exampleOutputData false) : OutputGenerator Unit Unit Unit)
      = OutputGenerator.ctor (exampleOutputData false)
    ∧ (after (OutputGenerator.setup () () (exampleOutputData false)) exampleGenerator).effects
      = exampleGenerator.effects :=
  ⟨((no_output_when_disabled 0 () 5 2 () () (exampleOutputData false)
      (OutputGenerator.ctor (exampleOutputData false))).1 rfl).2,
    ((no_output_when_disabled 0 () 5 2 () () (exampleOutputData false)
      exampleGenerator).2 rfl).2.1⟩

/-- The first unsteady call: after the reset of the counter the run goes on as a call without
reset. -/
theorem evaluate_reset_run (rank : Nat) (solution : V) (time : Double) (tsn : Int)
    (g : OutputGenerator V D M) (n : Int) (hw : g.output_data.write_output = true)
    (ht : 0 ≤ tsn) (hr : g.reset_counter = true)
    (hn : Double.toInt (Double.div
        (Double.add (Double.sub time g.output_data.start_time) Double.lit_1e_10)
        g.output_data.interval_time) = some n) :
    OutputGenerator.evaluate rank solution time tsn g
    = OutputGenerator.evaluate rank solution time tsn
        { g with output_counter := unsigned_add_int g.output_counter n, reset_counter := false } := by
  cases hc : Double.gt time (Double.sub (Double.add g.output_data.start_time
      (Double.mul (Double.ofUnsigned (unsigned_add_int g.output_counter n))
        g.output_data.interval_time)) Double.lit_1e_10) <;>
  by_cases h0 : rank = 0 <;>
  simp [OutputGenerator.evaluate, bind_eq_seq, pure_eq_ret, seq, this, ret, Method.modify, onPart,
    hw, ht, hr, hn, hc, h0, OutputGenerator.pcout, OutputGenerator.effect, write_output]

/-- The first unsteady call when the conversion to `int` is undefined: the run ends there. -/
theorem evaluate_reset_undefined (rank : Nat) (solution : V) (time : Double) (tsn : Int)
    (g : OutputGenerator V D M) (hw : g.output_data.write_output = true)
    (ht : 0 ≤ tsn) (hr : g.reset_counter = true)
    (hn : Double.toInt (Double.div
        (Double.add (Double.sub time g.output_data.start_time) Double.lit_1e_10)
        g.output_data.interval_time) = none) :
    OutputGenerator.evaluate rank solution time tsn g
    = (Except.error "undefined behaviour", g) := by
  simp [OutputGenerator.evaluate, bind_eq_seq, pure_eq_ret, seq, this, ret,
    undefined_behaviour, hw, ht, hr, hn]

/-- C24, evaluated on the code: the initial reset of the counter does not keep an immediately
repeated call from writing, and far beyond the start time it is undefined. First, a generator
after its construction with start time 0.1 and interval 0.0025 (the doubles nearest to them,
`reset_counter` true, `write_output` true) and the first unsteady call at the time
0.1724999999, which is not before the start time: the quotient
`(time - start_time + 1e-10) / interval_time`, each operation rounded, is a double below 29,
so that the counter is advanced by 28; the call writes the output 28 and returns with the
counter 29 and `reset_counter` false, with
`time > start_time + output_counter * interval_time - 1e-10`; the immediately repeated call
at the same time writes the output 29. Second, with start time 0 and interval 1, a first
unsteady call at the time 3000000000 does not return: the quotient is above `INT_MAX`, its
conversion to `int` is undefined behaviour, and the counter is not advanced. -/
theorem evaluate_first_call_repeated_output :
    ((OutputGenerator.ctor exampleLateOutputData : OutputGenerator Unit Unit Unit).reset_counter
        = true
      ∧ exampleLateOutputData.write_output = true
      ∧ Double.gt exampleLateOutputData.interval_time 0 = true
      ∧ Double.ge (Double.round (1724999999 / 10 ^ 10)) exampleLateOutputData.start_time = true
      ∧ Double.toInt (Double.div (Double.add (Double.sub (Double.round (1724999999 / 10 ^ 10))
            exampleLateOutputData.start_time) Double.lit_1e_10)
          exampleLateOutputData.interval_time) = some 28
      ∧ outcome (OutputGenerator.evaluate 0 () (Double.round (1724999999 / 10 ^ 10)) 1)
          (OutputGenerator.ctor exampleLateOutputData : OutputGenerator Unit Unit Unit)
        = Except.ok ()
      ∧ written_counters (after
            (OutputGenerator.evaluate 0 () (Double.round (1724999999 / 10 ^ 10)) 1)
            (OutputGenerator.ctor exampleLateOutputData : OutputGenerator Unit Unit Unit)).effects
        = [28]
      ∧ (after (OutputGenerator.evaluate 0 () (Double.round (1724999999 / 10 ^ 10)) 1)
            (OutputGenerator.ctor exampleLateOutputData : OutputGenerator Unit Unit Unit)
          ).reset_counter = false
      ∧ (after (OutputGenerator.evaluate 0 () (Double.round (1724999999 / 10 ^ 10)) 1)
            (OutputGenerator.ctor exampleLateOutputData : OutputGenerator Unit Unit Unit)
          ).output_counter = 29
      ∧ Double.gt (Double.round (1724999999 / 10 ^ 10))
          (Double.sub (Double.add exampleLateOutputData.start_time
            (Double.mul (Double.ofUnsigned 29) exampleLateOutputData.interval_time))
            Double.lit_1e_10) = true
      ∧ written_counters (after
            (OutputGenerator.evaluate 0 () (Double.round (1724999999 / 10 ^ 10)) 1)
            (after (OutputGenerator.evaluate 0 () (Double.round (1724999999 / 10 ^ 10)) 1)
              (OutputGenerator.ctor exampleLateOutputData :
                OutputGenerator Unit Unit Unit))).effects
        = [28, 29])
    ∧ ((OutputGenerator.ctor (exampleOutputData true) :
          OutputGenerator Unit Unit Unit).reset_counter = true
      ∧ (exampleOutputData true).write_output = true
      ∧ Double.gt (exampleOutputData true).interval_time 0 = true
      ∧ Double.ge (Double.finite 3000000000) (exampleOutputData true).start_time = true
      ∧ OutputGenerator.evaluate 0 () (Double.finite 3000000000) 1
          (OutputGenerator.ctor (exampleOutputData true) : OutputGenerator Unit Unit Unit)
        = (Except.error "undefined behaviour", OutputGenerator.ctor (exampleOutputData true))) := by
  have h1 := evaluate_reset_run 0 () (Double.round (1724999999 / 10 ^ 10)) 1
    (OutputGenerator.ctor exampleLateOutputData : OutputGenerator Unit Unit Unit) 28 rfl
    (by decide) rfl (by decide!)
  have h2 := evaluate_unsteady_write 0 () (Double.round (1724999999 / 10 ^ 10)) 1
    { (OutputGenerator.ctor exampleLateOutputData : OutputGenerator Unit Unit Unit) with
      output_counter := unsigned_add_int
        (OutputGenerator.ctor exampleLateOutputData : OutputGenerator Unit Unit Unit).output_counter
        28
      reset_counter := false } rfl (by decide) rfl (by decide!)
  rw [← h1] at h2
  have h3 := evaluate_unsteady_write 0 () (Double.round (1724999999 / 10 ^ 10)) 1
    (after (OutputGenerator.evaluate 0 () (Double.round (1724999999 / 10 ^ 10)) 1)
      (OutputGenerator.ctor exampleLateOutputData : OutputGenerator Unit Unit Unit))
    (by rw [after, h2]; rfl) (by decide) (by rw [after, h2]) (by rw [after, h2]; decide!)
  refine ⟨⟨rfl, rfl, by decide!, by decide!, by decide!, ?_, ?_, ?_, ?_, by decide!, ?_⟩,
    rfl, rfl, by decide!, by decide!, ?_⟩
  · rw [outcome, h2]
  · rw [after, h2]
    decide!
  · rw [after, h2]
  · rw [after, h2]
    decide!
  · rw [after, h3, after, h2]
    decide!
  · exact evaluate_reset_undefined 0 () (Double.finite 3000000000) 1
      (OutputGenerator.ctor (exampleOutputData true)) rfl (by decide) rfl (by decide!)

end output_generator_theorems

section precice_adapter

open Method preCICE

variable {S : Type}

/-- The run of the guarded call of a callback followed by `markActionFulfilled`. -/
theorem checkpoint_run (action : Action) (name : Call) (callback : Method S Unit)
    (a : Adapter S) :
    (do
      if (← Adapter.isActionRequired action) then
        Adapter.invoke name callback
        Adapter.markActionFulfilled action : Method (Adapter S) Unit) a
    = if a.required action = true then
        match callback a.solver with
        | (Except.ok _, solver) =>
          (Except.ok (), { required := fun b => if b = action then false else a.required b
                           calls := a.calls ++ [name] ++ [Call.markActionFulfilled action]
                           solver := solver })
        | (Except.error e, solver) =>
          (Except.error e, { a with calls := a.calls ++ [name], solver := solver })
      else (Except.ok (), a) := by
  by_cases hr : a.required action = true
  · rcases hcb : callback a.solver with ⟨_ | _, solver⟩ <;>
    simp [Adapter.isActionRequired, Adapter.invoke, Adapter.markActionFulfilled, bind_eq_seq,
      pure_eq_ret, seq, this, ret, Method.modify, onPart, hr, hcb]
  · simp [Adapter.isActionRequired, bind_eq_seq, pure_eq_ret, seq, this, ret, hr]

/-- C17: checkpointing of the preCICE adapter. If preCICE does not report the
write-iteration-checkpoint action as required, `save_current_state_if_required` makes no call
and leaves everything as it is. If preCICE reports it as required, the function calls the
`save_state` callback once and, the callback having returned, marks the action fulfilled, and
makes no other call; a callback that throws ends the run before the marking.
`reload_old_state_if_required` does the same with its callback and the
read-iteration-checkpoint action. -/
theorem checkpoint_callbacks (save_state reload_old_state : Method S Unit) (a : Adapter S) :
    (a.required Action.actionWriteIterationCheckpoint = false →
      Adapter.save_current_state_if_required save_state a = (Except.ok (), a))
    ∧ (a.required Action.actionWriteIterationCheckpoint = true →
      (accepts save_state a.solver →
        outcome (Adapter.save_current_state_if_required save_state) a = Except.ok ()
        ∧ (after (Adapter.save_current_state_if_required save_state) a).calls
          = a.calls ++ [Call.save_state,
              Call.markActionFulfilled Action.actionWriteIterationCheckpoint]
        ∧ (after (Adapter.save_current_state_if_required save_state) a).solver
          = after save_state a.solver)
      ∧ (rejects save_state a.solver →
        rejects (Adapter.save_current_state_if_required save_state) a
        ∧ (after (Adapter.save_current_state_if_required save_state) a).calls
          = a.calls ++ [Call.save_state]))
    ∧ (a.required Action.actionReadIterationCheckpoint = false →
      Adapter.reload_old_state_if_required reload_old_state a = (Except.ok (), a))
    ∧ (a.required Action.actionReadIterationCheckpoint = true →
      (accepts reload_old_state a.solver →
        outcome (Adapter.reload_old_state_if_required reload_old_state) a = Except.ok ()
        ∧ (after (Adapter.reload_old_state_if_required reload_old_state) a).calls
          = a.calls ++ [Call.reload_old_state,
              Call.markActionFulfilled Action.actionReadIterationCheckpoint]
        ∧ (after (Adapter.reload_old_state_if_required reload_old_state) a).solver
          = after reload_old_state a.solver)
      ∧ (rejects reload_old_state a.solver →
        rejects (Adapter.reload_old_state_if_required reload_old_state) a
        ∧ (after (Adapter.reload_old_state_if_required reload_old_state) a).calls
          = a.calls ++ [Call.reload_old_state])) := by
  have hs := checkpoint_run Action.actionWriteIterationCheckpoint Call.save_state save_state a
  have hl := checkpoint_run Action.actionReadIterationCheckpoint Call.reload_old_state
    reload_old_state a
  refine ⟨?_, ?_, ?_, ?_⟩
  · intro hr
    rw [Adapter.save_current_state_if_required, hs]
    simp [hr]
  · intro hr
    rw [if_pos hr] at hs
    constructor
    · intro hacc
      rcases hcb : save_state a.solver with ⟨_ | _, solver⟩
      · simp [accepts, outcome, hcb] at hacc
      · rw [hcb] at hs
        simp [Adapter.save_current_state_if_required, outcome, after, hs, hcb]
    · rintro ⟨e, hrej⟩
      rcases hcb : save_state a.solver with ⟨_ | _, solver⟩
      · rw [hcb] at hs
        simp [Adapter.save_current_state_if_required, rejects, outcome, after, hs]
      · simp [outcome, hcb] at hrej
  · intro hr
    rw [Adapter.reload_old_state_if_required, hl]
    simp [hr]
  · intro hr
    rw [if_pos hr] at hl
    constructor
    · intro hacc
      rcases hcb : reload_old_state a.solver with ⟨_ | _, solver⟩
      · simp [accepts, outcome, hcb] at hacc
      · rw [hcb] at hl
        simp [Adapter.reload_old_state_if_required, outcome, after, hl, hcb]
    · rintro ⟨e, hrej⟩
      rcases hcb : reload_old_state a.solver with ⟨_ | _, solver⟩
      · rw [hcb] at hl
        simp [Adapter.reload_old_state_if_required, rejects, outcome, after, hl]
      · simp [outcome, hcb] at hrej

/-- Witness of C17: preCICE requires the writing of a checkpoint from the example adapter; the
callback is called once, the action is marked fulfilled, and the current value 7 is saved. -/
theorem checkpoint_callbacks_witness :
    (after (Adapter.save_current_state_if_required exampleSaveState) exampleAdapter).calls
      = exampleAdapter.calls ++ [Call.save_state,
          Call.markActionFulfilled Action.actionWriteIterationCheckpoint]
    ∧ (after (Adapter.save_current_state_if_required exampleSaveState) exampleAdapter).solver
      = (7, 7)
    ∧ Adapter.reload_old_state_if_required exampleSaveState exampleAdapter
      = (Except.ok (), exampleAdapter) :=
  ⟨(((checkpoint_callbacks exampleSaveState exampleSaveState exampleAdapter).2.1 rfl).1 rfl).2.1,
    (((checkpoint_callbacks exampleSaveState exampleSaveState exampleAdapter).2.1 rfl).1 rfl).2.2,
    (checkpoint_callbacks exampleSaveState exampleSaveState exampleAdapter).2.2.1 rfl⟩

end precice_adapter

section solver_main

open Method Structure

/-- The three cases of `main`: usage, creation of an input file, study. -/
theorem main_eq (fuel rank : Nat) (study_of : String → ConvergenceStudy) (argv : List String) :
    main fuel rank study_of argv
    = if (argv.length == 1 || argv.length == 2 && argv.getD 1 "" == "--help") = true then
        if (rank == 0) = true then
          seq (effect (SolverEffect.cout "To run the program, use:      ./solver input_file"))
            fun _ => seq (effect (SolverEffect.cout
              "To create an input file, use: ./solver --create_input_file input_file"))
              fun _ => ret 0
        else ret 0
      else if (argv.length == 3 && argv.getD 1 "" == "--create_input_file") = true then
        if (rank == 0) = true then
          seq (create_input_file (input_file_of argv)) fun _ => ret 0
        else ret 0
      else
        seq (effect (SolverEffect.read_study (input_file_of argv))) fun _ =>
          seq (study_loops fuel (study_of (input_file_of argv)) (input_file_of argv))
            fun _ => ret 0 := by
  unfold main input_file_of study_loops
  simp only [bind_eq_seq, pure_eq_ret]
  split_ifs <;> rfl

/-- For a supported dimension and precision, ranges that end below `UINT_MAX` and fuel for
every pass, the loops of `main` end without exception and run the simulations of the study in
their order. -/
theorem study_loops_supported (fuel : Nat) (study : ConvergenceStudy) (input_file : String)
    (dim : Nat) (number : NumberType) (h : Supported study dim number)
    (hd : study.degree_max < UINT_MAX) (hr : study.refine_space_max < UINT_MAX)
    (ht : study.refine_time_max < UINT_MAX)
    (hfd : study.degree_max + 1 - study.degree_min ≤ fuel)
    (hfr : study.refine_space_max + 1 - study.refine_space_min ≤ fuel)
    (hft : study.refine_time_max + 1 - study.refine_time_min ≤ fuel) :
    study_loops fuel study input_file
      = fun w => (Except.ok (), w ++ study_runs dim number input_file study) := by
  have hmap : ∀ (l : List Nat) (g : Nat → SolverEffect), l.flatMap (fun t => [g t]) = l.map g := by
    intro l g
    induction l with
    | nil => rfl
    | cons t l ih => simp [ih]
  obtain ⟨⟨hdim, hd2⟩, ⟨hp, hn⟩ | ⟨hp, hn⟩⟩ := h <;> rcases hd2 with rfl | rfl <;> subst hn <;>
  simp [study_loops, study_runs, hdim, hp, run, effect, modify_eq,
    forLe_emit _ _ _ _ ht hft, forLe_emit _ _ _ _ hr hfr, forLe_emit _ _ _ _ hd hfd, hmap]

/-- Whatever the study and the fuel, the loops of `main` have no effects but simulations with
the input file they are given. -/
theorem study_loops_appends (fuel : Nat) (study : ConvergenceStudy) (input_file : String)
    (w : List SolverEffect) :
    ∃ l, (study_loops fuel study input_file w).2 = w ++ l
      ∧ ∀ e ∈ l, e.input_file = some input_file := by
  unfold study_loops
  apply forLe_appends
  intro degree w
  apply forLe_appends
  intro refine_space w
  apply forLe_appends
  intro refine_time w
  split_ifs
  · exact ⟨[_], rfl, by simp [SolverEffect.input_file]⟩
  · exact ⟨[_], rfl, by simp [SolverEffect.input_file]⟩
  · exact ⟨[_], rfl, by simp [SolverEffect.input_file]⟩
  · exact ⟨[_], rfl, by simp [SolverEffect.input_file]⟩
  · exact ⟨[], by simp [AssertThrow], by simp⟩

/-- The simulations of a study: each triple of the ranges, and no other. -/
theorem mem_study_runs (dim : Nat) (number : NumberType) (input_file : String)
    (study : ConvergenceStudy) (e : SolverEffect) :
    e ∈ study_runs dim number input_file study ↔
      ∃ degree refine_space refine_time,
        e = SolverEffect.simulation dim number input_file degree refine_space refine_time
        ∧ (study.degree_min ≤ degree ∧ degree ≤ study.degree_max)
        ∧ (study.refine_space_min ≤ refine_space ∧ refine_space ≤ study.refine_space_max)
        ∧ (study.refine_time_min ≤ refine_time ∧ refine_time ≤ study.refine_time_max) := by
  simp only [study_runs, List.mem_flatMap, List.mem_map, List.mem_range'_1]
  constructor
  · rintro ⟨d, hd, r, hr, t, ht, rfl⟩
    exact ⟨d, r, t, rfl, ⟨hd.1, by omega⟩, ⟨hr.1, by omega⟩, ⟨ht.1, by omega⟩⟩
  · rintro ⟨d, r, t, rfl, hd, hr, ht⟩
    exact ⟨d, ⟨hd.1, by omega⟩, r, ⟨hr.1, by omega⟩, t, ⟨ht.1, by omega⟩, rfl⟩

/-- No simulation of a study is run twice. -/
theorem nodup_study_runs (dim : Nat) (number : NumberType) (input_file : String)
    (study : ConvergenceStudy) : (study_runs dim number input_file study).Nodup := by
  unfold study_runs
  refine List.nodup_flatMap.2 ⟨fun d _ => List.nodup_flatMap.2 ⟨fun r _ => ?_, ?_⟩, ?_⟩
  · exact (List.nodup_range' _ _).map (fun a b hab => by injection hab)
  · refine (List.nodup_range' _ _).pairwise_of_forall_ne ?_
    intro a _ b _ hab e he1 he2
    simp only [List.mem_map] at he1 he2
    obtain ⟨_, _, rfl⟩ := he1
    obtain ⟨_, _, h⟩ := he2
    injection h with _ _ _ _ h5
    exact hab h5.symm
  · refine (List.nodup_range' _ _).pairwise_of_forall_ne ?_
    intro a _ b _ hab e he1 he2
    simp only [List.mem_flatMap, List.mem_map] at he1 he2
    obtain ⟨_, _, _, _, rfl⟩ := he1
    obtain ⟨_, _, _, _, h⟩ := he2
    injection h with _ _ _ h4
    exact hab h4.symm

/-- The number of simulations of a study is the product of the lengths of its ranges. -/
theorem length_study_runs (dim : Nat) (number : NumberType) (input_file : String)
    (study : ConvergenceStudy) :
    (study_runs dim number input_file study).length
      = (study.degree_max + 1 - study.degree_min)
        * (study.refine_space_max + 1 - study.refine_space_min)
        * (study.refine_time_max + 1 - study.refine_time_min) := by
  simp [study_runs, List.length_flatMap, Function.comp_def, Nat.mul_assoc]

/-- C18: `main` invoked with no argument, or with the single argument `--help`, prints the two
usage lines on the process of rank 0 and nothing on the others, has no other effect (it reads
no input file, runs no simulation, creates no file) and returns 0, whatever the fuel of the
loops, which are not reached. -/
theorem main_usage (fuel rank : Nat) (study_of : String → ConvergenceStudy)
    (argv : List String) (w : List SolverEffect) (prog : String)
    (h : argv = [prog] ∨ argv = [prog, "--help"]) :
    main fuel rank study_of argv w
    = (Except.ok 0, w ++ if rank = 0 then
        [SolverEffect.cout "To run the program, use:      ./solver input_file",
         SolverEffect.cout
          "To create an input file, use: ./solver --create_input_file input_file"]
        else []) := by
  rw [main_eq]
  rcases h with rfl | rfl <;> by_cases h0 : rank = 0 <;>
  simp [h0, seq, ret, effect, modify_eq]

/-- Witness of C18: the invocation `./solver --help` on the process of rank 1 has no effect
and returns 0. -/
theorem main_usage_witness :
    main 0 1 (fun _ => exampleStudy) ["./solver", "--help"] [] = (Except.ok 0, []) :=
  main_usage 0 1 (fun _ => exampleStudy) ["./solver", "--help"] [] "./solver" (Or.inr rfl)

/-- C19: `main` invoked with the two arguments `--create_input_file <file>` calls
`create_input_file(<file>)` on the process of rank 0 only (the parameters of the application
for dimension 2 and `double` are added and printed to the file), has no other effect on any
process (no study is read, no simulation is run) and returns 0, whatever the fuel of the
loops, which are not reached; and in every invocation with at least one argument, every effect
that works with an input file works with the last argument. -/
theorem main_create_input_file (fuel rank : Nat) (study_of : String → ConvergenceStudy)
    (w : List SolverEffect) (prog file : String) :
    main fuel rank study_of [prog, "--create_input_file", file] w
      = (Except.ok 0, if rank = 0 then after (create_input_file file) w else w)
    ∧ create_input_file file w
      = (Except.ok (), w ++ [SolverEffect.add_parameters_application 2 NumberType.double file,
          SolverEffect.print_parameters file])
    ∧ (∀ argv : List String, 2 ≤ argv.length →
        ∃ l, after (main fuel rank study_of argv) w = w ++ l
          ∧ ∀ e ∈ l, ∀ f, e.input_file = some f → argv.getLast? = some f) := by
  have hcreate : ∀ f w, create_input_file f w
      = (Except.ok (), w ++ [SolverEffect.add_parameters_application 2 NumberType.double f,
          SolverEffect.print_parameters f]) := by
    intro f w
    simp [create_input_file, bind_eq_seq, seq, effect, modify_eq]
  refine ⟨?_, hcreate file w, ?_⟩
  · rw [main_eq]
    by_cases h0 : rank = 0 <;> simp [h0, seq, ret, after, hcreate, input_file_of]
  · intro argv hlen
    have hlast : argv.getLast? = some (input_file_of argv) := by
      rw [input_file_of, if_pos hlen, List.getLast?_eq_getElem?, List.getD_eq_getElem?_getD,
        List.getElem?_eq_getElem (by omega)]
      rfl
    rw [main_eq]
    simp only [after]
    split_ifs
    · exact ⟨_, by simp [seq, ret, effect, modify_eq]; rfl, by simp [SolverEffect.input_file]⟩
    · exact ⟨[], by simp [ret], by simp⟩
    · refine ⟨_, by simp [seq, ret, hcreate]; rfl, ?_⟩
      intro e he f hf
      simp only [List.mem_cons, List.mem_singleton, List.not_mem_nil, or_false] at he
      rcases he with rfl | rfl <;> simp only [SolverEffect.input_file, Option.some.injEq] at hf <;>
        rw [hlast, hf]
    · exact ⟨[], by simp [ret], by simp⟩
    · obtain ⟨l, hl, hP⟩ := study_loops_appends fuel (study_of (input_file_of argv))
        (input_file_of argv) (w ++ [SolverEffect.read_study (input_file_of argv)])
      refine ⟨SolverEffect.read_study (input_file_of argv) :: l, ?_, ?_⟩
      · simp only [seq, effect, modify_eq]
        rcases hb : study_loops fuel (study_of (input_file_of argv)) (input_file_of argv)
            (w ++ [SolverEffect.read_study (input_file_of argv)]) with ⟨_ | _, w1⟩ <;>
          rw [hb] at hl <;> simp only at hl <;> simp [hl, ret]
      · intro e he f hf
        rcases List.mem_cons.1 he with rfl | he
        · simp only [SolverEffect.input_file, Option.some.injEq] at hf
          rw [hlast, hf]
        · rw [hP e he, Option.some.injEq] at hf
          rw [hlast, hf]

/-- Witness of C19: the invocation `./solver --create_input_file input.json` on the process of
rank 0 prints the parameters to `input.json`; in the invocation `./solver input.json` every
effect that works with an input file works with `input.json`. -/
theorem main_create_input_file_witness :
    main 3 0 (fun _ => exampleStudy) ["./solver", "--create_input_file", "input.json"] []
      = (Except.ok 0, [SolverEffect.add_parameters_application 2 NumberType.double "input.json",
          SolverEffect.print_parameters "input.json"])
    ∧ ∃ l, after (main 3 0 (fun _ => exampleStudy) ["./solver", "input.json"]) [] = [] ++ l
        ∧ ∀ e ∈ l, ∀ f, e.input_file = some f →
          ["./solver", "input.json"].getLast? = some f :=
  ⟨by
    rw [(main_create_input_file 3 0 (fun _ => exampleStudy) [] "./solver" "input.json").1,
      if_pos rfl, after,
      (main_create_input_file 3 0 (fun _ => exampleStudy) [] "./solver" "input.json").2.1]
    rfl,
    (main_create_input_file 3 0 (fun _ => exampleStudy) [] "./solver" "input.json").2.2
      ["./solver", "input.json"] (by decide)⟩

/-- C20, as the code has it: for a supported dimension and precision and a study whose three
ranges end below `UINT_MAX`, `main` invoked with an input file (neither for the usage nor for
the creation of an input file), with fuel for the passes of each loop, reads the study from
the input file, runs the simulations `study_runs` (one for each triple of a degree, a
refinement in space and a refinement in time of the ranges of the study, in lexicographic
order with the degree outermost and the refinement in time innermost, each with the same input
file) and returns 0; each triple of the ranges is run exactly once and no other is; the number
of runs is the product of the lengths of the three ranges; it is zero, and `main` returns 0
without a run, when a range has its minimum above its maximum. -/
theorem main_runs_study (fuel rank : Nat) (study_of : String → ConvergenceStudy)
    (argv : List String) (w : List SolverEffect) (dim : Nat) (number : NumberType)
    (hu : ¬ (argv.length = 1 ∨ (argv.length = 2 ∧ argv.getD 1 "" = "--help")))
    (hc : ¬ (argv.length = 3 ∧ argv.getD 1 "" = "--create_input_file"))
    (hs : Supported (study_of (input_file_of argv)) dim number)
    (hd : (study_of (input_file_of argv)).degree_max < UINT_MAX)
    (hr : (study_of (input_file_of argv)).refine_space_max < UINT_MAX)
    (ht : (study_of (input_file_of argv)).refine_time_max < UINT_MAX)
    (hfd : (study_of (input_file_of argv)).degree_max + 1
      - (study_of (input_file_of argv)).degree_min ≤ fuel)
    (hfr : (study_of (input_file_of argv)).refine_space_max + 1
      - (study_of (input_file_of argv)).refine_space_min ≤ fuel)
    (hft : (study_of (input_file_of argv)).refine_time_max + 1
      - (study_of (input_file_of argv)).refine_time_min ≤ fuel) :
    main fuel rank study_of argv w
      = (Except.ok 0, w ++ SolverEffect.read_study (input_file_of argv)
          :: study_runs dim number (input_file_of argv) (study_of (input_file_of argv)))
    ∧ (study_runs dim number (input_file_of argv) (study_of (input_file_of argv))).Nodup
    ∧ (∀ e, e ∈ study_runs dim number (input_file_of argv) (study_of (input_file_of argv)) ↔
        ∃ degree refine_space refine_time,
          e = SolverEffect.simulation dim number (input_file_of argv) degree refine_space
            refine_time
          ∧ ((study_of (input_file_of argv)).degree_min ≤ degree
            ∧ degree ≤ (study_of (input_file_of argv)).degree_max)
          ∧ ((study_of (input_file_of argv)).refine_space_min ≤ refine_space
            ∧ refine_space ≤ (study_of (input_file_of argv)).refine_space_max)
          ∧ ((study_of (input_file_of argv)).refine_time_min ≤ refine_time
            ∧ refine_time ≤ (study_of (input_file_of argv)).refine_time_max))
    ∧ (study_runs dim number (input_file_of argv) (study_of (input_file_of argv))).length
        = ((study_of (input_file_of argv)).degree_max + 1
            - (study_of (input_file_of argv)).degree_min)
          * ((study_of (input_file_of argv)).refine_space_max + 1
            - (study_of (input_file_of argv)).refine_space_min)
          * ((study_of (input_file_of argv)).refine_time_max + 1
            - (study_of (input_file_of argv)).refine_time_min)
    ∧ (((study_of (input_file_of argv)).degree_max < (study_of (input_file_of argv)).degree_min
        ∨ (study_of (input_file_of argv)).refine_space_max
            < (study_of (input_file_of argv)).refine_space_min
        ∨ (study_of (input_file_of argv)).refine_time_max
            < (study_of (input_file_of argv)).refine_time_min) →
      study_runs dim number (input_file_of argv) (study_of (input_file_of argv)) = []
      ∧ main fuel rank study_of argv w
        = (Except.ok 0, w ++ [SolverEffect.read_study (input_file_of argv)])) := by
  have hmain : main fuel rank study_of argv w
      = (Except.ok 0, w ++ SolverEffect.read_study (input_file_of argv)
          :: study_runs dim number (input_file_of argv) (study_of (input_file_of argv))) := by
    rw [main_eq, if_neg (by simpa using hu), if_neg (by simpa using hc),
      study_loops_supported fuel _ _ dim number hs hd hr ht hfd hfr hft]
    simp [seq, ret, effect, modify_eq]
  refine ⟨hmain, nodup_study_runs _ _ _ _, mem_study_runs _ _ _ _, length_study_runs _ _ _ _, ?_⟩
  intro hempty
  have hnil : study_runs dim number (input_file_of argv) (study_of (input_file_of argv)) = [] := by
    apply List.eq_nil_of_length_eq_zero
    rw [length_study_runs]
    rcases hempty with h | h | h
    · rw [show (study_of (input_file_of argv)).degree_max + 1
          - (study_of (input_file_of argv)).degree_min = 0 by omega]
      simp
    · rw [show (study_of (input_file_of argv)).refine_space_max + 1
          - (study_of (input_file_of argv)).refine_space_min = 0 by omega]
      simp
    · rw [show (study_of (input_file_of argv)).refine_time_max + 1
          - (study_of (input_file_of argv)).refine_time_min = 0 by omega]
      simp
  exact ⟨hnil, by rw [hmain, hnil]⟩

/-- Witness of C20: the invocation `./solver input.json` with the example study (dimension 2,
`double`, 3 degrees, 2 refinements in space and 2 in time) and fuel for 3 passes of each loop
runs 12 simulations and returns 0. -/
theorem main_runs_study_witness :
    main 3 0 (fun _ => exampleStudy) ["./solver", "input.json"] []
      = (Except.ok 0, [] ++ SolverEffect.read_study (input_file_of ["./solver", "input.json"])
          :: study_runs 2 NumberType.double (input_file_of ["./solver", "input.json"])
              exampleStudy)
    ∧ (study_runs 2 NumberType.double (input_file_of ["./solver", "input.json"])
        exampleStudy).length = (3 + 1 - 1) * (3 + 1 - 2) * (1 + 1 - 0) :=
  ⟨(main_runs_study 3 0 (fun _ => exampleStudy) ["./solver", "input.json"] [] 2
      NumberType.double (by decide) (by decide) ⟨⟨rfl, Or.inl rfl⟩, Or.inr ⟨rfl, rfl⟩⟩
      (by decide) (by decide) (by decide) (by decide) (by decide) (by decide)).1,
    (main_runs_study 3 0 (fun _ => exampleStudy) ["./solver", "input.json"] [] 2
      NumberType.double (by decide) (by decide) ⟨⟨rfl, Or.inl rfl⟩, Or.inr ⟨rfl, rfl⟩⟩
      (by decide) (by decide) (by decide) (by decide) (by decide) (by decide)).2.2.2.1⟩

/-- C20 fails as stated: for the study `exampleUnboundedStudy` (dimension 2, `double`, degree
1, refinement level 2 in space), whose range of refinements in time is 4294967294 to
4294967295 and ends at `UINT_MAX`, `main` does not return: it is out of fuel whatever the
fuel, since the test `refine_time <= 4294967295` of the innermost loop holds for every
`unsigned int`. With fuel for three passes the simulations run are those with the refinement
levels 4294967294, 4294967295 and then, `++refine_time` having wrapped, 0, which is not in the
range. -/
theorem main_range_to_UINT_MAX_never_returns :
    Supported exampleUnboundedStudy 2 NumberType.double
    ∧ exampleUnboundedStudy.refine_time_min ≤ exampleUnboundedStudy.refine_time_max
    ∧ exampleUnboundedStudy.refine_time_max = UINT_MAX
    ∧ (∀ fuel, outcome (main fuel 0 (fun _ => exampleUnboundedStudy) ["./solver", "input.json"]) []
        = Except.error "out of fuel")
    ∧ after (main 3 0 (fun _ => exampleUnboundedStudy) ["./solver", "input.json"]) []
      = [SolverEffect.read_study "input.json",
          SolverEffect.simulation 2 NumberType.double "input.json" 1 2 4294967294,
          SolverEffect.simulation 2 NumberType.double "input.json" 1 2 4294967295,
          SolverEffect.simulation 2 NumberType.double "input.json" 1 2 0] := by
  refine ⟨⟨⟨rfl, Or.inl rfl⟩, Or.inr ⟨rfl, rfl⟩⟩, by decide, rfl, ?_, by decide⟩
  intro fuel
  have hinner : ∀ (f : Nat) (w : List SolverEffect),
      (forLe UINT_MAX (fun refine_time =>
        run 2 NumberType.double "input.json" 1 2 refine_time) f 4294967294 w).1
        = Except.error "out of fuel" := fun f w =>
    forLe_out_of_fuel _ (fun j w =>
      w ++ [SolverEffect.simulation 2 NumberType.double "input.json" 1 2 j])
      (fun _ _ => rfl) f 4294967294 (by decide) w
  rw [outcome, main_eq]
  cases fuel with
  | zero => rfl
  | succ f =>
    have h := hinner (f + 1) [SolverEffect.read_study "input.json"]
    rcases hb : forLe UINT_MAX (fun refine_time =>
        run 2 NumberType.double "input.json" 1 2 refine_time) (f + 1) 4294967294
        [SolverEffect.read_study "input.json"] with ⟨r, w1⟩
    rw [hb] at h
    simp only at h
    subst h
    have hb2 : forLe exampleUnboundedStudy.refine_time_max (fun refine_time =>
        run 2 NumberType.double "input.json" 1 2 refine_time) (f + 1)
        exampleUnboundedStudy.refine_time_min [SolverEffect.read_study "input.json"]
        = (Except.error "out of fuel", w1) := hb
    simp [study_loops, input_file_of, seq, ret, effect, modify_eq, forLe, exampleUnboundedStudy,
      exampleStudy] at hb2 ⊢
    simp [hb2]

/-- When a range of the study is empty the loops of `main` do nothing, whatever the dimension
and the precision, when the ranges end below `UINT_MAX` and there is fuel for every pass. -/
theorem study_loops_empty (fuel : Nat) (study : ConvergenceStudy) (input_file : String)
    (hd : study.degree_max < UINT_MAX) (hr : study.refine_space_max < UINT_MAX)
    (hfd : study.degree_max + 1 - study.degree_min ≤ fuel)
    (hfr : study.refine_space_max + 1 - study.refine_space_min ≤ fuel)
    (hempty : study.degree_max < study.degree_min
      ∨ study.refine_space_max < study.refine_space_min
      ∨ study.refine_time_max < study.refine_time_min) :
    study_loops fuel study input_file = ret () := by
  have hskip : ∀ (body : Nat → Method (List SolverEffect) Unit) (last f i : Nat), last < i →
      forLe last body f i = ret () := by
    intro body last f i hlt
    cases f <;> rw [forLe, if_neg (by omega)]
  unfold study_loops
  rcases hempty with h | h | h
  · exact hskip _ _ _ _ h
  · apply forLe_skip _ _ _ _ _ hd hfd
    intro degree w
    rw [hskip _ _ _ _ h]
    rfl
  · apply forLe_skip _ _ _ _ _ hd hfd
    intro degree w
    rw [forLe_skip _ _ _ _ _ hr hfr]
    · rfl
    · intro refine_space w
      rw [hskip _ _ _ _ h]
      rfl

/-- For a dimension and precision that are not implemented and a study with no empty range,
the loops of `main` throw in their first pass, before any simulation, when there is fuel for a
pass. -/
theorem study_loops_unsupported (fuel : Nat) (study : ConvergenceStudy) (input_file : String)
    (w : List SolverEffect) (hs : ∀ dim number, ¬ Supported study dim number)
    (hd : study.degree_min ≤ study.degree_max)
    (hr : study.refine_space_min ≤ study.refine_space_max)
    (ht : study.refine_time_min ≤ study.refine_time_max) :
    study_loops (fuel + 1) study input_file w
      = (Except.error "Only dim = 2|3 and precision=float|double implemented.", w) := by
  have h1 : ¬ (study.dim = 2 ∧ study.precision = "float") :=
    fun h => hs 2 NumberType.float ⟨⟨h.1, Or.inl rfl⟩, Or.inl ⟨h.2, rfl⟩⟩
  have h2 : ¬ (study.dim = 2 ∧ study.precision = "double") :=
    fun h => hs 2 NumberType.double ⟨⟨h.1, Or.inl rfl⟩, Or.inr ⟨h.2, rfl⟩⟩
  have h3 : ¬ (study.dim = 3 ∧ study.precision = "float") :=
    fun h => hs 3 NumberType.float ⟨⟨h.1, Or.inr rfl⟩, Or.inl ⟨h.2, rfl⟩⟩
  have h4 : ¬ (study.dim = 3 ∧ study.precision = "double") :=
    fun h => hs 3 NumberType.double ⟨⟨h.1, Or.inr rfl⟩, Or.inr ⟨h.2, rfl⟩⟩
  unfold study_loops
  apply forLe_throws _ _ _ _ _ _ _ hd
  apply forLe_throws _ _ _ _ _ _ _ hr
  apply forLe_throws _ _ _ _ _ _ _ ht
  simp only [Bool.and_eq_true, beq_iff_eq, h1, h2, h3, h4, if_false]
  rfl

/-- C21, as the code has it: for a study whose dimension and precision are not among (2,
float), (2, double), (3, float), (3, double), `main` invoked with an input file (neither for
the usage nor for the creation of an input file) reads the study; when the three ranges are
not empty it ends, in the first pass of the loops (fuel for one pass is enough), with the
exception "Only dim = 2|3 and precision=float|double implemented.": it runs no simulation and
does not return; when a range is empty and the ranges end below `UINT_MAX`, it runs no
simulation, throws nothing and returns 0, given fuel for the passes of the loops. -/
theorem main_unsupported (fuel rank : Nat) (study_of : String → ConvergenceStudy)
    (argv : List String) (w : List SolverEffect)
    (hu : ¬ (argv.length = 1 ∨ (argv.length = 2 ∧ argv.getD 1 "" = "--help")))
    (hc : ¬ (argv.length = 3 ∧ argv.getD 1 "" = "--create_input_file"))
    (hs : ∀ dim number, ¬ Supported (study_of (input_file_of argv)) dim number) :
    (0 < fuel →
      (study_of (input_file_of argv)).degree_min ≤ (study_of (input_file_of argv)).degree_max →
      (study_of (input_file_of argv)).refine_space_min
        ≤ (study_of (input_file_of argv)).refine_space_max →
      (study_of (input_file_of argv)).refine_time_min
        ≤ (study_of (input_file_of argv)).refine_time_max →
      main fuel rank study_of argv w
        = (Except.error "Only dim = 2|3 and precision=float|double implemented.",
            w ++ [SolverEffect.read_study (input_file_of argv)]))
    ∧ ((study_of (input_file_of argv)).degree_max < UINT_MAX →
      (study_of (input_file_of argv)).refine_space_max < UINT_MAX →
      (study_of (input_file_of argv)).degree_max + 1
        - (study_of (input_file_of argv)).degree_min ≤ fuel →
      (study_of (input_file_of argv)).refine_space_max + 1
        - (study_of (input_file_of argv)).refine_space_min ≤ fuel →
      ((study_of (input_file_of argv)).degree_max < (study_of (input_file_of argv)).degree_min
        ∨ (study_of (input_file_of argv)).refine_space_max
            < (study_of (input_file_of argv)).refine_space_min
        ∨ (study_of (input_file_of argv)).refine_time_max
            < (study_of (input_file_of argv)).refine_time_min) →
      main fuel rank study_of argv w
        = (Except.ok 0, w ++ [SolverEffect.read_study (input_file_of argv)])) := by
  constructor
  · intro hfuel hd hr ht
    obtain ⟨f, rfl⟩ : ∃ f, fuel = f + 1 := ⟨fuel - 1, by omega⟩
    rw [main_eq, if_neg (by simpa using hu), if_neg (by simpa using hc)]
    simp only [seq, effect, modify_eq, study_loops_unsupported _ _ _ _ hs hd hr ht]
  · intro hd hr hfd hfr hempty
    rw [main_eq, if_neg (by simpa using hu), if_neg (by simpa using hc),
      study_loops_empty fuel _ _ hd hr hfd hfr hempty]
    simp [seq, ret, effect, modify_eq]

/-- Witness of C21: the example study with dimension 4 instead of 2 ends with the exception,
with fuel for one pass; with the range of degrees from 1 to 0 and fuel for three passes it
returns 0. -/
theorem main_unsupported_witness :
    main 1 0 (fun _ => { exampleStudy with dim := 4 }) ["./solver", "input.json"] []
      = (Except.error "Only dim = 2|3 and precision=float|double implemented.",
          [] ++ [SolverEffect.read_study (input_file_of ["./solver", "input.json"])])
    ∧ main 3 0 (fun _ => exampleEmptyStudy) ["./solver", "input.json"] []
      = (Except.ok 0, [] ++ [SolverEffect.read_study (input_file_of ["./solver", "input.json"])]) :=
  ⟨(main_unsupported 1 0 (fun _ => { exampleStudy with dim := 4 }) ["./solver", "input.json"] []
      (by decide) (by decide)
      (by
        rintro dim number ⟨⟨hdim, h23⟩, -⟩
        have h4 : dim = 4 := hdim.symm
        omega)).1 (by decide) (by decide) (by decide) (by decide),
    (main_unsupported 3 0 (fun _ => exampleEmptyStudy) ["./solver", "input.json"] []
      (by decide) (by decide)
      (by
        rintro dim number ⟨⟨hdim, h23⟩, -⟩
        have h4 : dim = 4 := hdim.symm
        omega)).2 (by decide) (by decide) (by decide) (by decide) (Or.inl (by decide))⟩

/-- C21 fails as stated: for the study `exampleEmptyStudy`, whose dimension 4 is not
implemented and whose range of degrees is empty, `main` reads the study, throws nothing and
returns 0, whatever the fuel. -/
theorem main_unsupported_empty_range_returns :
    (∀ dim number, ¬ Supported exampleEmptyStudy dim number)
    ∧ ∀ fuel, main fuel 0 (fun _ => exampleEmptyStudy) ["./solver", "input.json"] []
      = (Except.ok 0, [SolverEffect.read_study "input.json"]) := by
  constructor
  · rintro dim number ⟨⟨hdim, h23⟩, -⟩
    have h4 : dim = 4 := hdim.symm
    omega
  · intro fuel
    rw [main_eq]
    simp only [study_loops, exampleEmptyStudy, exampleStudy, input_file_of]
    cases fuel <;> rw [forLe, if_neg (by decide)] <;> simp [seq, ret, effect, modify_eq]

end solver_main

section divergence_calculator_theorems

open Method IncNS

variable {V scalar : Type}

/-- The values submitted in a cell: the divergence at each quadrature point. -/
theorem divergence_inner_fold (div : Nat → scalar) (cell : Nat) (l : List Nat)
    (r : DivergenceRun V scalar) :
    l.foldl (fun (r : DivergenceRun V scalar) q => { r with
        integrator_scalar := { r.integrator_scalar with
          submitted := r.integrator_scalar.submitted ++ [(div q, q)] }
        submit_calls := r.submit_calls ++ [(cell, q, div q)] }) r
    = { r with
        integrator_scalar := { r.integrator_scalar with
          submitted := (r.integrator_scalar.submitted ++ l.map fun q => (div q, q)) }
        submit_calls := (r.submit_calls ++ l.map fun q => (cell, q, div q)) } := by
  induction l generalizing r with
  | nil => simp
  | cons q l ih => simp [ih]

/-- The work of `cell_loop` on one cell. -/
theorem divergence_cell_run (calculator : DivergenceCalculator V scalar)
    (mf : MatrixFree V scalar) (src : V) (cell : Nat) (r : DivergenceRun V scalar) :
    (do
      Method.modify fun r => { r with integrator_scalar := { cell := cell, submitted := [] } }
      Method.forLt (mf.n_q_points calculator.dof_index_u_scalar calculator.quad_index)
        (fun q => do
          let div := mf.get_divergence calculator.dof_index_u calculator.quad_index src cell q
          Method.modify fun r => { r with
            integrator_scalar := { r.integrator_scalar with
              submitted := r.integrator_scalar.submitted ++ [(div, q)] }
            submit_calls := r.submit_calls ++ [(cell, q, div)] }) 0
      Method.modify fun r => { r with
        dst := mf.integrate_scatter calculator.dof_index_u_scalar calculator.quad_index
          cell r.integrator_scalar.submitted r.dst } : Method (DivergenceRun V scalar) Unit) r
    = (Except.ok (), cell_step calculator mf src cell r) := by
  simp only [bind_eq_seq, seq, modify_eq]
  rw [forLt_ok _ _ _ (fun _ _ => rfl), divergence_inner_fold
    (mf.get_divergence calculator.dof_index_u calculator.quad_index src cell) cell]
  simp [cell_step, divergence_values, List.range_eq_range', Function.comp_def]

/-- The calls of `submit_value` after the work on a list of cells. -/
theorem submit_calls_cells (calculator : DivergenceCalculator V scalar)
    (mf : MatrixFree V scalar) (src : V) (l : List Nat) (r : DivergenceRun V scalar) :
    (l.foldl (fun r cell => cell_step calculator mf src cell r) r).submit_calls
    = r.submit_calls ++ l.flatMap fun cell =>
        (divergence_values calculator mf src cell).map fun v => (cell, v.2, v.1) := by
  induction l generalizing r with
  | nil => simp
  | cons cell l ih =>
    rw [List.foldl_cons, ih]
    simp [cell_step]

/-- The run of `cell_loop` on a range of cells. -/
theorem cell_loop_run (calculator : DivergenceCalculator V scalar)
    (mf : MatrixFree V scalar) (src : V) (cell_range : Nat × Nat) (r : DivergenceRun V scalar) :
    calculator.cell_loop mf src cell_range r
    = (Except.ok (), (List.range' cell_range.1 (cell_range.2 - cell_range.1)).foldl
        (fun r cell => cell_step calculator mf src cell r)
        { r with integrator_scalar := { cell := 0, submitted := [] } }) := by
  exact forLt_ok cell_range.2 _ _ (divergence_cell_run calculator mf src) cell_range.1
    { r with integrator_scalar := { cell := 0, submitted := [] } }

/-- The calls of `submit_value` after the work on a list of ranges of cells. -/
theorem submit_calls_ranges (calculator : DivergenceCalculator V scalar)
    (mf : MatrixFree V scalar) (src : V) (l : List (Nat × Nat)) (r : DivergenceRun V scalar) :
    (l.foldl (fun r cell_range =>
        (List.range' cell_range.1 (cell_range.2 - cell_range.1)).foldl
          (fun r cell => cell_step calculator mf src cell r)
          { r with integrator_scalar := { cell := 0, submitted := [] } }) r).submit_calls
    = r.submit_calls ++ (cells_of l).flatMap fun cell =>
        (divergence_values calculator mf src cell).map fun v => (cell, v.2, v.1) := by
  induction l generalizing r with
  | nil => simp [cells_of]
  | cons cell_range l ih =>
    simp only [List.foldl_cons, ih, submit_calls_cells, cells_of, List.flatMap_cons,
      List.flatMap_append, List.append_assoc]

/-- C22: `compute_divergence(dst, src)` of an initialised calculator ends without exception
and overwrites `dst`: two calls with the same `src` on runs that differ in the vector `dst`
only end in the same run, with the same `dst`; and for every cell of the ranges of the cell
loop, in their order, it submits for every quadrature point `q < n_q_points`, in increasing
order, the divergence of `src` at `q` in that cell, and it submits nothing else. -/
theorem compute_divergence_overwrites [Zero V] (calculator : DivergenceCalculator V scalar)
    (mf : MatrixFree V scalar) (src : V) (r : DivergenceRun V scalar) (dst2 : V)
    (h : calculator.matrix_free = some mf) :
    outcome (calculator.compute_divergence src) r = Except.ok ()
    ∧ after (calculator.compute_divergence src) { r with dst := dst2 }
        = after (calculator.compute_divergence src) r
    ∧ (after (calculator.compute_divergence src) r).submit_calls
        = r.submit_calls ++ (cells_of mf.cell_ranges).flatMap fun cell =>
            (List.range (mf.n_q_points calculator.dof_index_u_scalar calculator.quad_index)).map
              fun q => (cell, q,
                mf.get_divergence calculator.dof_index_u calculator.quad_index src cell q) := by
  have hrun : ∀ r : DivergenceRun V scalar, calculator.compute_divergence src r
      = (Except.ok (), mf.cell_ranges.foldl (fun r cell_range =>
          (List.range' cell_range.1 (cell_range.2 - cell_range.1)).foldl
            (fun r cell => cell_step calculator mf src cell r)
            { r with integrator_scalar := { cell := 0, submitted := [] } })
          { r with dst := 0 }) := by
    intro r
    have hr := forEach_ok _ _ (cell_loop_run calculator mf src) mf.cell_ranges { r with dst := 0 }
    unfold DivergenceCalculator.compute_divergence
    rw [h]
    exact hr
  refine ⟨by rw [outcome, hrun], by rw [after, after, hrun, hrun], ?_⟩
  rw [after, hrun, submit_calls_ranges]
  simp [divergence_values, List.map_map, Function.comp_def]

/-- Witness of C22: on the example mesh, with the field 2, the run after the call is the same
whether `dst` was 5 or 100 before. -/
theorem compute_divergence_overwrites_witness :
    after (exampleCalculator.compute_divergence 2) { exampleRun 5 with dst := 100 }
      = after (exampleCalculator.compute_divergence 2) (exampleRun 5) :=
  (compute_divergence_overwrites exampleCalculator exampleMatrixFree 2 (exampleRun 5) 100 rfl).2.1

end divergence_calculator_theorems

section print_theorems

open Method

theorem prints_appends {α : Type} {P : Printed → Prop} {m : Method (List Printed) α}
    (h : Prints P m) : Appends P m := by
  intro out
  obtain ⟨a, l, h1, h2⟩ := h out
  exact ⟨l, by rw [h1], h2⟩

theorem prints_ret {α : Type} {P : Printed → Prop} (a : α) :
    Prints P (Method.ret a : Method (List Printed) α) :=
  fun out => ⟨a, [], by simp [Method.ret], by simp⟩

theorem prints_seq {α β : Type} {P : Printed → Prop} {m : Method (List Printed) α}
    {f : α → Method (List Printed) β} (hm : Prints P m) (hf : ∀ a, Prints P (f a)) :
    Prints P (Method.seq m f) := by
  intro out
  obtain ⟨a, l, h1, h2⟩ := hm out
  obtain ⟨b, l2, h3, h4⟩ := hf a (out ++ l)
  refine ⟨b, l ++ l2, ?_, ?_⟩
  · simp [Method.seq, h1, h3]
  · intro e he
    rcases List.mem_append.1 he with h | h
    · exact h2 e h
    · exact h4 e h

theorem prints_ite {α : Type} {P : Printed → Prop} {c : Prop} [Decidable c]
    {m1 m2 : Method (List Printed) α} (h1 : Prints P m1) (h2 : Prints P m2) :
    Prints P (if c then m1 else m2) := by
  by_cases h : c <;> simp [h, h1, h2]

theorem prints_line {P : Printed → Prop} {text : String} (h : P (Printed.line text)) :
    Prints P (pcout_line text) :=
  fun out => ⟨(), [Printed.line text], by simp [pcout_line, Method.modify], by simpa using h⟩

theorem prints_parameter {P : Printed → Prop} {name : String} {value : ParameterValue}
    (h : P (Printed.parameter name value)) : Prints P (print_parameter name value) :=
  fun out => ⟨(), [Printed.parameter name value], by simp [print_parameter, Method.modify],
    by simpa using h⟩

theorem prints_modify {P : Printed → Prop} {e : Printed} (h : P e) :
    Prints P (Method.modify fun out => out ++ [e]) :=
  fun out => ⟨(), [e], by simp [Method.modify], by simpa using h⟩

theorem prints_lookup {P : Printed → Prop} {table : List String} {i : Nat}
    (h : i < table.length) : Prints P (lookup table i : Method (List Printed) String) := by
  intro out
  refine ⟨table.get ⟨i, h⟩, [], ?_, by simp⟩
  simp [ExaDG.lookup, List.getElem?_eq_getElem h, Method.ret]

theorem appends_seq {α β : Type} {P : Printed → Prop} {m : Method (List Printed) α}
    {f : α → Method (List Printed) β} (hm : Appends P m) (hf : ∀ a, Appends P (f a)) :
    Appends P (Method.seq m f) := by
  intro out
  obtain ⟨l, h1, h2⟩ := hm out
  rcases hr : m out with ⟨r, s1⟩
  rw [hr] at h1
  simp only at h1
  subst h1
  cases r with
  | error e => exact ⟨l, by simp [Method.seq, hr], h2⟩
  | ok a =>
    obtain ⟨l2, h3, h4⟩ := hf a (out ++ l)
    refine ⟨l ++ l2, by simp [Method.seq, hr, h3], ?_⟩
    intro e he
    rcases List.mem_append.1 he with h | h
    · exact h2 e h
    · exact h4 e h

theorem appends_ite {α : Type} {P : Printed → Prop} {c : Prop} [Decidable c]
    {m1 m2 : Method (List Printed) α} (h1 : Appends P m1) (h2 : Appends P m2) :
    Appends P (if c then m1 else m2) := by
  by_cases h : c <;> simp [h, h1, h2]

theorem appends_lookup {P : Printed → Prop} (table : List String) (i : Nat) :
    Appends P (lookup table i : Method (List Printed) String) := by
  intro out
  refine ⟨[], ?_, by simp⟩
  unfold ExaDG.lookup
  cases table[i]? <;> simp [Method.ret, Method.undefined_behaviour]

theorem throws_seq_left {α β : Type} {m : Method (List Printed) α} (hm : Throws m)
    (f : α → Method (List Printed) β) : Throws (Method.seq m f) := by
  intro out
  have h := hm out
  rcases hr : m out with ⟨r, s1⟩
  rw [hr] at h
  simp only at h
  subst h
  simp [Method.seq, hr]

theorem throws_seq_right {α β : Type} {P : Printed → Prop} {m : Method (List Printed) α}
    {f : α → Method (List Printed) β} (hm : Prints P m) (hf : ∀ a, Throws (f a)) :
    Throws (Method.seq m f) := by
  intro out
  obtain ⟨a, l, h1, _⟩ := hm out
  simpa [Method.seq, h1] using hf a (out ++ l)

theorem throws_ite {α : Type} {c : Prop} [Decidable c] {m1 m2 : Method (List Printed) α}
    (h1 : Throws m1) (h2 : Throws m2) : Throws (if c then m1 else m2) := by
  by_cases h : c <;> simp [h, h1, h2]

theorem marked_seq_left {α β : Type} {P : Printed → Prop} {mid : List Printed}
    {m : Method (List Printed) α} {f : α → Method (List Printed) β} (hm : Marked P mid m)
    (hf : ∀ a, Appends P (f a)) : Marked P mid (Method.seq m f) := by
  intro out
  obtain ⟨l1, l2, h1, h2, h3⟩ := hm out
  rcases hr : m out with ⟨r, s1⟩
  rw [hr] at h1
  simp only at h1
  subst h1
  cases r with
  | error e => exact ⟨l1, l2, by simp [Method.seq, hr], h2, h3⟩
  | ok a =>
    obtain ⟨l, h4, h5⟩ := hf a (out ++ (l1 ++ mid ++ l2))
    refine ⟨l1, l2 ++ l, ?_, h2, ?_⟩
    · simp only [Method.seq, hr]
      rw [h4]
      simp only [List.append_assoc]
    · intro e he
      rcases List.mem_append.1 he with h | h
      · exact h3 e h
      · exact h5 e h

theorem marked_seq_right {α β : Type} {P : Printed → Prop} {mid : List Printed}
    {m : Method (List Printed) α} {f : α → Method (List Printed) β} (hm : Prints P m)
    (hf : ∀ a, Marked P mid (f a)) : Marked P mid (Method.seq m f) := by
  intro out
  obtain ⟨a, l, h1, h2⟩ := hm out
  obtain ⟨l1, l2, h3, h4, h5⟩ := hf a (out ++ l)
  refine ⟨l ++ l1, l2, by simp [Method.seq, h1, h3], ?_, h5⟩
  intro e he
  rcases List.mem_append.1 he with h | h
  · exact h2 e h
  · exact h4 e h

theorem marked_ite {α : Type} {P : Printed → Prop} {mid : List Printed} {c : Prop}
    [Decidable c] {m1 m2 : Method (List Printed) α} (h1 : Marked P mid m1)
    (h2 : Marked P mid m2) : Marked P mid (if c then m1 else m2) := by
  by_cases h : c <;> simp [h, h1, h2]

theorem noHeaders_parameter (name : String) (value : ParameterValue) :
    NoHeaders (Printed.parameter name value) := by
  simp [NoHeaders]

theorem noHeaders_line {text : String} (h1 : text ≠ "Coupled Navier-Stokes solver:")
    (h2 : text ≠ "Newton solver") (h3 : text ≠ "Turbulence:") :
    NoHeaders (Printed.line text) := by
  simp [NoHeaders, h1, h2, h3]

theorem lookup_str_problem_type {P : Printed → Prop} (v : ProblemType) :
    Prints P (lookup str_problem_type v.cast_int : Method (List Printed) String) :=
  prints_lookup (by cases v <;> decide)

theorem lookup_str_equation_type {P : Printed → Prop} (v : EquationType) :
    Prints P (lookup str_equation_type v.cast_int : Method (List Printed) String) :=
  prints_lookup (by cases v <;> decide)

theorem lookup_str_form_viscous_term {P : Printed → Prop} (v : FormulationViscousTerm) :
    Prints P (lookup str_form_viscous_term v.cast_int : Method (List Printed) String) :=
  prints_lookup (by cases v <;> decide)

theorem lookup_str_temporal_discretization {P : Printed → Prop} (v : TemporalDiscretization) :
    Prints P (lookup str_temporal_discretization v.cast_int : Method (List Printed) String) :=
  prints_lookup (by cases v <;> decide)

theorem lookup_str_conv_term {P : Printed → Prop} (v : TreatmentOfConvectiveTerm) :
    Prints P (lookup str_conv_term v.cast_int : Method (List Printed) String) :=
  prints_lookup (by cases v <;> decide)

theorem lookup_str_calc_time_step {P : Printed → Prop} (v : TimeStepCalculation) :
    Prints P (lookup str_calc_time_step v.cast_int : Method (List Printed) String) :=
  prints_lookup (by cases v <;> decide)

theorem lookup_str_spatial_discret {P : Printed → Prop} (v : SpatialDiscretization) :
    Prints P (lookup str_spatial_discret v.cast_int : Method (List Printed) String) :=
  prints_lookup (by cases v <;> decide)

theorem lookup_str_IP_form_visc {P : Printed → Prop} (v : InteriorPenaltyFormulation) :
    Prints P (lookup str_IP_form_visc v.cast_int : Method (List Printed) String) :=
  prints_lookup (by cases v <;> decide)

theorem lookup_str_precon_ppe {P : Printed → Prop} (v : PreconditionerPressurePoisson) :
    Prints P (lookup str_precon_ppe v.cast_int : Method (List Printed) String) :=
  prints_lookup (by cases v <;> decide)

theorem lookup_str_multigrid_coarse_ppe {P : Printed → Prop} (v : MultigridCoarseGridSolver) :
    Prints P (lookup str_multigrid_coarse_ppe v.cast_int : Method (List Printed) String) :=
  prints_lookup (by cases v <;> decide)

theorem lookup_str_proj_type {P : Printed → Prop} (v : ProjectionType) :
    Prints P (lookup str_proj_type v.cast_int : Method (List Printed) String) :=
  prints_lookup (by cases v <;> decide)

theorem lookup_str_solver_proj {P : Printed → Prop} (v : SolverProjection) :
    Prints P (lookup str_solver_proj v.cast_int : Method (List Printed) String) :=
  prints_lookup (by cases v <;> decide)

theorem lookup_str_precon_proj {P : Printed → Prop} (v : PreconditionerProjection) :
    Prints P (lookup str_precon_proj v.cast_int : Method (List Printed) String) :=
  prints_lookup (by cases v <;> decide)

theorem lookup_str_solver_viscous {P : Printed → Prop} (v : SolverViscous) :
    Prints P (lookup str_solver_viscous v.cast_int : Method (List Printed) String) :=
  prints_lookup (by cases v <;> decide)

theorem lookup_str_precon_viscous {P : Printed → Prop} (v : PreconditionerViscous) :
    Prints P (lookup str_precon_viscous v.cast_int : Method (List Printed) String) :=
  prints_lookup (by cases v <;> decide)

theorem lookup_str_multigrid_coarse_viscous {P : Printed → Prop} (v : MultigridCoarseGridSolver) :
    Prints P (lookup str_multigrid_coarse_viscous v.cast_int : Method (List Printed) String) :=
  prints_lookup (by cases v <;> decide)

theorem lookup_str_solver_linearized {P : Printed → Prop} (v : SolverLinearizedNavierStokes) :
    Prints P (lookup str_solver_linearized v.cast_int : Method (List Printed) String) :=
  prints_lookup (by cases v <;> decide)

theorem lookup_str_precon_linear {P : Printed → Prop} (v : PreconditionerLinearizedNavierStokes) :
    Prints P (lookup str_precon_linear v.cast_int : Method (List Printed) String) :=
  prints_lookup (by cases v <;> decide)

theorem lookup_str_solver_momentum_precon {P : Printed → Prop} (v : SolverMomentumPreconditioner) :
    Prints P (lookup str_solver_momentum_precon v.cast_int : Method (List Printed) String) :=
  prints_lookup (by cases v <;> decide)

theorem lookup_str_multigrid_coarse_solver {P : Printed → Prop} (v : MultigridCoarseGridSolver) :
    Prints P (lookup str_multigrid_coarse_solver v.cast_int : Method (List Printed) String) :=
  prints_lookup (by cases v <;> decide)

theorem lookup_str_schur_precon {P : Printed → Prop} (v : SchurComplementPreconditioner) :
    Prints P (lookup str_schur_precon v.cast_int : Method (List Printed) String) :=
  prints_lookup (by cases v <;> decide)

theorem lookup_str_discret_laplacian {P : Printed → Prop} (v : DiscretizationOfLaplacian) :
    Prints P (lookup str_discret_laplacian v.cast_int : Method (List Printed) String) :=
  prints_lookup (by cases v <;> decide)

theorem lookup_str_solver_schur_precon {P : Printed → Prop}
    (v : SolverSchurComplementPreconditioner) :
    Prints P (lookup str_solver_schur_precon v.cast_int : Method (List Printed) String) :=
  prints_lookup (by cases v <;> decide)

variable {MG OD ED LD PD : Type}

theorem print_parameters_mathematical_model_prints
    (p : InputParametersNavierStokes MG OD ED LD PD) :
    Prints NoHeaders p.print_parameters_mathematical_model := by
  unfold InputParametersNavierStokes.print_parameters_mathematical_model
  simp only [bind_eq_seq, pure_eq_ret]
  repeat' (first
    | with_reducible refine prints_seq ?_ (fun _ => ?_)
    | with_reducible apply prints_ite
    | with_reducible exact prints_ret _
    | with_reducible exact prints_parameter (noHeaders_parameter _ _)
    | with_reducible exact prints_line (noHeaders_line (by decide) (by decide) (by decide))
    | with_reducible exact lookup_str_problem_type _
    | with_reducible exact lookup_str_equation_type _
    | with_reducible exact lookup_str_form_viscous_term _)

theorem print_parameters_physical_quantities_prints
    (p : InputParametersNavierStokes MG OD ED LD PD) :
    Prints NoHeaders p.print_parameters_physical_quantities := by
  unfold InputParametersNavierStokes.print_parameters_physical_quantities
  simp only [bind_eq_seq, pure_eq_ret]
  repeat' (first
    | with_reducible refine prints_seq ?_ (fun _ => ?_)
    | with_reducible apply prints_ite
    | with_reducible exact prints_ret _
    | with_reducible exact prints_parameter (noHeaders_parameter _ _)
    | with_reducible exact prints_line (noHeaders_line (by decide) (by decide) (by decide)))

theorem print_parameters_temporal_discretization_prints
    (p : InputParametersNavierStokes MG OD ED LD PD) :
    Prints NoHeaders p.print_parameters_temporal_discretization := by
  unfold InputParametersNavierStokes.print_parameters_temporal_discretization
  simp only [bind_eq_seq, pure_eq_ret]
  repeat' (first
    | with_reducible refine prints_seq ?_ (fun _ => ?_)
    | with_reducible apply prints_ite
    | with_reducible exact prints_ret _
    | with_reducible exact prints_parameter (noHeaders_parameter _ _)
    | with_reducible exact prints_line (noHeaders_line (by decide) (by decide) (by decide))
    | with_reducible exact lookup_str_temporal_discretization _
    | with_reducible exact lookup_str_conv_term _
    | with_reducible exact lookup_str_calc_time_step _)

theorem print_parameters_spatial_discretization_prints
    (p : InputParametersNavierStokes MG OD ED LD PD) :
    Prints NoHeaders p.print_parameters_spatial_discretization := by
  unfold InputParametersNavierStokes.print_parameters_spatial_discretization
  simp only [bind_eq_seq, pure_eq_ret]
  repeat' (first
    | with_reducible refine prints_seq ?_ (fun _ => ?_)
    | with_reducible apply prints_ite
    | with_reducible exact prints_ret _
    | with_reducible exact prints_parameter (noHeaders_parameter _ _)
    | with_reducible exact prints_line (noHeaders_line (by decide) (by decide) (by decide))
    | with_reducible exact lookup_str_spatial_discret _
    | with_reducible exact lookup_str_IP_form_visc _)

theorem print_parameters_dual_splitting_prints (members : MultigridDataMembers MG)
    (p : InputParametersNavierStokes MG OD ED LD PD) :
    Prints NoHeaders (p.print_parameters_dual_splitting members) := by
  unfold InputParametersNavierStokes.print_parameters_dual_splitting
  simp only [bind_eq_seq, pure_eq_ret]
  repeat' (first
    | with_reducible refine prints_seq ?_ (fun _ => ?_)
    | with_reducible apply prints_ite
    | with_reducible exact prints_ret _
    | with_reducible exact prints_parameter (noHeaders_parameter _ _)
    | with_reducible exact prints_line (noHeaders_line (by decide) (by decide) (by decide))
    | with_reducible exact lookup_str_precon_ppe _
    | with_reducible exact lookup_str_multigrid_coarse_ppe _
    | with_reducible exact lookup_str_proj_type _
    | with_reducible exact lookup_str_solver_proj _
    | with_reducible exact lookup_str_precon_proj _
    | with_reducible exact lookup_str_solver_viscous _
    | with_reducible exact lookup_str_precon_viscous _
    | with_reducible exact lookup_str_multigrid_coarse_viscous _)


/-! Output and postprocessing, and the runs that may end at a lookup. -/

theorem print_parameters_output_and_postprocessing_prints
    (p : InputParametersNavierStokes MG OD ED LD PD) :
    Prints NoHeaders p.print_parameters_output_and_postprocessing := by
  unfold InputParametersNavierStokes.print_parameters_output_and_postprocessing
  simp only [bind_eq_seq, pure_eq_ret]
  repeat' (first
    | with_reducible refine prints_seq ?_ (fun _ => ?_)
    | with_reducible apply prints_ite
    | with_reducible exact prints_ret _
    | with_reducible exact prints_parameter (noHeaders_parameter _ _)
    | with_reducible exact prints_line (noHeaders_line (by decide) (by decide) (by decide))
    | with_reducible exact prints_modify (by simp [NoHeaders]))

theorem lookup_str_momentum_precon {P : Printed → Prop} (v : MomentumPreconditioner)
    (h : v ≠ MomentumPreconditioner.VelocityConvectionDiffusion) :
    Prints P (lookup str_momentum_precon v.cast_int : Method (List Printed) String) :=
  prints_lookup (by cases v <;> first | decide | exact absurd rfl h)

theorem lookup_str_momentum_precon_throws (v : MomentumPreconditioner)
    (h : v = MomentumPreconditioner.VelocityConvectionDiffusion) :
    Throws (lookup str_momentum_precon v.cast_int : Method (List Printed) String) := by
  subst h
  intro out
  rfl

theorem print_parameters_linear_solver_appends (members : MultigridDataMembers MG)
    (p : InputParametersNavierStokes MG OD ED LD PD) :
    Appends NoHeaders (p.print_parameters_linear_solver members) := by
  unfold InputParametersNavierStokes.print_parameters_linear_solver
  simp only [bind_eq_seq, pure_eq_ret]
  repeat' (first
    | with_reducible refine appends_seq ?_ (fun _ => ?_)
    | with_reducible apply appends_ite
    | with_reducible exact appends_lookup _ _
    | with_reducible exact prints_appends (prints_ret _)
    | with_reducible exact prints_appends (prints_parameter (noHeaders_parameter _ _))
    | with_reducible exact
        prints_appends (prints_line (noHeaders_line (by decide) (by decide) (by decide))))

theorem print_parameters_linear_solver_returns (members : MultigridDataMembers MG)
    (p : InputParametersNavierStokes MG OD ED LD PD)
    (h : p.momentum_preconditioner ≠ MomentumPreconditioner.VelocityConvectionDiffusion) :
    Prints (fun _ => True) (p.print_parameters_linear_solver members) := by
  unfold InputParametersNavierStokes.print_parameters_linear_solver
  simp only [bind_eq_seq, pure_eq_ret]
  repeat' (first
    | with_reducible refine prints_seq ?_ (fun _ => ?_)
    | with_reducible apply prints_ite
    | with_reducible exact prints_ret _
    | with_reducible exact prints_parameter trivial
    | with_reducible exact prints_line trivial
    | with_reducible exact lookup_str_momentum_precon _ h
    | with_reducible exact lookup_str_solver_linearized _
    | with_reducible exact lookup_str_precon_linear _
    | with_reducible exact lookup_str_solver_momentum_precon _
    | with_reducible exact lookup_str_multigrid_coarse_solver _
    | with_reducible exact lookup_str_schur_precon _
    | with_reducible exact lookup_str_discret_laplacian _
    | with_reducible exact lookup_str_solver_schur_precon _)

theorem print_parameters_linear_solver_throws (members : MultigridDataMembers MG)
    (p : InputParametersNavierStokes MG OD ED LD PD)
    (h : p.momentum_preconditioner = MomentumPreconditioner.VelocityConvectionDiffusion) :
    Throws (p.print_parameters_linear_solver members) := by
  unfold InputParametersNavierStokes.print_parameters_linear_solver
  simp only [bind_eq_seq, pure_eq_ret]
  repeat' (first
    | with_reducible exact throws_seq_left (lookup_str_momentum_precon_throws _ h) _
    | with_reducible refine throws_seq_right (P := fun _ => True) ?_ (fun _ => ?_)
    | with_reducible apply throws_ite
    | with_reducible exact prints_ret _
    | with_reducible exact prints_parameter trivial
    | with_reducible exact prints_line trivial
    | with_reducible exact lookup_str_solver_linearized _
    | with_reducible exact lookup_str_precon_linear _)

theorem prints_weaken {α : Type} {P : Printed → Prop} {m : Method (List Printed) α}
    (h : Prints P m) : Prints (fun _ => True) m := by
  intro out
  obtain ⟨a, l, h1, _⟩ := h out
  exact ⟨a, l, h1, fun _ _ => trivial⟩

theorem prints_returns {P : Printed → Prop} {m : Method (List Printed) Unit}
    (h : Prints P m) (out : List Printed) : outcome m out = Except.ok () := by
  obtain ⟨a, l, h1, _⟩ := h out
  simp [outcome, h1]

theorem pcout_line_seq {β : Type} (text : String) (f : Unit → Method (List Printed) β)
    (out : List Printed) :
    Method.seq (pcout_line text) f out = f () (out ++ [Printed.line text]) := rfl

theorem print_parameter_seq {β : Type} (name : String) (value : ParameterValue)
    (f : Unit → Method (List Printed) β) (out : List Printed) :
    Method.seq (print_parameter name value) f out
      = f () (out ++ [Printed.parameter name value]) := rfl

theorem ret_seq {α β : Type} (a : α) (f : α → Method (List Printed) β) (out : List Printed) :
    Method.seq (Method.ret a) f out = f a out := rfl

theorem print_parameters_coupled_solver_marked (members : MultigridDataMembers MG)
    (p : InputParametersNavierStokes MG OD ED LD PD) :
    Marked NoHeaders
      (Printed.line "Coupled Navier-Stokes solver:"
        :: (if p.equation_type = EquationType.NavierStokes
              ∧ (p.problem_type = ProblemType.Steady
                ∨ p.treatment_of_convective_term = TreatmentOfConvectiveTerm.Implicit)
            then p.newton_solver_subsection else []))
      (p.print_parameters_coupled_solver members) := by
  intro out
  have hiff : (p.equation_type == EquationType.NavierStokes
        && (p.problem_type == ProblemType.Steady
          || p.treatment_of_convective_term == TreatmentOfConvectiveTerm.Implicit)) = true
      ↔ p.equation_type = EquationType.NavierStokes
        ∧ (p.problem_type = ProblemType.Steady
          ∨ p.treatment_of_convective_term = TreatmentOfConvectiveTerm.Implicit) := by
    simp
  have hl : NoHeaders (Printed.line "") := noHeaders_line (by decide) (by decide) (by decide)
  simp only [InputParametersNavierStokes.print_parameters_coupled_solver, bind_eq_seq,
    pure_eq_ret, pcout_line_seq]
  by_cases hb : (p.equation_type == EquationType.NavierStokes
        && (p.problem_type == ProblemType.Steady
          || p.treatment_of_convective_term == TreatmentOfConvectiveTerm.Implicit)) = true
  · rw [if_pos hb, if_pos (hiff.1 hb)]
    simp only [pcout_line_seq, print_parameter_seq]
    obtain ⟨l, h1, h2⟩ := print_parameters_linear_solver_appends members p
      (out ++ [Printed.line ""] ++ [Printed.line "Coupled Navier-Stokes solver:"]
        ++ [Printed.line "Newton solver"]
        ++ [Printed.parameter "Absolute solver tolerance" (ParameterValue.double p.abs_tol_newton)]
        ++ [Printed.parameter "Relative solver tolerance" (ParameterValue.double p.rel_tol_newton)]
        ++ [Printed.parameter "Maximum number of iterations"
              (ParameterValue.unsigned p.max_iter_newton)]
        ++ [Printed.line ""])
    refine ⟨[Printed.line ""], l, ?_, ?_, h2⟩
    · rw [h1]
      simp [InputParametersNavierStokes.newton_solver_subsection]
    · intro e he
      rw [List.mem_singleton.1 he]
      exact hl
  · rw [if_neg hb, if_neg (fun h => hb (hiff.2 h))]
    simp only [ret_seq]
    obtain ⟨l, h1, h2⟩ := print_parameters_linear_solver_appends members p
      (out ++ [Printed.line ""] ++ [Printed.line "Coupled Navier-Stokes solver:"])
    refine ⟨[Printed.line ""], l, ?_, ?_, h2⟩
    · rw [h1]
      simp
    · intro e he
      rw [List.mem_singleton.1 he]
      exact hl

theorem print_parameters_coupled_solver_returns (members : MultigridDataMembers MG)
    (p : InputParametersNavierStokes MG OD ED LD PD)
    (h : p.momentum_preconditioner ≠ MomentumPreconditioner.VelocityConvectionDiffusion) :
    Prints (fun _ => True) (p.print_parameters_coupled_solver members) := by
  unfold InputParametersNavierStokes.print_parameters_coupled_solver
  simp only [bind_eq_seq, pure_eq_ret]
  repeat' (first
    | with_reducible refine prints_seq ?_ (fun _ => ?_)
    | with_reducible apply prints_ite
    | with_reducible exact prints_ret _
    | with_reducible exact prints_parameter trivial
    | with_reducible exact prints_line trivial
    | with_reducible exact print_parameters_linear_solver_returns members p h)

theorem print_parameters_coupled_solver_throws (members : MultigridDataMembers MG)
    (p : InputParametersNavierStokes MG OD ED LD PD)
    (h : p.momentum_preconditioner = MomentumPreconditioner.VelocityConvectionDiffusion) :
    Throws (p.print_parameters_coupled_solver members) := by
  unfold InputParametersNavierStokes.print_parameters_coupled_solver
  simp only [bind_eq_seq, pure_eq_ret]
  repeat' (first
    | with_reducible exact print_parameters_linear_solver_throws members p h
    | with_reducible refine throws_seq_right (P := fun _ => True) ?_ (fun _ => ?_)
    | with_reducible apply throws_ite
    | with_reducible exact prints_ret _
    | with_reducible exact prints_parameter trivial
    | with_reducible exact prints_line trivial)

/-! The four runs of `print`: without the coupled solver, and with it. -/

theorem print_prints (members : MultigridDataMembers MG)
    (p : InputParametersNavierStokes MG OD ED LD PD)
    (hC : (p.problem_type == ProblemType.Steady
        || (p.problem_type == ProblemType.Unsteady
          && p.temporal_discretization == TemporalDiscretization.BDFCoupledSolution)) = false) :
    Prints NoHeaders (p.print members) := by
  unfold InputParametersNavierStokes.print
  simp only [bind_eq_seq, pure_eq_ret, hC, Bool.false_eq_true, if_false]
  repeat' (first
    | with_reducible refine prints_seq ?_ (fun _ => ?_)
    | with_reducible apply prints_ite
    | with_reducible exact prints_ret _
    | with_reducible exact prints_line (noHeaders_line (by decide) (by decide) (by decide))
    | with_reducible exact print_parameters_mathematical_model_prints p
    | with_reducible exact print_parameters_physical_quantities_prints p
    | with_reducible exact print_parameters_temporal_discretization_prints p
    | with_reducible exact print_parameters_spatial_discretization_prints p
    | with_reducible exact print_parameters_dual_splitting_prints members p
    | with_reducible exact print_parameters_output_and_postprocessing_prints p)

theorem print_marked (members : MultigridDataMembers MG)
    (p : InputParametersNavierStokes MG OD ED LD PD)
    (hC : (p.problem_type == ProblemType.Steady
        || (p.problem_type == ProblemType.Unsteady
          && p.temporal_discretization == TemporalDiscretization.BDFCoupledSolution)) = true) :
    Marked NoHeaders
      (Printed.line "Coupled Navier-Stokes solver:"
        :: (if p.equation_type = EquationType.NavierStokes
              ∧ (p.problem_type = ProblemType.Steady
                ∨ p.treatment_of_convective_term = TreatmentOfConvectiveTerm.Implicit)
            then p.newton_solver_subsection else []))
      (p.print members) := by
  unfold InputParametersNavierStokes.print
  simp only [bind_eq_seq, pure_eq_ret, hC, Bool.false_eq_true, if_false, if_true]
  repeat' (first
    | with_reducible refine
        marked_seq_left (print_parameters_coupled_solver_marked members p) (fun _ => ?_)
    | with_reducible refine marked_seq_right ?_ (fun _ => ?_)
    | with_reducible apply marked_ite
    | with_reducible refine appends_seq ?_ (fun _ => ?_)
    | with_reducible exact prints_appends (prints_ret _)
    | with_reducible exact
        prints_appends (print_parameters_output_and_postprocessing_prints p)
    | with_reducible exact prints_ret _
    | with_reducible exact prints_line (noHeaders_line (by decide) (by decide) (by decide))
    | with_reducible exact print_parameters_mathematical_model_prints p
    | with_reducible exact print_parameters_physical_quantities_prints p
    | with_reducible exact print_parameters_temporal_discretization_prints p
    | with_reducible exact print_parameters_spatial_discretization_prints p
    | with_reducible exact print_parameters_dual_splitting_prints members p)

theorem print_returns (members : MultigridDataMembers MG)
    (p : InputParametersNavierStokes MG OD ED LD PD)
    (h : p.momentum_preconditioner ≠ MomentumPreconditioner.VelocityConvectionDiffusion) :
    Prints (fun _ => True) (p.print members) := by
  unfold InputParametersNavierStokes.print
  simp only [bind_eq_seq, pure_eq_ret, Bool.false_eq_true, if_false]
  repeat' (first
    | with_reducible refine prints_seq ?_ (fun _ => ?_)
    | with_reducible apply prints_ite
    | with_reducible exact prints_ret _
    | with_reducible exact prints_line trivial
    | with_reducible exact prints_weaken (print_parameters_mathematical_model_prints p)
    | with_reducible exact prints_weaken (print_parameters_physical_quantities_prints p)
    | with_reducible exact prints_weaken (print_parameters_temporal_discretization_prints p)
    | with_reducible exact prints_weaken (print_parameters_spatial_discretization_prints p)
    | with_reducible exact prints_weaken (print_parameters_dual_splitting_prints members p)
    | with_reducible exact print_parameters_coupled_solver_returns members p h
    | with_reducible exact prints_line trivial
    | with_reducible exact prints_weaken (print_parameters_output_and_postprocessing_prints p))

theorem print_throws (members : MultigridDataMembers MG)
    (p : InputParametersNavierStokes MG OD ED LD PD)
    (hC : (p.problem_type == ProblemType.Steady
        || (p.problem_type == ProblemType.Unsteady
          && p.temporal_discretization == TemporalDiscretization.BDFCoupledSolution)) = true)
    (h : p.momentum_preconditioner = MomentumPreconditioner.VelocityConvectionDiffusion) :
    Throws (p.print members) := by
  unfold InputParametersNavierStokes.print
  simp only [bind_eq_seq, pure_eq_ret, hC, Bool.false_eq_true, if_false, if_true]
  repeat' (first
    | with_reducible exact
        throws_seq_left (print_parameters_coupled_solver_throws members p h) _
    | with_reducible refine throws_seq_right (P := fun _ => True) ?_ (fun _ => ?_)
    | with_reducible apply throws_ite
    | with_reducible exact prints_ret _
    | with_reducible exact prints_line trivial
    | with_reducible exact prints_weaken (print_parameters_mathematical_model_prints p)
    | with_reducible exact prints_weaken (print_parameters_physical_quantities_prints p)
    | with_reducible exact prints_weaken (print_parameters_temporal_discretization_prints p)
    | with_reducible exact prints_weaken (print_parameters_spatial_discretization_prints p)
    | with_reducible exact prints_weaken (print_parameters_dual_splitting_prints members p))

theorem noHeaders_not_mem {l : List Printed} (h : ∀ e ∈ l, NoHeaders e) :
    Printed.line "Coupled Navier-Stokes solver:" ∉ l ∧ Printed.line "Newton solver" ∉ l
      ∧ Printed.line "Turbulence:" ∉ l :=
  ⟨fun hm => (h _ hm).1 rfl, fun hm => (h _ hm).2.1 rfl, fun hm => (h _ hm).2.2 rfl⟩

theorem coupled_solver_printed_iff (p : InputParametersNavierStokes MG OD ED LD PD) :
    (p.problem_type == ProblemType.Steady
        || (p.problem_type == ProblemType.Unsteady
          && p.temporal_discretization == TemporalDiscretization.BDFCoupledSolution)) = true
      ↔ (p.problem_type = ProblemType.Steady
        ∨ (p.problem_type = ProblemType.Unsteady
          ∧ p.temporal_discretization = TemporalDiscretization.BDFCoupledSolution)) := by
  simp

/-- C25: what `print` sends to `pcout`, whatever was sent before. The heading of the coupled
solver is sent iff `problem_type == Steady` or (`problem_type == Unsteady` and
`temporal_discretization == BDFCoupledSolution`); the heading of the Newton solver is sent iff
moreover `equation_type == NavierStokes` and (`problem_type == Steady` or
`treatment_of_convective_term == Implicit`), and exactly then the Newton solver subsection
(heading, absolute tolerance, relative tolerance, maximum number of iterations, empty line)
follows the heading of the coupled solver; the heading of the turbulence is never sent. The
run returns, unless the coupled solver is printed with the momentum preconditioner
`VelocityConvectionDiffusion`: then it ends at the lookup of the label of the momentum
preconditioner, after the Newton solver subsection. -/
theorem print_newton_solver_subsection (members : MultigridDataMembers MG)
    (p : InputParametersNavierStokes MG OD ED LD PD) (out : List Printed) :
    ∃ l, after (p.print members) out = out ++ l
      ∧ (Printed.line "Coupled Navier-Stokes solver:" ∈ l
          ↔ (p.problem_type = ProblemType.Steady
            ∨ (p.problem_type = ProblemType.Unsteady
              ∧ p.temporal_discretization = TemporalDiscretization.BDFCoupledSolution)))
      ∧ (Printed.line "Newton solver" ∈ l
          ↔ (p.problem_type = ProblemType.Steady
              ∨ (p.problem_type = ProblemType.Unsteady
                ∧ p.temporal_discretization = TemporalDiscretization.BDFCoupledSolution))
            ∧ p.equation_type = EquationType.NavierStokes
            ∧ (p.problem_type = ProblemType.Steady
              ∨ p.treatment_of_convective_term = TreatmentOfConvectiveTerm.Implicit))
      ∧ ((∃ l1 l2, l = l1
              ++ Printed.line "Coupled Navier-Stokes solver:" :: p.newton_solver_subsection
              ++ l2)
          ↔ (p.problem_type = ProblemType.Steady
              ∨ (p.problem_type = ProblemType.Unsteady
                ∧ p.temporal_discretization = TemporalDiscretization.BDFCoupledSolution))
            ∧ p.equation_type = EquationType.NavierStokes
            ∧ (p.problem_type = ProblemType.Steady
              ∨ p.treatment_of_convective_term = TreatmentOfConvectiveTerm.Implicit))
      ∧ Printed.line "Turbulence:" ∉ l
      ∧ (outcome (p.print members) out = Except.ok ()
          ↔ ¬ ((p.problem_type = ProblemType.Steady
                ∨ (p.problem_type = ProblemType.Unsteady
                  ∧ p.temporal_discretization = TemporalDiscretization.BDFCoupledSolution))
              ∧ p.momentum_preconditioner
                = MomentumPreconditioner.VelocityConvectionDiffusion)) := by
  have hmemN : Printed.line "Newton solver" ∈ p.newton_solver_subsection := by
    simp [InputParametersNavierStokes.newton_solver_subsection]
  have hmemT : Printed.line "Turbulence:" ∉ p.newton_solver_subsection := by
    simp [InputParametersNavierStokes.newton_solver_subsection]
  by_cases hC : (p.problem_type == ProblemType.Steady
        || (p.problem_type == ProblemType.Unsteady
          && p.temporal_discretization == TemporalDiscretization.BDFCoupledSolution)) = true
  · have hC1 := (coupled_solver_printed_iff p).1 hC
    obtain ⟨l1, l2, h, h1, h2⟩ := print_marked members p hC out
    obtain ⟨h1c, h1n, h1t⟩ := noHeaders_not_mem h1
    obtain ⟨h2c, h2n, h2t⟩ := noHeaders_not_mem h2
    have hout : outcome (p.print members) out = Except.ok ()
        ↔ ¬ ((p.problem_type = ProblemType.Steady
              ∨ (p.problem_type = ProblemType.Unsteady
                ∧ p.temporal_discretization = TemporalDiscretization.BDFCoupledSolution))
            ∧ p.momentum_preconditioner
              = MomentumPreconditioner.VelocityConvectionDiffusion) := by
      by_cases hV : p.momentum_preconditioner
          = MomentumPreconditioner.VelocityConvectionDiffusion
      · have ht : outcome (p.print members) out = Except.error "undefined behaviour" :=
          print_throws members p hC hV out
        simp [ht, hC1, hV]
      · simp [prints_returns (print_returns members p hV) out, hV]
    by_cases hN : p.equation_type = EquationType.NavierStokes
        ∧ (p.problem_type = ProblemType.Steady
          ∨ p.treatment_of_convective_term = TreatmentOfConvectiveTerm.Implicit)
    · rw [if_pos hN] at h
      refine ⟨_, h, ?_, ?_, ?_, ?_, hout⟩
      · simp [hC1]
      · simp [hC1, hN, hmemN]
      · simp only [hC1, hN, and_self, iff_true]
        exact ⟨l1, l2, rfl⟩
      · simp [h1t, h2t, hmemT]
    · rw [if_neg hN] at h
      have hnot : Printed.line "Newton solver"
          ∉ l1 ++ [Printed.line "Coupled Navier-Stokes solver:"] ++ l2 := by
        simp [h1n, h2n]
      refine ⟨_, h, ?_, ?_, ?_, ?_, hout⟩
      · simp [hC1]
      · simp [hN, h1n, h2n]
      · simp only [hN, and_false, iff_false]
        rintro ⟨l3, l4, h34⟩
        apply hnot
        rw [h34]
        simp [hmemN]
      · simp [h1t, h2t]
  · have hC0 : ¬ (p.problem_type = ProblemType.Steady
        ∨ (p.problem_type = ProblemType.Unsteady
          ∧ p.temporal_discretization = TemporalDiscretization.BDFCoupledSolution)) :=
      fun h => hC ((coupled_solver_printed_iff p).2 h)
    have hC2 := Bool.eq_false_iff.2 hC
    obtain ⟨a, l, h, h1⟩ := print_prints members p hC2 out
    obtain ⟨h1c, h1n, h1t⟩ := noHeaders_not_mem h1
    refine ⟨l, by simp [after, h], ?_, ?_, ?_, h1t, ?_⟩
    · simp [h1c, hC0]
    · simp [h1n, hC0]
    · simp only [hC0, false_and, iff_false]
      rintro ⟨l3, l4, h34⟩
      apply h1n
      rw [h34]
      simp [hmemN]
    · simp [outcome, h, hC0]

/-- C23, evaluated on the code: the array `str_momentum_precon` has four labels for the five
values of `MomentumPreconditioner`. The lookup `str_momentum_precon[(int)value]` is within
bounds exactly for the values other than `VelocityConvectionDiffusion`; for
`VelocityConvectionDiffusion` the index is 4 and the lookup is undefined behaviour, and for
`VelocityDiffusion` the label read is "VelocityConvectionDiffusion". The configuration
`coupledSetup` passes `check_input_parameters`, and `print` on it ends at this lookup. Every
other array of labels has a label for each value of the enum that indexes it. -/
theorem momentum_preconditioner_label_missing :
    str_momentum_precon.length = 4
    ∧ MomentumPreconditioner.VelocityConvectionDiffusion.cast_int = 4
    ∧ (∀ v : MomentumPreconditioner, v.cast_int < str_momentum_precon.length
        ↔ v ≠ MomentumPreconditioner.VelocityConvectionDiffusion)
    ∧ (∀ out : List Printed,
        lookup str_momentum_precon MomentumPreconditioner.VelocityConvectionDiffusion.cast_int out
          = (Except.error "undefined behaviour", out))
    ∧ (∀ out : List Printed,
        lookup str_momentum_precon MomentumPreconditioner.VelocityDiffusion.cast_int out
          = (Except.ok "VelocityConvectionDiffusion", out))
    ∧ accepts InputParametersNavierStokes.check_input_parameters coupledSetup
    ∧ outcome (coupledSetup.print exampleMultigridDataMembers) []
        = Except.error "undefined behaviour"
    ∧ (∀ v : ProblemType, v.cast_int < str_problem_type.length)
    ∧ (∀ v : EquationType, v.cast_int < str_equation_type.length)
    ∧ (∀ v : FormulationViscousTerm, v.cast_int < str_form_viscous_term.length)
    ∧ (∀ v : TemporalDiscretization, v.cast_int < str_temporal_discretization.length)
    ∧ (∀ v : TreatmentOfConvectiveTerm, v.cast_int < str_conv_term.length)
    ∧ (∀ v : TimeStepCalculation, v.cast_int < str_calc_time_step.length)
    ∧ (∀ v : SpatialDiscretization, v.cast_int < str_spatial_discret.length)
    ∧ (∀ v : InteriorPenaltyFormulation, v.cast_int < str_IP_form_visc.length)
    ∧ (∀ v : PreconditionerPressurePoisson, v.cast_int < str_precon_ppe.length)
    ∧ (∀ v : MultigridCoarseGridSolver, v.cast_int < str_multigrid_coarse_ppe.length)
    ∧ (∀ v : ProjectionType, v.cast_int < str_proj_type.length)
    ∧ (∀ v : SolverProjection, v.cast_int < str_solver_proj.length)
    ∧ (∀ v : PreconditionerProjection, v.cast_int < str_precon_proj.length)
    ∧ (∀ v : SolverViscous, v.cast_int < str_solver_viscous.length)
    ∧ (∀ v : PreconditionerViscous, v.cast_int < str_precon_viscous.length)
    ∧ (∀ v : MultigridCoarseGridSolver, v.cast_int < str_multigrid_coarse_viscous.length)
    ∧ (∀ v : SolverLinearizedNavierStokes, v.cast_int < str_solver_linearized.length)
    ∧ (∀ v : PreconditionerLinearizedNavierStokes, v.cast_int < str_precon_linear.length)
    ∧ (∀ v : SolverMomentumPreconditioner, v.cast_int < str_solver_momentum_precon.length)
    ∧ (∀ v : MultigridCoarseGridSolver, v.cast_int < str_multigrid_coarse_solver.length)
    ∧ (∀ v : SchurComplementPreconditioner, v.cast_int < str_schur_precon.length)
    ∧ (∀ v : DiscretizationOfLaplacian, v.cast_int < str_discret_laplacian.length)
    ∧ (∀ v : SolverSchurComplementPreconditioner,
        v.cast_int < str_solver_schur_precon.length) := by
  refine ⟨rfl, rfl, ?_, fun _ => rfl, fun _ => rfl, ?_, ?_, ?_, ?_, ?_, ?_, ?_, ?_, ?_, ?_, ?_,
    ?_, ?_, ?_, ?_, ?_, ?_, ?_, ?_, ?_, ?_, ?_, ?_, ?_, ?_⟩
  · intro v
    cases v <;> decide
  · rw [accepts_check_input_parameters_iff]
    simp [RulesHold, NeedsLaplaceInverse, coupledSetup, InputParametersNavierStokes.ctor,
      Double.gt_finite, Double.ofNat_eq]
  · exact print_throws exampleMultigridDataMembers coupledSetup rfl rfl []
  all_goals (intro v; cases v <;> decide)

end print_theorems

end ExaDG
